import Mathlib

/-!
Verification of the inverted-pendulum PID simulation core: the equations of
motion (`computeDerivatives`), the clamped PID controller (`computeControl`),
the fixed-step RK4 integrator (`rk4Step`), and the driver loop (`tick`,
`startCmd`, `resetCmd`) with its cart-clamping and fall-detection boundary
logic.  Real numbers model the script's numeric values; `Real.sin`, `Real.cos`
model the trigonometric functions.
-/

namespace Pendulum

noncomputable section

/-- Physical constants of the simulation, one field per entry of the source's
`PARAMS` object. -/
structure Params where
  M : ℝ
  m : ℝ
  l : ℝ
  g : ℝ
  dt : ℝ
  friction : ℝ

/-- The source's `PARAMS`: `M = 1.0`, `m = 0.1`, `l = 0.5`, `g = 9.81`,
`dt = 0.01`, `friction = 0.1`. -/
def PARAMS : Params := ⟨1, 0.1, 0.5, 9.81, 0.01, 0.1⟩

/-- The four mechanical state components that `rk4Step` passes to
`computeDerivatives` (the sub-step records `state2`..`state4` of the source
carry exactly these fields). -/
structure MechState where
  x : ℝ
  xDot : ℝ
  theta : ℝ
  thetaDot : ℝ

/-- The record returned by `computeDerivatives`. -/
structure Derivs where
  xDot : ℝ
  xDDot : ℝ
  thetaDot : ℝ
  thetaDDot : ℝ

/-- The local `denom` of `computeDerivatives`: `M + m - m*cosθ*cosθ`. -/
def denom (p : Params) (theta : ℝ) : ℝ :=
  p.M + p.m - p.m * Real.cos theta * Real.cos theta

/-- `computeDerivatives` of the source: the cart-pole equations of motion at a
mechanical state `s` under applied force `u`. -/
def computeDerivatives (p : Params) (s : MechState) (u : ℝ) : Derivs :=
  let sinTheta := Real.sin s.theta
  let cosTheta := Real.cos s.theta
  let d := denom p s.theta
  let xDDot := (u - p.friction * s.xDot + p.m * p.l * s.thetaDot * s.thetaDot * sinTheta
      - p.m * p.g * sinTheta * cosTheta) / d
  let thetaDDot := ((p.M + p.m) * p.g * sinTheta
      - cosTheta * (u - p.friction * s.xDot + p.m * p.l * s.thetaDot * s.thetaDot * sinTheta))
      / (p.l * d)
  ⟨s.xDot, xDDot, s.thetaDot, thetaDDot⟩

/-- The full simulation state record of the source. -/
structure SimState where
  x : ℝ
  xDot : ℝ
  theta : ℝ
  thetaDot : ℝ
  integral : ℝ
  time : ℝ

/-- The PID gain record (`gains` of the source). -/
structure Gains where
  Kp : ℝ
  Ki : ℝ
  Kd : ℝ

/-- The local `u` of `computeControl`: the unclamped PID expression. -/
def pidRaw (gns : Gains) (s : SimState) : ℝ :=
  gns.Kp * s.theta + gns.Ki * s.integral + gns.Kd * s.thetaDot

/-- `computeControl` of the source: the PID law clamped to `[-50, 50]` by
`Math.max(-50, Math.min(50, u))`. -/
def computeControl (gns : Gains) (s : SimState) : ℝ :=
  max (-50) (min 50 (pidRaw gns s))

/-- `rk4Step` of the source: one classical RK4 step of the mechanical state
with `u` held constant, plus the Euler update of `integral` and the `time`
increment. -/
def rk4Step (p : Params) (s : SimState) (u dt : ℝ) : SimState :=
  let k1 := computeDerivatives p ⟨s.x, s.xDot, s.theta, s.thetaDot⟩ u
  let state2 : MechState :=
    ⟨s.x + k1.xDot * dt / 2, s.xDot + k1.xDDot * dt / 2,
     s.theta + k1.thetaDot * dt / 2, s.thetaDot + k1.thetaDDot * dt / 2⟩
  let k2 := computeDerivatives p state2 u
  let state3 : MechState :=
    ⟨s.x + k2.xDot * dt / 2, s.xDot + k2.xDDot * dt / 2,
     s.theta + k2.thetaDot * dt / 2, s.thetaDot + k2.thetaDDot * dt / 2⟩
  let k3 := computeDerivatives p state3 u
  let state4 : MechState :=
    ⟨s.x + k3.xDot * dt, s.xDot + k3.xDDot * dt,
     s.theta + k3.thetaDot * dt, s.thetaDot + k3.thetaDDot * dt⟩
  let k4 := computeDerivatives p state4 u
  ⟨s.x + (k1.xDot + 2 * k2.xDot + 2 * k3.xDot + k4.xDot) * dt / 6,
   s.xDot + (k1.xDDot + 2 * k2.xDDot + 2 * k3.xDDot + k4.xDDot) * dt / 6,
   s.theta + (k1.thetaDot + 2 * k2.thetaDot + 2 * k3.thetaDot + k4.thetaDot) * dt / 6,
   s.thetaDot + (k1.thetaDDot + 2 * k2.thetaDDot + 2 * k3.thetaDDot + k4.thetaDDot) * dt / 6,
   s.integral + s.theta * dt,
   s.time + dt⟩

/-- The cart-position bound of `simulate`: when `|x| > 2.5`, set
`x = sign(x) * 2.5` and zero the velocity; otherwise leave the state alone. -/
def clampCart (s : SimState) : SimState :=
  if 2.5 < |s.x| then ⟨Real.sign s.x * 2.5, 0, s.theta, s.thetaDot, s.integral, s.time⟩
  else s

/-- The fall condition of `simulate`: `Math.abs(state.theta) > Math.PI / 2`. -/
abbrev fallen (s : SimState) : Prop := |s.theta| > Real.pi / 2

/-- Driver state: the simulation state together with the `isRunning` flag. -/
structure DriverState where
  sim : SimState
  isRunning : Bool

/-- One iteration of the fixed-timestep loop in `simulate`:
`computeControl` then `rk4Step` at the configured `dt`. -/
def stepOnce (gns : Gains) (p : Params) (s : SimState) : SimState :=
  rk4Step p s (computeControl gns s) p.dt

/-- The `stepsPerFrame = 2` sub-steps a running tick performs. -/
def stepPhase (gns : Gains) (p : Params) (s : SimState) : SimState :=
  stepOnce gns p (stepOnce gns p s)

/-- One invocation of `simulate`: nothing when not running; otherwise two
sub-steps, the cart clamp, then the fall check which clears `isRunning`. -/
def tick (gns : Gains) (p : Params) (d : DriverState) : DriverState :=
  if d.isRunning then
    let s1 := clampCart (stepPhase gns p d.sim)
    ⟨s1, if fallen s1 then false else true⟩
  else d

/-- The start-button click handler: toggles `isRunning` (pause when running,
resume when stopped); it never touches the simulation state. -/
def startCmd (d : DriverState) : DriverState :=
  if d.isRunning then ⟨d.sim, false⟩ else ⟨d.sim, true⟩

/-- `resetState` of the source: all fields zero except `theta`, which becomes
the configured initial angle. -/
def resetState (theta0 : ℝ) : SimState := ⟨0, 0, theta0, 0, 0, 0⟩

/-- The reset-button click handler: stop the driver and replace the state by
`resetState` at the configured initial angle. -/
def resetCmd (theta0 : ℝ) (_d : DriverState) : DriverState := ⟨resetState theta0, false⟩

/-- The source's initial angle: 10 degrees in radians. -/
def initialTheta : ℝ := 10 * Real.pi / 180

/-- Advance a mechanical state by `h` along the derivative record `k` — the
spec's "the state advanced by `h` using `k`". -/
def advanceMech (s : MechState) (h : ℝ) (k : Derivs) : MechState :=
  ⟨s.x + h * k.xDot, s.xDot + h * k.xDDot, s.theta + h * k.thetaDot, s.thetaDot + h * k.thetaDDot⟩

/-- The RK4 step exactly as the spec words it: `k1` at the current state, `k2`
at the state advanced by `dt/2` using `k1`, `k3` at the state advanced by
`dt/2` using `k2`, `k4` at the state advanced by `dt` using `k3`, combined
with weights 1,2,2,1 scaled by `dt/6`, with `u` held constant; `integral`
advanced by the first-order update with the pre-step `theta`, `time` by
`dt`. -/
def rk4SpecStep (p : Params) (s : SimState) (u dt : ℝ) : SimState :=
  let s0 : MechState := ⟨s.x, s.xDot, s.theta, s.thetaDot⟩
  let k1 := computeDerivatives p s0 u
  let k2 := computeDerivatives p (advanceMech s0 (dt / 2) k1) u
  let k3 := computeDerivatives p (advanceMech s0 (dt / 2) k2) u
  let k4 := computeDerivatives p (advanceMech s0 dt k3) u
  ⟨s.x + dt / 6 * (k1.xDot + 2 * k2.xDot + 2 * k3.xDot + k4.xDot),
   s.xDot + dt / 6 * (k1.xDDot + 2 * k2.xDDot + 2 * k3.xDDot + k4.xDDot),
   s.theta + dt / 6 * (k1.thetaDot + 2 * k2.thetaDot + 2 * k3.thetaDot + k4.thetaDot),
   s.thetaDot + dt / 6 * (k1.thetaDDot + 2 * k2.thetaDDot + 2 * k3.thetaDDot + k4.thetaDDot),
   s.integral + s.theta * dt,
   s.time + dt⟩

end

/-- The two accelerations of `computeDerivatives` at `PARAMS` as a function of
the three feedback coordinates (the cart position does not enter). -/
noncomputable def Dsource (w : ℝ × ℝ × ℝ) (u : ℝ) : ℝ × ℝ :=
  ((computeDerivatives PARAMS ⟨0, w.2.2, w.1, w.2.1⟩ u).xDDot,
   (computeDerivatives PARAMS ⟨0, w.2.2, w.1, w.2.1⟩ u).thetaDDot)

/-- The same accelerations written with the constants in fraction form. -/
noncomputable def Dspec (w : ℝ × ℝ × ℝ) (u : ℝ) : ℝ × ℝ :=
  ((u - 1 / 10 * w.2.2 + 1 / 20 * ((w.2.1 * w.2.1) * Real.sin w.1)
      - 981 / 1000 * (Real.sin w.1 * Real.cos w.1))
    / (11 / 10 - 1 / 10 * (Real.cos w.1 * Real.cos w.1)),
   (10791 / 1000 * Real.sin w.1
      - Real.cos w.1 * (u - 1 / 10 * w.2.2 + 1 / 20 * ((w.2.1 * w.2.1) * Real.sin w.1)))
    / (1 / 2 * (11 / 10 - 1 / 10 * (Real.cos w.1 * Real.cos w.1))))

/-- An RK4 step over `(theta, thetaDot, xDot)` with the update arithmetic
shaped exactly as in `rk4Step`. -/
noncomputable def rk4c (F : ℝ × ℝ × ℝ → ℝ → ℝ × ℝ) (u dt : ℝ) (v : ℝ × ℝ × ℝ) :
    ℝ × ℝ × ℝ :=
  let a := v.1
  let b := v.2.1
  let g := v.2.2
  let d1 := F (a, b, g) u
  let a2 := a + b * dt / 2
  let b2 := b + d1.2 * dt / 2
  let g2 := g + d1.1 * dt / 2
  let d2 := F (a2, b2, g2) u
  let a3 := a + b2 * dt / 2
  let b3 := b + d2.2 * dt / 2
  let g3 := g + d2.1 * dt / 2
  let d3 := F (a3, b3, g3) u
  let a4 := a + b3 * dt
  let b4 := b + d3.2 * dt
  let g4 := g + d3.1 * dt
  let d4 := F (a4, b4, g4) u
  (a + (b + 2 * b2 + 2 * b3 + b4) * dt / 6,
   b + (d1.2 + 2 * d2.2 + 2 * d3.2 + d4.2) * dt / 6,
   g + (d1.1 + 2 * d2.1 + 2 * d3.1 + d4.1) * dt / 6)

/-- The same RK4 step with the update arithmetic shaped as in
`PendChk.f3step` (`dt = 1/100` folded into the fractions). -/
noncomputable def g4c (F : ℝ × ℝ × ℝ → ℝ → ℝ × ℝ) (u : ℝ) (v : ℝ × ℝ × ℝ) :
    ℝ × ℝ × ℝ :=
  let a := v.1
  let b := v.2.1
  let g := v.2.2
  let d1 := F (a, b, g) u
  let a2 := a + 1 / 200 * b
  let b2 := b + 1 / 200 * d1.2
  let g2 := g + 1 / 200 * d1.1
  let d2 := F (a2, b2, g2) u
  let a3 := a + 1 / 200 * b2
  let b3 := b + 1 / 200 * d2.2
  let g3 := g + 1 / 200 * d2.1
  let d3 := F (a3, b3, g3) u
  let a4 := a + 1 / 100 * b3
  let b4 := b + 1 / 100 * d3.2
  let g4 := g + 1 / 100 * d3.1
  let d4 := F (a4, b4, g4) u
  (a + 1 / 600 * ((b + 2 * b2) + (2 * b3 + b4)),
   b + 1 / 600 * ((d1.2 + 2 * d2.2) + (2 * d3.2 + d4.2)),
   g + 1 / 600 * ((d1.1 + 2 * d2.1) + (2 * d3.1 + d4.1)))

end Pendulum

namespace PendChk

/-- Fixed-point scale: all checker numbers are integers denoting `n / 2^60`. -/
def fsc : ℤ := 1152921504606846976

/-- Floor division (exact floor for positive divisor). -/
def fdn (a b : ℤ) : ℤ := Int.ediv a b

/-- Ceiling division for positive divisor. -/
def cup (a b : ℤ) : ℤ := -Int.ediv (-a) b

/-- A fixed-point interval `[lo/2^60, hi/2^60]`. -/
structure Iv where
  lo : ℤ
  hi : ℤ
deriving Repr

def ivz : Iv := ⟨0, 0⟩

def ivadd (a b : Iv) : Iv := ⟨a.lo + b.lo, a.hi + b.hi⟩

def ivsub (a b : Iv) : Iv := ⟨a.lo - b.hi, a.hi - b.lo⟩

def ivmul (a b : Iv) : Iv :=
  let p1 := a.lo * b.lo
  let p2 := a.lo * b.hi
  let p3 := a.hi * b.lo
  let p4 := a.hi * b.hi
  ⟨fdn (min (min p1 p2) (min p3 p4)) fsc, cup (max (max p1 p2) (max p3 p4)) fsc⟩

def ivinv (b : Iv) : Iv := ⟨fdn (fsc * fsc) b.hi, cup (fsc * fsc) b.lo⟩

def ivdiv (a b : Iv) : Iv := ivmul a (ivinv b)

def ivabsup (a : Iv) : ℤ := max a.hi (-a.lo)

def ivsmulsym (a : Iv) (r : ℤ) : Iv :=
  let m := cup (ivabsup a * r) fsc
  ⟨-m, m⟩

/-- Outward-rounded constant `n / d` (for `d > 0`). -/
def cIv (n d : ℤ) : Iv := ⟨fdn (n * fsc) d, cup (n * fsc) d⟩

/-- Three fixed-point numbers (a center or radius vector). -/
structure IV3 where
  q1 : ℤ
  q2 : ℤ
  q3 : ℤ
deriving Repr, DecidableEq

/-- A slope-form node: an enclosure of the value at the center and of the
three partial slopes with respect to the error coordinates. -/
structure SNode where
  val : Iv
  s1 : Iv
  s2 : Iv
  s3 : Iv

def srange (E : IV3) (n : SNode) : Iv :=
  ivadd (ivadd n.val (ivsmulsym n.s1 E.q1)) (ivadd (ivsmulsym n.s2 E.q2) (ivsmulsym n.s3 E.q3))

def sconst (coef : Iv) : SNode := ⟨coef, ivz, ivz, ivz⟩

def svarA (c : ℤ) : SNode := ⟨⟨c, c⟩, ⟨fsc, fsc⟩, ivz, ivz⟩

def svarB (c : ℤ) : SNode := ⟨⟨c, c⟩, ivz, ⟨fsc, fsc⟩, ivz⟩

def svarC (c : ℤ) : SNode := ⟨⟨c, c⟩, ivz, ivz, ⟨fsc, fsc⟩⟩

def sadd (a b : SNode) : SNode :=
  ⟨ivadd a.val b.val, ivadd a.s1 b.s1, ivadd a.s2 b.s2, ivadd a.s3 b.s3⟩

def ssub (a b : SNode) : SNode :=
  ⟨ivsub a.val b.val, ivsub a.s1 b.s1, ivsub a.s2 b.s2, ivsub a.s3 b.s3⟩

def sscale (coef : Iv) (a : SNode) : SNode :=
  ⟨ivmul coef a.val, ivmul coef a.s1, ivmul coef a.s2, ivmul coef a.s3⟩

def smul (E : IV3) (a b : SNode) : SNode :=
  let rb := srange E b
  ⟨ivmul a.val b.val,
   ivadd (ivmul a.s1 rb) (ivmul a.val b.s1),
   ivadd (ivmul a.s2 rb) (ivmul a.val b.s2),
   ivadd (ivmul a.s3 rb) (ivmul a.val b.s3)⟩

def sdiv (E : IV3) (a b : SNode) : SNode × Bool :=
  let rb := srange E b
  let dd := ivmul rb b.val
  (⟨ivdiv a.val b.val,
    ivdiv (ivsub (ivmul a.s1 b.val) (ivmul a.val b.s1)) dd,
    ivdiv (ivsub (ivmul a.s2 b.val) (ivmul a.val b.s2)) dd,
    ivdiv (ivsub (ivmul a.s3 b.val) (ivmul a.val b.s3)) dd⟩,
   decide (0 < b.val.lo) && decide (0 < dd.lo))

def ivmid (I : Iv) : ℤ := fdn (I.lo + I.hi) 2

def mid1Ok (I : Iv) : Bool :=
  let m := ivmid I
  decide (-fsc ≤ m ∧ m ≤ fsc)

/-- Enclosure of `sin` over an interval within `[-1, 1]`: cubic Taylor at the
midpoint, quartic remainder, Lipschitz widening by the radius. -/
def sinIv (I : Iv) : Iv :=
  let m := ivmid I
  let r := max (I.hi - m) (m - I.lo)
  let plo := m - cup (m * m * m) (6 * fsc * fsc)
  let phi := m - fdn (m * m * m) (6 * fsc * fsc)
  let e1 := cup (m * m * m * m * 5) (96 * fsc * fsc * fsc)
  ⟨plo - e1 - r, phi + e1 + r⟩

/-- Enclosure of `cos` over an interval within `[-1, 1]`. -/
def cosIv (I : Iv) : Iv :=
  let m := ivmid I
  let r := max (I.hi - m) (m - I.lo)
  let plo := fsc - cup (m * m) (2 * fsc)
  let phi := fsc - fdn (m * m) (2 * fsc)
  let e1 := cup (m * m * m * m * 5) (96 * fsc * fsc * fsc)
  ⟨plo - e1 - r, phi + e1 + r⟩

/-- Bound on how far a node's value can move from its center over the error box. -/
def deltaBound (E : IV3) (n : SNode) : ℤ :=
  cup (ivabsup n.s1 * E.q1) fsc + cup (ivabsup n.s2 * E.q2) fsc + cup (ivabsup n.s3 * E.q3) fsc

/-- Enclosure of `sin t / t` for `|t| ≤ dE/2`. -/
def sigIv (dE : ℤ) : Iv := ⟨fsc - cup (dE * dE) (16 * fsc), fsc⟩

def ssin (E : IV3) (n : SNode) : SNode × Bool :=
  let rn := srange E n
  let dE := deltaBound E n
  let psi := ivmul (sigIv dE) (cosIv rn)
  (⟨sinIv n.val, ivmul psi n.s1, ivmul psi n.s2, ivmul psi n.s3⟩,
   mid1Ok n.val && mid1Ok rn && decide (dE ≤ 2 * fsc))

def scos (E : IV3) (n : SNode) : SNode × Bool :=
  let rn := srange E n
  let dE := deltaBound E n
  let psi := ivmul ⟨-fsc, -fsc⟩ (ivmul (sigIv dE) (sinIv rn))
  (⟨cosIv n.val, ivmul psi n.s1, ivmul psi n.s2, ivmul psi n.s3⟩,
   mid1Ok n.val && mid1Ok rn && decide (dE ≤ 2 * fsc))

def clampOk (E : IV3) (n : SNode) : Bool :=
  let rn := srange E n
  decide (-50 * fsc ≤ rn.lo ∧ rn.hi ≤ 50 * fsc ∧ -50 * fsc ≤ n.val.lo ∧ n.val.hi ≤ 50 * fsc)

/-- Slope-form evaluation of the equations of motion (with `PARAMS` inlined):
returns enclosures for `xDDot` and `thetaDDot` and the validity flag. -/
def derivsQ (E : IV3) (th thd xd u : SNode) : SNode × SNode × Bool :=
  let sp := ssin E th
  let cp := scos E th
  let s := sp.1
  let c := cp.1
  let d := ssub (sconst (cIv 11 10)) (sscale (cIv 1 10) (smul E c c))
  let n1 := sadd (ssub u (sscale (cIv 1 10) xd)) (sscale (cIv 1 20) (smul E (smul E thd thd) s))
  let numx := ssub n1 (sscale (cIv 981 1000) (smul E s c))
  let xp := sdiv E numx d
  let numt := ssub (sscale (cIv 10791 1000) s) (smul E c n1)
  let tp := sdiv E numt (sscale (cIv 1 2) d)
  (xp.1, tp.1, sp.2 && cp.2 && xp.2 && tp.2)

def shalf (x k : SNode) : SNode := sadd x (sscale (cIv 1 200) k)

def sfull (x k : SNode) : SNode := sadd x (sscale (cIv 1 100) k)

def scomb (x0 a1 a2 a3 a4 : SNode) : SNode :=
  sadd x0 (sscale (cIv 1 600)
    (sadd (sadd a1 (sscale (cIv 2 1) a2)) (sadd (sscale (cIv 2 1) a3) a4)))

/-- Slope-form evaluation of one closed-loop RK4 step (controller inlined,
clamp verified inactive). -/
def rk4Q (E : IV3) (c : IV3) : SNode × SNode × SNode × Bool :=
  let th0 := svarA c.q1
  let thd0 := svarB c.q2
  let xd0 := svarC c.q3
  let pid := sadd (sscale (cIv 50 1) th0) (sscale (cIv 20 1) thd0)
  let u := pid
  let d1 := derivsQ E th0 thd0 xd0 u
  let x1 := d1.1
  let t1 := d1.2.1
  let th2 := shalf th0 thd0
  let thd2 := shalf thd0 t1
  let xd2 := shalf xd0 x1
  let d2 := derivsQ E th2 thd2 xd2 u
  let x2 := d2.1
  let t2 := d2.2.1
  let th3 := shalf th0 thd2
  let thd3 := shalf thd0 t2
  let xd3 := shalf xd0 x2
  let d3 := derivsQ E th3 thd3 xd3 u
  let x3 := d3.1
  let t3 := d3.2.1
  let th4 := sfull th0 thd3
  let thd4 := sfull thd0 t3
  let xd4 := sfull xd0 x3
  let d4 := derivsQ E th4 thd4 xd4 u
  let x4 := d4.1
  let t4 := d4.2.1
  let thN := scomb th0 thd0 thd2 thd3 thd4
  let thdN := scomb thd0 t1 t2 t3 t4
  let xdN := scomb xd0 x1 x2 x3 x4
  (thN, thdN, xdN, clampOk E pid && d1.2.2 && d2.2.2 && d3.2.2 && d4.2.2)

/-- The error box `E = |M| * rho` for the modal matrix below. -/
def eboxOf (r : IV3) : IV3 :=
  ⟨r.q1 + r.q2 + cup r.q3 400,
   2 * r.q1 + 38 * r.q2,
   4 * r.q1 + 19 * r.q2 + r.q3⟩

/-- One row-column accumulation `|sum Minv_ij A_jk M_kl|` of the modal
contraction matrix, with the nine rational coefficients passed as pairs. -/
def bEntry (c1n c1d c2n c2d c3n c3d : ℤ) (a1 a2 a3 : SNode)
    (m1n m1d m2n m2d m3n m3d : ℤ) : ℤ :=
  ivabsup (ivadd (ivadd
    (ivadd (ivadd (ivmul (cIv (c1n * m1n) (c1d * m1d)) a1.s1)
                  (ivmul (cIv (c1n * m2n) (c1d * m2d)) a1.s2))
           (ivmul (cIv (c1n * m3n) (c1d * m3d)) a1.s3))
    (ivadd (ivadd (ivmul (cIv (c2n * m1n) (c2d * m1d)) a2.s1)
                  (ivmul (cIv (c2n * m2n) (c2d * m2d)) a2.s2))
           (ivmul (cIv (c2n * m3n) (c2d * m3d)) a2.s3)))
    (ivadd (ivadd (ivmul (cIv (c3n * m1n) (c3d * m1d)) a3.s1)
                  (ivmul (cIv (c3n * m2n) (c3d * m2d)) a3.s2))
           (ivmul (cIv (c3n * m3n) (c3d * m3d)) a3.s3)))

def stepN (a1 a2 a3 : SNode) (r : IV3) : IV3 × IV3 :=
  let c1 := ivmid a1.val
  let c2 := ivmid a2.val
  let c3 := ivmid a3.val
  let dc1 := max (a1.val.hi - c1) (c1 - a1.val.lo)
  let dc2 := max (a2.val.hi - c2) (c2 - a2.val.lo)
  let dc3 := max (a3.val.hi - c3) (c3 - a3.val.lo)
  let b11 := bEntry 1520 1459 381 14590 (-19) 7295 a1 a2 a3 1 1 (-2) 1 (-4) 1
  let b12 := bEntry 1520 1459 381 14590 (-19) 7295 a1 a2 a3 1 1 (-38) 1 19 1
  let b13 := bEntry 1520 1459 381 14590 (-19) 7295 a1 a2 a3 1 400 0 1 1 1
  let b21 := bEntry (-80) 1459 (-202) 7295 1 7295 a1 a2 a3 1 1 (-2) 1 (-4) 1
  let b22 := bEntry (-80) 1459 (-202) 7295 1 7295 a1 a2 a3 1 1 (-38) 1 19 1
  let b23 := bEntry (-80) 1459 (-202) 7295 1 7295 a1 a2 a3 1 400 0 1 1 1
  let b31 := bEntry 7600 1459 920 1459 1440 1459 a1 a2 a3 1 1 (-2) 1 (-4) 1
  let b32 := bEntry 7600 1459 920 1459 1440 1459 a1 a2 a3 1 1 (-38) 1 19 1
  let b33 := bEntry 7600 1459 920 1459 1440 1459 a1 a2 a3 1 400 0 1 1 1
  let r1 := cup (b11 * r.q1) fsc + cup (b12 * r.q2) fsc + cup (b13 * r.q3) fsc
    + cup (1520 * dc1) 1459 + cup (381 * dc2) 14590 + cup (19 * dc3) 7295
  let r2 := cup (b21 * r.q1) fsc + cup (b22 * r.q2) fsc + cup (b23 * r.q3) fsc
    + cup (80 * dc1) 1459 + cup (202 * dc2) 7295 + cup (1 * dc3) 7295
  let r3 := cup (b31 * r.q1) fsc + cup (b32 * r.q2) fsc + cup (b33 * r.q3) fsc
    + cup (7600 * dc1) 1459 + cup (920 * dc2) 1459 + cup (1440 * dc3) 1459
  (⟨c1, c2, c3⟩, ⟨r1, r2, r3⟩)

def stepQ (c r : IV3) : IV3 × IV3 × Bool :=
  let o := rk4Q (eboxOf r) c
  let p := stepN o.1 o.2.1 o.2.2.1 r
  (p.1, p.2, o.2.2.2)

def thetaOkQ (c r : IV3) : Bool :=
  decide ((max c.q1 (-c.q1) + (r.q1 + r.q2 + cup r.q3 400)) * 100 ≤ 157 * fsc)

def runQ : ℕ → IV3 → IV3 → Bool
  | 0, _, _ => true
  | n + 1, c, r =>
    let o := stepQ c r
    o.2.2 && thetaOkQ o.1 o.2.1 && runQ n o.1 o.2.1

def stIter : ℕ → IV3 × IV3 → IV3 × IV3
  | 0, p => p
  | n + 1, p =>
    let o := stepQ p.1 p.2
    stIter n (o.1, o.2.1)

def c0Q : IV3 := ⟨201222762724364512, 0, 0⟩

def rho0Q : IV3 := ⟨345876451383, 23058430093, 3458764513821⟩

noncomputable def toR (n : ℤ) : ℝ := (n : ℝ) / (fsc : ℝ)

def memIv (x : ℝ) (I : Iv) : Prop := toR I.lo ≤ x ∧ x ≤ toR I.hi

/-- The error box predicate: each error coordinate bounded by `E`. -/
def EB (E : IV3) (e : ℝ × ℝ × ℝ) : Prop :=
  |e.1| ≤ toR E.q1 ∧ |e.2.1| ≤ toR E.q2 ∧ |e.2.2| ≤ toR E.q3

/-- Soundness of a slope-form node for a function of the error vector:
the center value lies in `val`, and on the error box the deviation from the
center is a linear combination with coefficients in the slope intervals. -/
def SoundN (E : IV3) (f : ℝ × ℝ × ℝ → ℝ) (n : SNode) : Prop :=
  memIv (f (0, 0, 0)) n.val ∧
  ∀ e : ℝ × ℝ × ℝ, EB E e → ∃ a1 a2 a3 : ℝ,
    memIv a1 n.s1 ∧ memIv a2 n.s2 ∧ memIv a3 n.s3 ∧
    f e - f (0, 0, 0) = a1 * e.1 + a2 * e.2.1 + a3 * e.2.2

/-- The real closed-loop RK4 step of the simulation, written over an absolute
state `(theta, thetaDot, xDot)` with the cart position dropped (it does not
feed back into the other three coordinates). -/
noncomputable def f3step (v : ℝ × ℝ × ℝ) : ℝ × ℝ × ℝ :=
  let a0 := v.1
  let b0 := v.2.1
  let g0 := v.2.2
  let u := max (-50) (min 50 (50 * a0 + 20 * b0))
  let x1 := (u - 1 / 10 * g0 + 1 / 20 * ((b0 * b0) * Real.sin a0)
      - 981 / 1000 * (Real.sin a0 * Real.cos a0))
      / (11 / 10 - 1 / 10 * (Real.cos a0 * Real.cos a0))
  let t1 := (10791 / 1000 * Real.sin a0 - Real.cos a0 * (u - 1 / 10 * g0
      + 1 / 20 * ((b0 * b0) * Real.sin a0)))
      / (1 / 2 * (11 / 10 - 1 / 10 * (Real.cos a0 * Real.cos a0)))
  let a2 := a0 + 1 / 200 * b0
  let b2 := b0 + 1 / 200 * t1
  let g2 := g0 + 1 / 200 * x1
  let x2 := (u - 1 / 10 * g2 + 1 / 20 * ((b2 * b2) * Real.sin a2)
      - 981 / 1000 * (Real.sin a2 * Real.cos a2))
      / (11 / 10 - 1 / 10 * (Real.cos a2 * Real.cos a2))
  let t2 := (10791 / 1000 * Real.sin a2 - Real.cos a2 * (u - 1 / 10 * g2
      + 1 / 20 * ((b2 * b2) * Real.sin a2)))
      / (1 / 2 * (11 / 10 - 1 / 10 * (Real.cos a2 * Real.cos a2)))
  let a3 := a0 + 1 / 200 * b2
  let b3 := b0 + 1 / 200 * t2
  let g3 := g0 + 1 / 200 * x2
  let x3 := (u - 1 / 10 * g3 + 1 / 20 * ((b3 * b3) * Real.sin a3)
      - 981 / 1000 * (Real.sin a3 * Real.cos a3))
      / (11 / 10 - 1 / 10 * (Real.cos a3 * Real.cos a3))
  let t3 := (10791 / 1000 * Real.sin a3 - Real.cos a3 * (u - 1 / 10 * g3
      + 1 / 20 * ((b3 * b3) * Real.sin a3)))
      / (1 / 2 * (11 / 10 - 1 / 10 * (Real.cos a3 * Real.cos a3)))
  let a4 := a0 + 1 / 100 * b3
  let b4 := b0 + 1 / 100 * t3
  let g4 := g0 + 1 / 100 * x3
  let x4 := (u - 1 / 10 * g4 + 1 / 20 * ((b4 * b4) * Real.sin a4)
      - 981 / 1000 * (Real.sin a4 * Real.cos a4))
      / (11 / 10 - 1 / 10 * (Real.cos a4 * Real.cos a4))
  let t4 := (10791 / 1000 * Real.sin a4 - Real.cos a4 * (u - 1 / 10 * g4
      + 1 / 20 * ((b4 * b4) * Real.sin a4)))
      / (1 / 2 * (11 / 10 - 1 / 10 * (Real.cos a4 * Real.cos a4)))
  (a0 + 1 / 600 * ((b0 + 2 * b2) + (2 * b3 + b4)),
   b0 + 1 / 600 * ((t1 + 2 * t2) + (2 * t3 + t4)),
   g0 + 1 / 600 * ((x1 + 2 * x2) + (2 * x3 + x4)))

/-- The state `v` lies in the modal enclosure with center `c` and modal radii
`r`: `v = c + M z` with `|z_i| <= r_i`, for the modal matrix `M` with rows
`(1, 1, 1/400)`, `(-2, -38, 0)`, `(-4, 19, 1)`. -/
def InEnc (c r : IV3) (v : ℝ × ℝ × ℝ) : Prop :=
  ∃ z1 z2 z3 : ℝ, |z1| ≤ toR r.q1 ∧ |z2| ≤ toR r.q2 ∧ |z3| ≤ toR r.q3 ∧
    v.1 = toR c.q1 + (z1 + z2 + 1 / 400 * z3) ∧
    v.2.1 = toR c.q2 + (-2 * z1 - 38 * z2) ∧
    v.2.2 = toR c.q3 + (-4 * z1 + 19 * z2 + z3)

def runIter : ℕ → IV3 × IV3 × Bool → IV3 × IV3 × Bool
  | 0, p => p
  | n + 1, p =>
    let o := stepQ p.1 p.2.1
    runIter n (o.1, o.2.1, p.2.2 && o.2.2 && thetaOkQ o.1 o.2.1)

theorem fsc_pos : (0 : ℤ) < fsc := by norm_num [fsc]

theorem fscR_pos : (0 : ℝ) < (fsc : ℝ) := by exact_mod_cast fsc_pos

theorem toR_fsc : toR fsc = 1 := div_self (ne_of_gt fscR_pos)

theorem toR_zero : toR 0 = 0 := by simp [toR]

theorem toR_add (a b : ℤ) : toR (a + b) = toR a + toR b := by
  unfold toR
  push_cast
  ring

theorem toR_sub (a b : ℤ) : toR (a - b) = toR a - toR b := by
  unfold toR
  push_cast
  ring

theorem toR_neg (a : ℤ) : toR (-a) = -toR a := by
  unfold toR
  push_cast
  ring

theorem toR_le {a b : ℤ} (h : a ≤ b) : toR a ≤ toR b := by
  unfold toR
  have h' : (a : ℝ) ≤ (b : ℝ) := by exact_mod_cast h
  have hp := fscR_pos
  rw [div_le_div_iff₀ hp hp]
  nlinarith

theorem toR_min (a b : ℤ) : toR (min a b) = min (toR a) (toR b) := by
  rcases le_total a b with h | h
  · rw [min_eq_left h, min_eq_left (toR_le h)]
  · rw [min_eq_right h, min_eq_right (toR_le h)]

theorem toR_max (a b : ℤ) : toR (max a b) = max (toR a) (toR b) := by
  rcases le_total a b with h | h
  · rw [max_eq_right h, max_eq_right (toR_le h)]
  · rw [max_eq_left h, max_eq_left (toR_le h)]

/-- Floor division under-approximates the real quotient (positive divisor). -/
theorem fdn_le (a b : ℤ) (hb : 0 < b) : ((fdn a b : ℤ) : ℝ) ≤ (a : ℝ) / (b : ℝ) := by
  have hbR : (0 : ℝ) < (b : ℝ) := by exact_mod_cast hb
  rw [le_div_iff₀ hbR]
  have h1 : b * Int.ediv a b + Int.emod a b = a := Int.ediv_add_emod a b
  have h2 : 0 ≤ Int.emod a b := Int.emod_nonneg a (ne_of_gt hb)
  have h3 : b * Int.ediv a b ≤ a := by omega
  have h4 : ((b * Int.ediv a b : ℤ) : ℝ) ≤ (a : ℝ) := by exact_mod_cast h3
  push_cast at h4 ⊢
  unfold fdn
  nlinarith

/-- Ceiling division over-approximates the real quotient (positive divisor). -/
theorem le_cup (a b : ℤ) (hb : 0 < b) : (a : ℝ) / (b : ℝ) ≤ ((cup a b : ℤ) : ℝ) := by
  have h := fdn_le (-a) b hb
  unfold cup
  push_cast
  push_cast at h
  unfold fdn at h
  have hbR : (0 : ℝ) < (b : ℝ) := by exact_mod_cast hb
  rw [neg_div] at h
  linarith

/-- `fdn · fsc` under-approximates at the next scale: dividing a scale-`fsc²`
number by `fsc` stays below the represented real. -/
theorem toR_fdn_fsc (p : ℤ) : toR (fdn p fsc) ≤ (p : ℝ) / ((fsc : ℝ) * (fsc : ℝ)) := by
  unfold toR
  have h := fdn_le p fsc fsc_pos
  have hp := fscR_pos
  rw [div_le_div_iff₀ hp (by positivity)]
  rw [le_div_iff₀ hp] at h
  nlinarith

theorem toR_cup_fsc (p : ℤ) : (p : ℝ) / ((fsc : ℝ) * (fsc : ℝ)) ≤ toR (cup p fsc) := by
  unfold toR
  have h := le_cup p fsc fsc_pos
  have hp := fscR_pos
  rw [div_le_div_iff₀ (by positivity) hp]
  rw [div_le_iff₀ hp] at h
  nlinarith

theorem memIv_add {x y : ℝ} {a b : Iv} (hx : memIv x a) (hy : memIv y b) :
    memIv (x + y) (ivadd a b) := by
  obtain ⟨h1, h2⟩ := hx
  obtain ⟨h3, h4⟩ := hy
  exact ⟨by rw [ivadd, toR_add]; exact add_le_add h1 h3,
         by rw [ivadd, toR_add]; exact add_le_add h2 h4⟩

theorem memIv_sub {x y : ℝ} {a b : Iv} (hx : memIv x a) (hy : memIv y b) :
    memIv (x - y) (ivsub a b) := by
  obtain ⟨h1, h2⟩ := hx
  obtain ⟨h3, h4⟩ := hy
  exact ⟨by rw [ivsub, toR_sub]; exact sub_le_sub h1 h4,
         by rw [ivsub, toR_sub]; exact sub_le_sub h2 h3⟩

theorem memIv_zero : memIv 0 ivz := by
  constructor <;> simp [ivz, toR_zero]

/-- Four-products bound for interval multiplication, real level. -/
theorem mul_lb {X Y al ah bl bh : ℝ} (h1 : al ≤ X) (h2 : X ≤ ah) (h3 : bl ≤ Y) (h4 : Y ≤ bh) :
    min (min (al * bl) (al * bh)) (min (ah * bl) (ah * bh)) ≤ X * Y := by
  rcases le_or_lt 0 Y with hy | hy
  · have hXY : al * Y ≤ X * Y := mul_le_mul_of_nonneg_right h1 hy
    rcases le_or_lt 0 al with ha | ha
    · have : al * bl ≤ al * Y := mul_le_mul_of_nonneg_left h3 ha
      calc min (min (al * bl) (al * bh)) (min (ah * bl) (ah * bh))
          ≤ al * bl := le_trans (min_le_left _ _) (min_le_left _ _)
        _ ≤ X * Y := by linarith
    · have : al * bh ≤ al * Y := by nlinarith
      calc min (min (al * bl) (al * bh)) (min (ah * bl) (ah * bh))
          ≤ al * bh := le_trans (min_le_left _ _) (min_le_right _ _)
        _ ≤ X * Y := by linarith
  · have hXY : ah * Y ≤ X * Y := by nlinarith
    rcases le_or_lt 0 ah with ha | ha
    · have : ah * bl ≤ ah * Y := mul_le_mul_of_nonneg_left h3 ha
      calc min (min (al * bl) (al * bh)) (min (ah * bl) (ah * bh))
          ≤ ah * bl := le_trans (min_le_right _ _) (min_le_left _ _)
        _ ≤ X * Y := by linarith
    · have : ah * bh ≤ ah * Y := by nlinarith
      calc min (min (al * bl) (al * bh)) (min (ah * bl) (ah * bh))
          ≤ ah * bh := le_trans (min_le_right _ _) (min_le_right _ _)
        _ ≤ X * Y := by linarith

theorem mul_ub {X Y al ah bl bh : ℝ} (h1 : al ≤ X) (h2 : X ≤ ah) (h3 : bl ≤ Y) (h4 : Y ≤ bh) :
    X * Y ≤ max (max (al * bl) (al * bh)) (max (ah * bl) (ah * bh)) := by
  rcases le_or_lt 0 Y with hy | hy
  · have hXY : X * Y ≤ ah * Y := mul_le_mul_of_nonneg_right h2 hy
    rcases le_or_lt 0 ah with ha | ha
    · have h5 : ah * Y ≤ ah * bh := mul_le_mul_of_nonneg_left h4 ha
      calc X * Y ≤ ah * bh := by linarith
        _ ≤ max (max (al * bl) (al * bh)) (max (ah * bl) (ah * bh)) :=
            le_trans (le_max_right _ _) (le_max_right _ _)
    · have h5 : ah * Y ≤ ah * bl := by nlinarith
      calc X * Y ≤ ah * bl := by linarith
        _ ≤ max (max (al * bl) (al * bh)) (max (ah * bl) (ah * bh)) :=
            le_trans (le_max_left _ _) (le_max_right _ _)
  · have hXY : X * Y ≤ al * Y := by nlinarith
    rcases le_or_lt 0 al with ha | ha
    · have h5 : al * Y ≤ al * bh := mul_le_mul_of_nonneg_left h4 ha
      calc X * Y ≤ al * bh := by linarith
        _ ≤ max (max (al * bl) (al * bh)) (max (ah * bl) (ah * bh)) :=
            le_trans (le_max_right _ _) (le_max_left _ _)
    · have h5 : al * Y ≤ al * bl := by nlinarith
      calc X * Y ≤ al * bl := by linarith
        _ ≤ max (max (al * bl) (al * bh)) (max (ah * bl) (ah * bh)) :=
            le_trans (le_max_left _ _) (le_max_left _ _)

theorem memIv_mul {x y : ℝ} {a b : Iv} (hx : memIv x a) (hy : memIv y b) :
    memIv (x * y) (ivmul a b) := by
  obtain ⟨h1, h2⟩ := hx
  obtain ⟨h3, h4⟩ := hy
  have hp := fscR_pos
  have hXl : (a.lo : ℝ) ≤ x * fsc := by
    rw [toR, div_le_iff₀ hp] at h1
    linarith
  have hXh : x * fsc ≤ (a.hi : ℝ) := by
    rw [toR, le_div_iff₀ hp] at h2
    linarith
  have hYl : (b.lo : ℝ) ≤ y * fsc := by
    rw [toR, div_le_iff₀ hp] at h3
    linarith
  have hYh : y * fsc ≤ (b.hi : ℝ) := by
    rw [toR, le_div_iff₀ hp] at h4
    linarith
  have hlb := mul_lb hXl hXh hYl hYh
  have hub := mul_ub hXl hXh hYl hYh
  refine ⟨?_, ?_⟩
  · show toR (fdn (min (min (a.lo * b.lo) (a.lo * b.hi)) (min (a.hi * b.lo) (a.hi * b.hi))) fsc)
      ≤ x * y
    have step1 := toR_fdn_fsc
      (min (min (a.lo * b.lo) (a.lo * b.hi)) (min (a.hi * b.lo) (a.hi * b.hi)))
    have step2 : ((min (min (a.lo * b.lo) (a.lo * b.hi)) (min (a.hi * b.lo) (a.hi * b.hi)) : ℤ) : ℝ)
        ≤ (x * fsc) * (y * fsc) := by
      push_cast
      exact hlb
    have step3 : ((min (min (a.lo * b.lo) (a.lo * b.hi)) (min (a.hi * b.lo) (a.hi * b.hi)) : ℤ) : ℝ)
        / ((fsc : ℝ) * (fsc : ℝ)) ≤ x * y := by
      rw [div_le_iff₀ (by positivity)]
      nlinarith
    linarith
  · show x * y
      ≤ toR (cup (max (max (a.lo * b.lo) (a.lo * b.hi)) (max (a.hi * b.lo) (a.hi * b.hi))) fsc)
    have step1 := toR_cup_fsc
      (max (max (a.lo * b.lo) (a.lo * b.hi)) (max (a.hi * b.lo) (a.hi * b.hi)))
    have step2 : (x * fsc) * (y * fsc)
        ≤ ((max (max (a.lo * b.lo) (a.lo * b.hi)) (max (a.hi * b.lo) (a.hi * b.hi)) : ℤ) : ℝ) := by
      push_cast
      exact hub
    have step3 : x * y ≤
        ((max (max (a.lo * b.lo) (a.lo * b.hi)) (max (a.hi * b.lo) (a.hi * b.hi)) : ℤ) : ℝ)
        / ((fsc : ℝ) * (fsc : ℝ)) := by
      rw [le_div_iff₀ (by positivity)]
      nlinarith
    linarith

/-- Reciprocal of an interval with positive lower bound. -/
theorem memIv_inv {y : ℝ} {b : Iv} (hy : memIv y b) (hb : 0 < b.lo) :
    memIv (1 / y) (ivinv b) := by
  obtain ⟨h1, h2⟩ := hy
  have hp := fscR_pos
  have hloR : (0 : ℝ) < (b.lo : ℝ) := by exact_mod_cast hb
  have hylo : 0 < toR b.lo := by
    unfold toR
    positivity
  have hy0 : 0 < y := lt_of_lt_of_le hylo h1
  have hbhi : (0 : ℤ) < b.hi := by
    by_contra hcon
    push_neg at hcon
    have hle := toR_le hcon
    rw [toR_zero] at hle
    have : 0 < toR b.hi := lt_of_lt_of_le hy0 h2
    linarith
  have hhiR : (0 : ℝ) < (b.hi : ℝ) := by exact_mod_cast hbhi
  constructor
  · show toR (fdn (fsc * fsc) b.hi) ≤ 1 / y
    have s1 : ((fdn (fsc * fsc) b.hi : ℤ) : ℝ) ≤ ((fsc : ℝ) * fsc) / (b.hi : ℝ) := by
      have := fdn_le (fsc * fsc) b.hi hbhi
      push_cast at this ⊢
      linarith
    have s2 : toR (fdn (fsc * fsc) b.hi) ≤ (fsc : ℝ) / (b.hi : ℝ) := by
      unfold toR
      rw [div_le_div_iff₀ hp hhiR]
      rw [le_div_iff₀ hhiR] at s1
      nlinarith
    have s3 : (fsc : ℝ) / (b.hi : ℝ) = 1 / toR b.hi := by
      unfold toR
      field_simp
    have s4 : 1 / toR b.hi ≤ 1 / y := by
      apply one_div_le_one_div_of_le hy0 h2
    linarith
  · show 1 / y ≤ toR (cup (fsc * fsc) b.lo)
    have s1 : ((fsc : ℝ) * fsc) / (b.lo : ℝ) ≤ ((cup (fsc * fsc) b.lo : ℤ) : ℝ) := by
      have := le_cup (fsc * fsc) b.lo hb
      push_cast at this ⊢
      linarith
    have s2 : (fsc : ℝ) / (b.lo : ℝ) ≤ toR (cup (fsc * fsc) b.lo) := by
      unfold toR
      rw [div_le_div_iff₀ hloR hp]
      rw [div_le_iff₀ hloR] at s1
      nlinarith
    have s3 : (fsc : ℝ) / (b.lo : ℝ) = 1 / toR b.lo := by
      unfold toR
      field_simp
    have s4 : 1 / y ≤ 1 / toR b.lo := by
      apply one_div_le_one_div_of_le hylo h1
    linarith

theorem memIv_div {x y : ℝ} {a b : Iv} (hx : memIv x a) (hy : memIv y b) (hb : 0 < b.lo) :
    memIv (x / y) (ivdiv a b) := by
  have h := memIv_mul hx (memIv_inv hy hb)
  have : x / y = x * (1 / y) := by ring
  rw [this]
  exact h

/-- Any member of an interval is bounded in absolute value by `ivabsup`. -/
theorem abs_le_absup {x : ℝ} {a : Iv} (hx : memIv x a) : |x| ≤ toR (ivabsup a) := by
  obtain ⟨h1, h2⟩ := hx
  rw [abs_le]
  unfold ivabsup
  rw [toR_max, toR_neg]
  constructor
  · have := le_max_right (toR a.hi) (-toR a.lo)
    linarith
  · have := le_max_left (toR a.hi) (-toR a.lo)
    linarith

/-- Product with a symmetrically bounded factor. -/
theorem memIv_smulsym {x t : ℝ} {a : Iv} {r : ℤ} (hx : memIv x a) (ht : |t| ≤ toR r) :
    memIv (x * t) (ivsmulsym a r) := by
  have habs := abs_le_absup hx
  have h0 : 0 ≤ toR (ivabsup a) := le_trans (abs_nonneg x) habs
  have hr0 : 0 ≤ toR r := le_trans (abs_nonneg t) ht
  have hprod : |x * t| ≤ toR (ivabsup a) * toR r := by
    rw [abs_mul]
    exact mul_le_mul habs ht (abs_nonneg t) h0
  have hscale : toR (ivabsup a) * toR r = ((ivabsup a * r : ℤ) : ℝ) / ((fsc : ℝ) * fsc) := by
    unfold toR
    push_cast
    field_simp
  have hcup : toR (ivabsup a) * toR r ≤ toR (cup (ivabsup a * r) fsc) := by
    rw [hscale]
    exact toR_cup_fsc _
  have habs2 : |x * t| ≤ toR (cup (ivabsup a * r) fsc) := le_trans hprod hcup
  rw [abs_le] at habs2
  exact ⟨by rw [ivsmulsym, toR_neg]; exact habs2.1, habs2.2⟩

/-- The rounded rational constant contains the rational it represents. -/
theorem memIv_const (n d : ℤ) (hd : 0 < d) : memIv ((n : ℝ) / (d : ℝ)) (cIv n d) := by
  have hp := fscR_pos
  have hdR : (0 : ℝ) < (d : ℝ) := by exact_mod_cast hd
  constructor
  · show toR (fdn (n * fsc) d) ≤ (n : ℝ) / (d : ℝ)
    have h := fdn_le (n * fsc) d hd
    unfold toR
    rw [div_le_div_iff₀ hp hdR]
    rw [le_div_iff₀ hdR] at h
    push_cast at h ⊢
    nlinarith
  · show (n : ℝ) / (d : ℝ) ≤ toR (cup (n * fsc) d)
    have h := le_cup (n * fsc) d hd
    unfold toR
    rw [div_le_div_iff₀ hdR hp]
    rw [div_le_iff₀ hdR] at h
    push_cast at h ⊢
    nlinarith

theorem toR_fdn_div (p q : ℤ) (hq : 0 < q) : toR (fdn p q) ≤ (p : ℝ) / ((q : ℝ) * (fsc : ℝ)) := by
  unfold toR
  have h := fdn_le p q hq
  have hp := fscR_pos
  have hqR : (0 : ℝ) < (q : ℝ) := by exact_mod_cast hq
  rw [div_le_div_iff₀ hp (by positivity)]
  rw [le_div_iff₀ hqR] at h
  nlinarith

theorem toR_cup_div (p q : ℤ) (hq : 0 < q) : (p : ℝ) / ((q : ℝ) * (fsc : ℝ)) ≤ toR (cup p q) := by
  unfold toR
  have h := le_cup p q hq
  have hp := fscR_pos
  have hqR : (0 : ℝ) < (q : ℝ) := by exact_mod_cast hq
  rw [div_le_div_iff₀ (by positivity) hp]
  rw [div_le_iff₀ hqR] at h
  nlinarith

theorem sinLip (x y : ℝ) : |Real.sin x - Real.sin y| ≤ |x - y| := by
  rw [Real.sin_sub_sin, abs_mul, abs_mul]
  have h1 : |Real.sin ((x - y) / 2)| ≤ |(x - y) / 2| := Real.abs_sin_le_abs
  have h2 : |Real.cos ((x + y) / 2)| ≤ 1 := Real.abs_cos_le_one _
  have h3 : |(x - y) / 2| = |x - y| / 2 := by
    rw [abs_div]
    norm_num
  have h4 : |(2 : ℝ)| = 2 := by norm_num
  rw [h4]
  nlinarith [abs_nonneg (Real.sin ((x - y) / 2)), abs_nonneg (x - y),
    abs_nonneg (Real.cos ((x + y) / 2))]

theorem cosLip (x y : ℝ) : |Real.cos x - Real.cos y| ≤ |x - y| := by
  rw [Real.cos_sub_cos]
  rw [abs_mul, abs_mul]
  have h1 : |Real.sin ((x - y) / 2)| ≤ |(x - y) / 2| := Real.abs_sin_le_abs
  have h2 : |Real.sin ((x + y) / 2)| ≤ 1 := Real.abs_sin_le_one _
  have h3 : |(x - y) / 2| = |x - y| / 2 := by
    rw [abs_div]
    norm_num
  have h4 : |(-2 : ℝ)| = 2 := by norm_num
  rw [h4]
  nlinarith [abs_nonneg (Real.sin ((x - y) / 2)), abs_nonneg (x - y),
    abs_nonneg (Real.sin ((x + y) / 2))]

theorem sinRatio_pos {t : ℝ} (hpos : 0 < t) (h1 : t ≤ 1) :
    1 - t ^ 2 / 4 ≤ Real.sin t / t ∧ Real.sin t / t ≤ 1 := by
  have hsin : Real.sin t < t := Real.sin_lt hpos
  have hcube : t - t ^ 3 / 4 < Real.sin t := Real.sin_gt_sub_cube hpos h1
  constructor
  · rw [le_div_iff₀ hpos]
    nlinarith
  · rw [div_le_one hpos]
    linarith

theorem sinRatio {t : ℝ} (ht : t ≠ 0) (h1 : |t| ≤ 1) :
    1 - t ^ 2 / 4 ≤ Real.sin t / t ∧ Real.sin t / t ≤ 1 := by
  rcases ht.lt_or_lt with hneg | hpos
  · have h := @sinRatio_pos (-t) (by linarith)
      (by rw [abs_of_neg hneg] at h1; linarith)
    rw [Real.sin_neg, neg_div_neg_eq] at h
    have e2 : (-t) ^ 2 = t ^ 2 := by ring
    rw [e2] at h
    exact h
  · exact sinRatio_pos hpos (by rwa [abs_of_pos hpos] at h1)

/-- Distance from any member to the integer midpoint is at most the radius. -/
theorem mid_dist {x : ℝ} {I : Iv} (hx : memIv x I) :
    |x - toR (ivmid I)| ≤ toR (max (I.hi - ivmid I) (ivmid I - I.lo)) := by
  obtain ⟨h1, h2⟩ := hx
  rw [toR_max, toR_sub, toR_sub, abs_le]
  constructor
  · have := le_max_right (toR I.hi - toR (ivmid I)) (toR (ivmid I) - toR I.lo)
    linarith
  · have := le_max_left (toR I.hi - toR (ivmid I)) (toR (ivmid I) - toR I.lo)
    linarith

theorem absR_mid_le_one {I : Iv} (hm : -fsc ≤ ivmid I ∧ ivmid I ≤ fsc) :
    |toR (ivmid I)| ≤ 1 := by
  rw [abs_le]
  constructor
  · have := toR_le hm.1
    rw [toR_neg, toR_fsc] at this
    linarith
  · have := toR_le hm.2
    rw [toR_fsc] at this
    linarith

theorem memIv_sinIv {x : ℝ} {I : Iv} (hx : memIv x I)
    (hm : -fsc ≤ ivmid I ∧ ivmid I ≤ fsc) :
    memIv (Real.sin x) (sinIv I) := by
  have hp := fscR_pos
  set m := ivmid I with hmdef
  have hm1 : |toR m| ≤ 1 := absR_mid_le_one hm
  have hb := Real.sin_bound hm1
  have hlip := sinLip x (toR m)
  have hdist := mid_dist hx
  have hcube_up : toR (fdn (m * m * m) (6 * fsc * fsc)) ≤ toR m ^ 3 / 6 := by
    have h := toR_fdn_div (m * m * m) (6 * fsc * fsc) (by norm_num [fsc])
    have e : ((m * m * m : ℤ) : ℝ) / (((6 * fsc * fsc : ℤ) : ℝ) * (fsc : ℝ)) = toR m ^ 3 / 6 := by
      unfold toR
      push_cast
      field_simp
      ring
    rw [e] at h
    exact h
  have hcube_dn : toR m ^ 3 / 6 ≤ toR (cup (m * m * m) (6 * fsc * fsc)) := by
    have h := toR_cup_div (m * m * m) (6 * fsc * fsc) (by norm_num [fsc])
    have e : ((m * m * m : ℤ) : ℝ) / (((6 * fsc * fsc : ℤ) : ℝ) * (fsc : ℝ)) = toR m ^ 3 / 6 := by
      unfold toR
      push_cast
      field_simp
      ring
    rw [e] at h
    exact h
  have herr : |toR m| ^ 4 * (5 / 96) ≤ toR (cup (m * m * m * m * 5) (96 * fsc * fsc * fsc)) := by
    have h := toR_cup_div (m * m * m * m * 5) (96 * fsc * fsc * fsc) (by norm_num [fsc])
    have e : ((m * m * m * m * 5 : ℤ) : ℝ) / (((96 * fsc * fsc * fsc : ℤ) : ℝ) * (fsc : ℝ))
        = toR m ^ 4 * (5 / 96) := by
      unfold toR
      push_cast
      field_simp
      ring
    rw [e] at h
    have e2 : |toR m| ^ 4 = toR m ^ 4 := by
      rw [← abs_pow]
      exact abs_of_nonneg (by positivity)
    rw [e2]
    exact h
  rw [abs_le] at hb hlip
  rw [← hmdef] at hdist
  constructor
  · show toR (m - cup (m * m * m) (6 * fsc * fsc)
      - cup (m * m * m * m * 5) (96 * fsc * fsc * fsc)
      - max (I.hi - m) (m - I.lo)) ≤ Real.sin x
    rw [toR_sub, toR_sub, toR_sub]
    have : toR m - toR m ^ 3 / 6 - |toR m| ^ 4 * (5 / 96) ≤ Real.sin (toR m) := by linarith
    linarith
  · show Real.sin x ≤ toR (m - fdn (m * m * m) (6 * fsc * fsc)
      + cup (m * m * m * m * 5) (96 * fsc * fsc * fsc)
      + max (I.hi - m) (m - I.lo))
    rw [toR_add, toR_add, toR_sub]
    have : Real.sin (toR m) ≤ toR m - toR m ^ 3 / 6 + |toR m| ^ 4 * (5 / 96) := by linarith
    linarith

theorem memIv_cosIv {x : ℝ} {I : Iv} (hx : memIv x I)
    (hm : -fsc ≤ ivmid I ∧ ivmid I ≤ fsc) :
    memIv (Real.cos x) (cosIv I) := by
  have hp := fscR_pos
  set m := ivmid I with hmdef
  have hm1 : |toR m| ≤ 1 := absR_mid_le_one hm
  have hb := Real.cos_bound hm1
  have hlip := cosLip x (toR m)
  have hdist := mid_dist hx
  have hsq_up : toR (fdn (m * m) (2 * fsc)) ≤ toR m ^ 2 / 2 := by
    have h := toR_fdn_div (m * m) (2 * fsc) (by norm_num [fsc])
    have e : ((m * m : ℤ) : ℝ) / (((2 * fsc : ℤ) : ℝ) * (fsc : ℝ)) = toR m ^ 2 / 2 := by
      unfold toR
      push_cast
      field_simp
      ring
    rw [e] at h
    exact h
  have hsq_dn : toR m ^ 2 / 2 ≤ toR (cup (m * m) (2 * fsc)) := by
    have h := toR_cup_div (m * m) (2 * fsc) (by norm_num [fsc])
    have e : ((m * m : ℤ) : ℝ) / (((2 * fsc : ℤ) : ℝ) * (fsc : ℝ)) = toR m ^ 2 / 2 := by
      unfold toR
      push_cast
      field_simp
      ring
    rw [e] at h
    exact h
  have herr : |toR m| ^ 4 * (5 / 96) ≤ toR (cup (m * m * m * m * 5) (96 * fsc * fsc * fsc)) := by
    have h := toR_cup_div (m * m * m * m * 5) (96 * fsc * fsc * fsc) (by norm_num [fsc])
    have e : ((m * m * m * m * 5 : ℤ) : ℝ) / (((96 * fsc * fsc * fsc : ℤ) : ℝ) * (fsc : ℝ))
        = toR m ^ 4 * (5 / 96) := by
      unfold toR
      push_cast
      field_simp
      ring
    rw [e] at h
    have e2 : |toR m| ^ 4 = toR m ^ 4 := by
      rw [← abs_pow]
      exact abs_of_nonneg (by positivity)
    rw [e2]
    exact h
  rw [abs_le] at hb hlip
  rw [← hmdef] at hdist
  constructor
  · show toR (fsc - cup (m * m) (2 * fsc)
      - cup (m * m * m * m * 5) (96 * fsc * fsc * fsc)
      - max (I.hi - m) (m - I.lo)) ≤ Real.cos x
    rw [toR_sub, toR_sub, toR_sub, toR_fsc]
    have : 1 - toR m ^ 2 / 2 - |toR m| ^ 4 * (5 / 96) ≤ Real.cos (toR m) := by linarith
    linarith
  · show Real.cos x ≤ toR (fsc - fdn (m * m) (2 * fsc)
      + cup (m * m * m * m * 5) (96 * fsc * fsc * fsc)
      + max (I.hi - m) (m - I.lo))
    rw [toR_add, toR_add, toR_sub, toR_fsc]
    have : Real.cos (toR m) ≤ 1 - toR m ^ 2 / 2 + |toR m| ^ 4 * (5 / 96) := by linarith
    linarith

theorem srange_sound {E : IV3} {f} {n : SNode} (h : SoundN E f n) {e : ℝ × ℝ × ℝ}
    (he : EB E e) : memIv (f e) (srange E n) := by
  obtain ⟨hv, hs⟩ := h
  obtain ⟨a1, a2, a3, m1, m2, m3, heq⟩ := hs e he
  have h1 := memIv_smulsym m1 he.1
  have h2 := memIv_smulsym m2 he.2.1
  have h3 := memIv_smulsym m3 he.2.2
  have : f e = (f (0, 0, 0) + a1 * e.1) + (a2 * e.2.1 + a3 * e.2.2) := by linarith
  rw [this]
  exact memIv_add (memIv_add hv h1) (memIv_add h2 h3)

theorem sconst_sound {E : IV3} {q : ℝ} {coef : Iv} (hq : memIv q coef) :
    SoundN E (fun _ => q) (sconst coef) := by
  refine ⟨hq, ?_⟩
  intro e _
  exact ⟨0, 0, 0, memIv_zero, memIv_zero, memIv_zero, by ring⟩

theorem svarA_sound {E : IV3} (c : ℤ) :
    SoundN E (fun e => toR c + e.1) (svarA c) := by
  refine ⟨⟨by simp [svarA], by simp [svarA]⟩, ?_⟩
  intro e _
  refine ⟨1, 0, 0, ?_, memIv_zero, memIv_zero, by ring⟩
  constructor <;> simp [svarA, toR_fsc]

theorem svarB_sound {E : IV3} (c : ℤ) :
    SoundN E (fun e => toR c + e.2.1) (svarB c) := by
  refine ⟨⟨by simp [svarB], by simp [svarB]⟩, ?_⟩
  intro e _
  refine ⟨0, 1, 0, memIv_zero, ?_, memIv_zero, by ring⟩
  constructor <;> simp [svarB, toR_fsc]

theorem svarC_sound {E : IV3} (c : ℤ) :
    SoundN E (fun e => toR c + e.2.2) (svarC c) := by
  refine ⟨⟨by simp [svarC], by simp [svarC]⟩, ?_⟩
  intro e _
  refine ⟨0, 0, 1, memIv_zero, memIv_zero, ?_, by ring⟩
  constructor <;> simp [svarC, toR_fsc]

theorem sadd_sound {E : IV3} {f g} {a b : SNode}
    (ha : SoundN E f a) (hb : SoundN E g b) :
    SoundN E (fun e => f e + g e) (sadd a b) := by
  obtain ⟨hav, has⟩ := ha
  obtain ⟨hbv, hbs⟩ := hb
  refine ⟨memIv_add hav hbv, ?_⟩
  intro e he
  obtain ⟨a1, a2, a3, m1, m2, m3, heq1⟩ := has e he
  obtain ⟨b1, b2, b3, n1, n2, n3, heq2⟩ := hbs e he
  exact ⟨a1 + b1, a2 + b2, a3 + b3, memIv_add m1 n1, memIv_add m2 n2, memIv_add m3 n3,
    by rw [show (fun e => f e + g e) e - (fun e => f e + g e) (0, 0, 0)
          = (f e - f (0, 0, 0)) + (g e - g (0, 0, 0)) by ring, heq1, heq2]; ring⟩

theorem ssub_sound {E : IV3} {f g} {a b : SNode}
    (ha : SoundN E f a) (hb : SoundN E g b) :
    SoundN E (fun e => f e - g e) (ssub a b) := by
  obtain ⟨hav, has⟩ := ha
  obtain ⟨hbv, hbs⟩ := hb
  refine ⟨memIv_sub hav hbv, ?_⟩
  intro e he
  obtain ⟨a1, a2, a3, m1, m2, m3, heq1⟩ := has e he
  obtain ⟨b1, b2, b3, n1, n2, n3, heq2⟩ := hbs e he
  exact ⟨a1 - b1, a2 - b2, a3 - b3, memIv_sub m1 n1, memIv_sub m2 n2, memIv_sub m3 n3,
    by rw [show (fun e => f e - g e) e - (fun e => f e - g e) (0, 0, 0)
          = (f e - f (0, 0, 0)) - (g e - g (0, 0, 0)) by ring, heq1, heq2]; ring⟩

theorem sscale_sound {E : IV3} {q : ℝ} {coef : Iv} {f} {a : SNode}
    (hq : memIv q coef) (ha : SoundN E f a) :
    SoundN E (fun e => q * f e) (sscale coef a) := by
  obtain ⟨hav, has⟩ := ha
  refine ⟨memIv_mul hq hav, ?_⟩
  intro e he
  obtain ⟨a1, a2, a3, m1, m2, m3, heq⟩ := has e he
  exact ⟨q * a1, q * a2, q * a3, memIv_mul hq m1, memIv_mul hq m2, memIv_mul hq m3,
    by rw [show (fun e => q * f e) e - (fun e => q * f e) (0, 0, 0)
          = q * (f e - f (0, 0, 0)) by ring, heq]; ring⟩

theorem smul_sound {E : IV3} {f g} {a b : SNode}
    (ha : SoundN E f a) (hb : SoundN E g b) :
    SoundN E (fun e => f e * g e) (smul E a b) := by
  have hrange := fun {e : ℝ × ℝ × ℝ} (he : EB E e) => srange_sound hb he
  obtain ⟨hav, has⟩ := ha
  obtain ⟨hbv, hbs⟩ := hb
  refine ⟨memIv_mul hav hbv, ?_⟩
  intro e he
  obtain ⟨a1, a2, a3, m1, m2, m3, heq1⟩ := has e he
  obtain ⟨b1, b2, b3, n1, n2, n3, heq2⟩ := hbs e he
  have hge : memIv (g e) (srange E b) := hrange he
  refine ⟨a1 * g e + f (0, 0, 0) * b1, a2 * g e + f (0, 0, 0) * b2,
    a3 * g e + f (0, 0, 0) * b3,
    memIv_add (memIv_mul m1 hge) (memIv_mul hav n1),
    memIv_add (memIv_mul m2 hge) (memIv_mul hav n2),
    memIv_add (memIv_mul m3 hge) (memIv_mul hav n3), ?_⟩
  have expand : f e * g e - f (0, 0, 0) * g (0, 0, 0)
      = (f e - f (0, 0, 0)) * g e + f (0, 0, 0) * (g e - g (0, 0, 0)) := by ring
  show f e * g e - f (0, 0, 0) * g (0, 0, 0) = _
  rw [expand, heq1, heq2]
  ring

theorem EB_zero {E : IV3} {e : ℝ × ℝ × ℝ} (he : EB E e) : EB E (0, 0, 0) := by
  obtain ⟨h1, h2, h3⟩ := he
  refine ⟨?_, ?_, ?_⟩ <;> simp <;>
    [exact le_trans (abs_nonneg _) h1; exact le_trans (abs_nonneg _) h2;
     exact le_trans (abs_nonneg _) h3]

theorem deltaBound_sound {E : IV3} {f} {n : SNode} (h : SoundN E f n) {e : ℝ × ℝ × ℝ}
    (he : EB E e) : |f e - f (0, 0, 0)| ≤ toR (deltaBound E n) := by
  obtain ⟨hv, hs⟩ := h
  obtain ⟨a1, a2, a3, m1, m2, m3, heq⟩ := hs e he
  obtain ⟨he1, he2, he3⟩ := he
  have b1 := abs_le_absup m1
  have b2 := abs_le_absup m2
  have b3 := abs_le_absup m3
  have n1 : 0 ≤ toR (ivabsup n.s1) := le_trans (abs_nonneg _) b1
  have n2 : 0 ≤ toR (ivabsup n.s2) := le_trans (abs_nonneg _) b2
  have n3 : 0 ≤ toR (ivabsup n.s3) := le_trans (abs_nonneg _) b3
  have p1 : |a1 * e.1| ≤ toR (ivabsup n.s1) * toR E.q1 := by
    rw [abs_mul]
    exact mul_le_mul b1 he1 (abs_nonneg _) n1
  have p2 : |a2 * e.2.1| ≤ toR (ivabsup n.s2) * toR E.q2 := by
    rw [abs_mul]
    exact mul_le_mul b2 he2 (abs_nonneg _) n2
  have p3 : |a3 * e.2.2| ≤ toR (ivabsup n.s3) * toR E.q3 := by
    rw [abs_mul]
    exact mul_le_mul b3 he3 (abs_nonneg _) n3
  have c1 : toR (ivabsup n.s1) * toR E.q1 ≤ toR (cup (ivabsup n.s1 * E.q1) fsc) := by
    unfold toR
    rw [div_mul_div_comm]
    have h := toR_cup_fsc (ivabsup n.s1 * E.q1)
    unfold toR at h
    push_cast at h
    exact h
  have c2 : toR (ivabsup n.s2) * toR E.q2 ≤ toR (cup (ivabsup n.s2 * E.q2) fsc) := by
    unfold toR
    rw [div_mul_div_comm]
    have h := toR_cup_fsc (ivabsup n.s2 * E.q2)
    unfold toR at h
    push_cast at h
    exact h
  have c3 : toR (ivabsup n.s3) * toR E.q3 ≤ toR (cup (ivabsup n.s3 * E.q3) fsc) := by
    unfold toR
    rw [div_mul_div_comm]
    have h := toR_cup_fsc (ivabsup n.s3 * E.q3)
    unfold toR at h
    push_cast at h
    exact h
  rw [heq]
  unfold deltaBound
  rw [toR_add, toR_add]
  calc |a1 * e.1 + a2 * e.2.1 + a3 * e.2.2|
      ≤ |a1 * e.1| + |a2 * e.2.1| + |a3 * e.2.2| := by
        have t1 := abs_add (a1 * e.1 + a2 * e.2.1) (a3 * e.2.2)
        have t2 := abs_add (a1 * e.1) (a2 * e.2.1)
        linarith
    _ ≤ _ := by linarith

theorem toR_fifty : toR (50 * fsc) = 50 := by
  unfold toR
  push_cast
  rw [mul_div_assoc, div_self (ne_of_gt fscR_pos), mul_one]

theorem toR_neg_fifty : toR (-50 * fsc) = -50 := by
  unfold toR
  push_cast
  rw [mul_div_assoc, div_self (ne_of_gt fscR_pos), mul_one]

theorem toR_two_fsc : toR (2 * fsc) = 2 := by
  unfold toR
  push_cast
  rw [mul_div_assoc, div_self (ne_of_gt fscR_pos), mul_one]

/-- `sigIv` contains any ratio `sin t / t` with `2|t|` within the bound, and 1. -/
theorem sig_lb {dE : ℤ} (dR2 : ℝ) (h : 0 ≤ dR2) (hle : dR2 ≤ toR dE) :
    toR (fsc - cup (dE * dE) (16 * fsc)) ≤ 1 - dR2 ^ 2 / 16 := by
  have h1 := toR_cup_div (dE * dE) (16 * fsc) (by norm_num [fsc])
  have e : ((dE * dE : ℤ) : ℝ) / (((16 * fsc : ℤ) : ℝ) * (fsc : ℝ)) = toR dE ^ 2 / 16 := by
    unfold toR
    push_cast
    field_simp
    ring
  rw [e] at h1
  rw [toR_sub, toR_fsc]
  have : dR2 ^ 2 ≤ toR dE ^ 2 := by nlinarith
  linarith

theorem ssin_sound {E : IV3} {f} {n : SNode} (h : SoundN E f n)
    (hok : (ssin E n).2 = true) :
    SoundN E (fun e => Real.sin (f e)) (ssin E n).1 := by
  have hok' : (mid1Ok n.val && mid1Ok (srange E n) &&
      decide (deltaBound E n ≤ 2 * fsc)) = true := hok
  rw [Bool.and_eq_true, Bool.and_eq_true] at hok'
  obtain ⟨⟨hok1, hok2⟩, hok3⟩ := hok'
  rw [mid1Ok, decide_eq_true_eq] at hok1 hok2
  rw [decide_eq_true_eq] at hok3
  have hval : memIv (Real.sin (f (0, 0, 0))) (sinIv n.val) := memIv_sinIv h.1 hok1
  refine ⟨hval, ?_⟩
  intro e he
  have he0 := EB_zero he
  obtain ⟨a1, a2, a3, m1, m2, m3, heq⟩ := h.2 e he
  have hf0 : memIv (f (0, 0, 0)) (srange E n) := srange_sound h he0
  have hfe : memIv (f e) (srange E n) := srange_sound h he
  have hdelta : |f e - f (0, 0, 0)| ≤ toR (deltaBound E n) := deltaBound_sound h he
  have hd2 : toR (deltaBound E n) ≤ 2 := by
    have := toR_le hok3
    rwa [toR_two_fsc] at this
  set Δ := f e - f (0, 0, 0) with hΔdef
  by_cases hz : Δ = 0
  · -- zero deviation: pick slope ratio 1 and the center cosine
    have hσ : memIv 1 (sigIv (deltaBound E n)) := by
      constructor
      · show toR (fsc - cup (deltaBound E n * deltaBound E n) (16 * fsc)) ≤ 1
        have hlb := sig_lb 0 (le_refl 0) (le_trans (abs_nonneg Δ) hdelta)
        have hz16 : (0 : ℝ) ^ 2 / 16 = 0 := by norm_num
        rw [hz16] at hlb
        linarith
      · show (1 : ℝ) ≤ toR fsc
        rw [toR_fsc]
    have hψ : memIv (1 * Real.cos (f (0, 0, 0)))
        (ivmul (sigIv (deltaBound E n)) (cosIv (srange E n))) :=
      memIv_mul hσ (memIv_cosIv hf0 hok2)
    refine ⟨1 * Real.cos (f (0, 0, 0)) * a1, 1 * Real.cos (f (0, 0, 0)) * a2,
      1 * Real.cos (f (0, 0, 0)) * a3,
      memIv_mul hψ m1, memIv_mul hψ m2, memIv_mul hψ m3, ?_⟩
    have hfe0 : f e = f (0, 0, 0) := by
      have hΔ0 : f e - f (0, 0, 0) = 0 := hz
      linarith
    have hsum : a1 * e.1 + a2 * e.2.1 + a3 * e.2.2 = 0 := by
      rw [← heq]
      exact hz
    show Real.sin (f e) - Real.sin (f (0, 0, 0)) = _
    rw [hfe0, sub_self]
    linear_combination (-(1 * Real.cos (f (0, 0, 0)))) * hsum
  · -- nonzero deviation: exact slope via the product formula
    set t := Δ / 2 with htdef
    have ht0 : t ≠ 0 := by
      rw [htdef]
      exact div_ne_zero hz (by norm_num)
    have habs : |t| ≤ 1 := by
      rw [htdef, abs_div]
      have : |Δ| ≤ 2 := le_trans hdelta hd2
      rw [abs_two]
      linarith [this]
    obtain ⟨hr1, hr2⟩ := sinRatio ht0 habs
    set σ := Real.sin t / t with hσdef
    set ξ := f (0, 0, 0) + t with hξdef
    have hξmem : memIv ξ (srange E n) := by
      obtain ⟨u1, u2⟩ := hf0
      obtain ⟨v1, v2⟩ := hfe
      constructor
      · rw [hξdef, htdef, hΔdef]
        linarith
      · rw [hξdef, htdef, hΔdef]
        linarith
    have hσmem : memIv σ (sigIv (deltaBound E n)) := by
      constructor
      · show toR (fsc - cup (deltaBound E n * deltaBound E n) (16 * fsc)) ≤ σ
        have h2t : 2 * |t| ≤ toR (deltaBound E n) := by
          rw [htdef, abs_div, abs_two]
          linarith [hdelta]
        have hlb := sig_lb (2 * |t|) (by positivity) h2t
        have ht2 : (2 * |t|) ^ 2 / 16 = t ^ 2 / 4 := by
          rw [mul_pow, sq_abs]
          ring
        rw [ht2] at hlb
        linarith
      · show σ ≤ toR fsc
        rw [toR_fsc]
        exact hr2
    have hψmem : memIv (σ * Real.cos ξ)
        (ivmul (sigIv (deltaBound E n)) (cosIv (srange E n))) :=
      memIv_mul hσmem (memIv_cosIv hξmem hok2)
    refine ⟨σ * Real.cos ξ * a1, σ * Real.cos ξ * a2, σ * Real.cos ξ * a3,
      memIv_mul hψmem m1, memIv_mul hψmem m2, memIv_mul hψmem m3, ?_⟩
    have hkey : Real.sin (f e) - Real.sin (f (0, 0, 0)) = σ * Real.cos ξ * Δ := by
      rw [Real.sin_sub_sin]
      have e1 : (f e - f (0, 0, 0)) / 2 = t := by rw [htdef, hΔdef]
      have e2 : (f e + f (0, 0, 0)) / 2 = ξ := by
        rw [hξdef, htdef, hΔdef]
        ring
      rw [e1, e2, hσdef]
      field_simp
      ring
    show Real.sin (f e) - Real.sin (f (0, 0, 0)) = _
    rw [hkey, heq]
    ring

theorem scos_sound {E : IV3} {f} {n : SNode} (h : SoundN E f n)
    (hok : (scos E n).2 = true) :
    SoundN E (fun e => Real.cos (f e)) (scos E n).1 := by
  have hok' : (mid1Ok n.val && mid1Ok (srange E n) &&
      decide (deltaBound E n ≤ 2 * fsc)) = true := hok
  rw [Bool.and_eq_true, Bool.and_eq_true] at hok'
  obtain ⟨⟨hok1, hok2⟩, hok3⟩ := hok'
  rw [mid1Ok, decide_eq_true_eq] at hok1 hok2
  rw [decide_eq_true_eq] at hok3
  have hval : memIv (Real.cos (f (0, 0, 0))) (cosIv n.val) := memIv_cosIv h.1 hok1
  refine ⟨hval, ?_⟩
  intro e he
  have he0 := EB_zero he
  obtain ⟨a1, a2, a3, m1, m2, m3, heq⟩ := h.2 e he
  have hf0 : memIv (f (0, 0, 0)) (srange E n) := srange_sound h he0
  have hfe : memIv (f e) (srange E n) := srange_sound h he
  have hdelta : |f e - f (0, 0, 0)| ≤ toR (deltaBound E n) := deltaBound_sound h he
  have hd2 : toR (deltaBound E n) ≤ 2 := by
    have := toR_le hok3
    rwa [toR_two_fsc] at this
  have hneg1 : memIv (-1 : ℝ) (⟨-fsc, -fsc⟩ : Iv) := by
    constructor <;> simp [toR_neg, toR_fsc]
  set Δ := f e - f (0, 0, 0) with hΔdef
  by_cases hz : Δ = 0
  · have hσ : memIv 1 (sigIv (deltaBound E n)) := by
      constructor
      · show toR (fsc - cup (deltaBound E n * deltaBound E n) (16 * fsc)) ≤ 1
        have hlb := sig_lb 0 (le_refl 0) (le_trans (abs_nonneg Δ) hdelta)
        have hz16 : (0 : ℝ) ^ 2 / 16 = 0 := by norm_num
        rw [hz16] at hlb
        linarith
      · show (1 : ℝ) ≤ toR fsc
        rw [toR_fsc]
    have hψ : memIv (-1 * (1 * Real.sin (f (0, 0, 0))))
        (ivmul ⟨-fsc, -fsc⟩ (ivmul (sigIv (deltaBound E n)) (sinIv (srange E n)))) :=
      memIv_mul hneg1 (memIv_mul hσ (memIv_sinIv hf0 hok2))
    have hfe0 : f e = f (0, 0, 0) := by
      have hΔ0 : f e - f (0, 0, 0) = 0 := hz
      linarith
    have hsum : a1 * e.1 + a2 * e.2.1 + a3 * e.2.2 = 0 := by
      rw [← heq]
      exact hz
    refine ⟨-1 * (1 * Real.sin (f (0, 0, 0))) * a1, -1 * (1 * Real.sin (f (0, 0, 0))) * a2,
      -1 * (1 * Real.sin (f (0, 0, 0))) * a3,
      memIv_mul hψ m1, memIv_mul hψ m2, memIv_mul hψ m3, ?_⟩
    show Real.cos (f e) - Real.cos (f (0, 0, 0)) = _
    rw [hfe0, sub_self]
    linear_combination (1 * Real.sin (f (0, 0, 0))) * hsum
  · set t := Δ / 2 with htdef
    have ht0 : t ≠ 0 := by
      rw [htdef]
      exact div_ne_zero hz (by norm_num)
    have habs : |t| ≤ 1 := by
      rw [htdef, abs_div]
      have hA : |Δ| ≤ 2 := le_trans hdelta hd2
      rw [abs_two]
      linarith [hA]
    obtain ⟨hr1, hr2⟩ := sinRatio ht0 habs
    set σ := Real.sin t / t with hσdef
    set ξ := f (0, 0, 0) + t with hξdef
    have hξmem : memIv ξ (srange E n) := by
      obtain ⟨u1, u2⟩ := hf0
      obtain ⟨v1, v2⟩ := hfe
      constructor
      · rw [hξdef, htdef, hΔdef]
        linarith
      · rw [hξdef, htdef, hΔdef]
        linarith
    have hσmem : memIv σ (sigIv (deltaBound E n)) := by
      constructor
      · show toR (fsc - cup (deltaBound E n * deltaBound E n) (16 * fsc)) ≤ σ
        have h2t : 2 * |t| ≤ toR (deltaBound E n) := by
          rw [htdef, abs_div, abs_two]
          linarith [hdelta]
        have hlb := sig_lb (2 * |t|) (by positivity) h2t
        have ht2 : (2 * |t|) ^ 2 / 16 = t ^ 2 / 4 := by
          rw [mul_pow, sq_abs]
          ring
        rw [ht2] at hlb
        linarith
      · show σ ≤ toR fsc
        rw [toR_fsc]
        exact hr2
    have hψmem : memIv (-1 * (σ * Real.sin ξ))
        (ivmul ⟨-fsc, -fsc⟩ (ivmul (sigIv (deltaBound E n)) (sinIv (srange E n)))) :=
      memIv_mul hneg1 (memIv_mul hσmem (memIv_sinIv hξmem hok2))
    refine ⟨-1 * (σ * Real.sin ξ) * a1, -1 * (σ * Real.sin ξ) * a2,
      -1 * (σ * Real.sin ξ) * a3,
      memIv_mul hψmem m1, memIv_mul hψmem m2, memIv_mul hψmem m3, ?_⟩
    have hkey : Real.cos (f e) - Real.cos (f (0, 0, 0)) = -1 * (σ * Real.sin ξ) * Δ := by
      rw [Real.cos_sub_cos]
      have e1 : (f e - f (0, 0, 0)) / 2 = t := by rw [htdef, hΔdef]
      have e2 : (f e + f (0, 0, 0)) / 2 = ξ := by
        rw [hξdef, htdef, hΔdef]
        ring
      rw [e1, e2, hσdef]
      field_simp
      ring
    show Real.cos (f e) - Real.cos (f (0, 0, 0)) = _
    rw [hkey, heq]
    ring

theorem sdiv_sound {E : IV3} {f g} {a b : SNode}
    (ha : SoundN E f a) (hb : SoundN E g b) (hok : (sdiv E a b).2 = true) :
    SoundN E (fun e => f e / g e) (sdiv E a b).1 := by
  have hok' : (decide (0 < b.val.lo) && decide (0 < (ivmul (srange E b) b.val).lo)) = true := hok
  rw [Bool.and_eq_true, decide_eq_true_eq, decide_eq_true_eq] at hok'
  obtain ⟨hbl, hdl⟩ := hok'
  have hg0 : 0 < g (0, 0, 0) := by
    have h1 := hb.1.1
    have h2 : (0 : ℝ) < toR b.val.lo := by
      unfold toR
      have hc : (0 : ℝ) < (b.val.lo : ℝ) := by exact_mod_cast hbl
      exact div_pos hc fscR_pos
    linarith
  refine ⟨?_, ?_⟩
  · show memIv (f (0, 0, 0) / g (0, 0, 0)) (ivdiv a.val b.val)
    exact memIv_div ha.1 hb.1 hbl
  · intro e he
    obtain ⟨a1, a2, a3, m1, m2, m3, heq1⟩ := ha.2 e he
    obtain ⟨b1, b2, b3, n1, n2, n3, heq2⟩ := hb.2 e he
    have hge : memIv (g e) (srange E b) := srange_sound hb he
    have hprod : memIv (g e * g (0, 0, 0)) (ivmul (srange E b) b.val) :=
      memIv_mul hge hb.1
    have hprodpos : 0 < g e * g (0, 0, 0) := by
      have h1 := hprod.1
      have h2 : (0 : ℝ) < toR (ivmul (srange E b) b.val).lo := by
        unfold toR
        have hc : (0 : ℝ) < ((ivmul (srange E b) b.val).lo : ℝ) := by exact_mod_cast hdl
        exact div_pos hc fscR_pos
      linarith
    have hgepos : 0 < g e := by
      by_contra hcon
      push_neg at hcon
      nlinarith
    have hinv : memIv (1 / (g e * g (0, 0, 0))) (ivinv (ivmul (srange E b) b.val)) :=
      memIv_inv hprod hdl
    refine ⟨(a1 * g (0, 0, 0) - f (0, 0, 0) * b1) * (1 / (g e * g (0, 0, 0))),
      (a2 * g (0, 0, 0) - f (0, 0, 0) * b2) * (1 / (g e * g (0, 0, 0))),
      (a3 * g (0, 0, 0) - f (0, 0, 0) * b3) * (1 / (g e * g (0, 0, 0))),
      memIv_mul (memIv_sub (memIv_mul m1 hb.1) (memIv_mul ha.1 n1)) hinv,
      memIv_mul (memIv_sub (memIv_mul m2 hb.1) (memIv_mul ha.1 n2)) hinv,
      memIv_mul (memIv_sub (memIv_mul m3 hb.1) (memIv_mul ha.1 n3)) hinv, ?_⟩
    show f e / g e - f (0, 0, 0) / g (0, 0, 0) = _
    have hge' : g e ≠ 0 := ne_of_gt hgepos
    have hg0' : g (0, 0, 0) ≠ 0 := ne_of_gt hg0
    have hkey : f e / g e - f (0, 0, 0) / g (0, 0, 0)
        = ((f e - f (0, 0, 0)) * g (0, 0, 0) - f (0, 0, 0) * (g e - g (0, 0, 0)))
          * (1 / (g e * g (0, 0, 0))) := by
      rw [div_sub_div _ _ hge' hg0', mul_one_div]
      congr 1
      ring
    rw [hkey, heq1, heq2]
    ring

theorem sclamp_sound {E : IV3} {f} {n : SNode} (h : SoundN E f n)
    (hok : clampOk E n = true) :
    SoundN E (fun e => max (-50) (min 50 (f e))) n := by
  have hok' : decide (-50 * fsc ≤ (srange E n).lo ∧ (srange E n).hi ≤ 50 * fsc
      ∧ -50 * fsc ≤ n.val.lo ∧ n.val.hi ≤ 50 * fsc) = true := hok
  rw [decide_eq_true_eq] at hok'
  obtain ⟨hr1, hr2, hv1, hv2⟩ := hok'
  have hins : ∀ x : ℝ, -50 ≤ x → x ≤ 50 → max (-50) (min 50 x) = x := by
    intro x hx1 hx2
    rw [min_eq_right hx2, max_eq_right hx1]
  have hval0 : -50 ≤ f (0, 0, 0) ∧ f (0, 0, 0) ≤ 50 := by
    obtain ⟨u1, u2⟩ := h.1
    constructor
    · have := toR_le hv1
      rw [toR_neg_fifty] at this
      linarith
    · have := toR_le hv2
      rw [toR_fifty] at this
      linarith
  refine ⟨?_, ?_⟩
  · show memIv (max (-50) (min 50 (f (0, 0, 0)))) n.val
    rw [hins _ hval0.1 hval0.2]
    exact h.1
  · intro e he
    obtain ⟨a1, a2, a3, m1, m2, m3, heq⟩ := h.2 e he
    have hfe : memIv (f e) (srange E n) := srange_sound h he
    have hfee : -50 ≤ f e ∧ f e ≤ 50 := by
      obtain ⟨u1, u2⟩ := hfe
      constructor
      · have := toR_le hr1
        rw [toR_neg_fifty] at this
        linarith
      · have := toR_le hr2
        rw [toR_fifty] at this
        linarith
    refine ⟨a1, a2, a3, m1, m2, m3, ?_⟩
    show max (-50) (min 50 (f e)) - max (-50) (min 50 (f (0, 0, 0))) = _
    rw [hins _ hfee.1 hfee.2, hins _ hval0.1 hval0.2]
    exact heq

theorem memIv_constR (n d : ℤ) (x : ℝ) (hd : 0 < d) (hx : x = (n : ℝ) / (d : ℝ)) :
    memIv x (cIv n d) := by
  rw [hx]
  exact memIv_const n d hd

theorem derivsQ_sound {E : IV3} {ft ftd fxd fu : ℝ × ℝ × ℝ → ℝ} {th thd xd u : SNode}
    (hth : SoundN E ft th) (hthd : SoundN E ftd thd) (hxd : SoundN E fxd xd)
    (hu : SoundN E fu u) (hok : (derivsQ E th thd xd u).2.2 = true) :
    SoundN E (fun e => (fu e - 1 / 10 * fxd e + 1 / 20 * ((ftd e * ftd e) * Real.sin (ft e))
        - 981 / 1000 * (Real.sin (ft e) * Real.cos (ft e)))
        / (11 / 10 - 1 / 10 * (Real.cos (ft e) * Real.cos (ft e))))
      (derivsQ E th thd xd u).1 ∧
    SoundN E (fun e => (10791 / 1000 * Real.sin (ft e)
        - Real.cos (ft e) * (fu e - 1 / 10 * fxd e
          + 1 / 20 * ((ftd e * ftd e) * Real.sin (ft e))))
        / (1 / 2 * (11 / 10 - 1 / 10 * (Real.cos (ft e) * Real.cos (ft e)))))
      (derivsQ E th thd xd u).2.1 := by
  simp only [derivsQ, Bool.and_eq_true] at hok
  obtain ⟨⟨⟨hok1, hok2⟩, hok3⟩, hok4⟩ := hok
  have hs := ssin_sound hth hok1
  have hc := scos_sound hth hok2
  have hd := ssub_sound
    (sconst_sound (memIv_constR 11 10 (11 / 10 : ℝ) (by norm_num) (by norm_num)))
    (sscale_sound (memIv_constR 1 10 (1 / 10 : ℝ) (by norm_num) (by norm_num))
      (smul_sound hc hc))
  have hn1 := sadd_sound
    (ssub_sound hu (sscale_sound (memIv_constR 1 10 (1 / 10 : ℝ) (by norm_num) (by norm_num)) hxd))
    (sscale_sound (memIv_constR 1 20 (1 / 20 : ℝ) (by norm_num) (by norm_num))
      (smul_sound (smul_sound hthd hthd) hs))
  have hnumx := ssub_sound hn1
    (sscale_sound (memIv_constR 981 1000 (981 / 1000 : ℝ) (by norm_num) (by norm_num))
      (smul_sound hs hc))
  have hxp := sdiv_sound hnumx hd hok3
  have hnumt := ssub_sound
    (sscale_sound (memIv_constR 10791 1000 (10791 / 1000 : ℝ) (by norm_num) (by norm_num)) hs)
    (smul_sound hc hn1)
  have htp := sdiv_sound hnumt
    (sscale_sound (memIv_constR 1 2 (1 / 2 : ℝ) (by norm_num) (by norm_num)) hd) hok4
  exact ⟨hxp, htp⟩

theorem rk4Q_sound {E c : IV3} (hok : (rk4Q E c).2.2.2 = true) :
    SoundN E (fun e => (f3step (toR c.q1 + e.1, toR c.q2 + e.2.1, toR c.q3 + e.2.2)).1)
      (rk4Q E c).1 ∧
    SoundN E (fun e => (f3step (toR c.q1 + e.1, toR c.q2 + e.2.1, toR c.q3 + e.2.2)).2.1)
      (rk4Q E c).2.1 ∧
    SoundN E (fun e => (f3step (toR c.q1 + e.1, toR c.q2 + e.2.1, toR c.q3 + e.2.2)).2.2)
      (rk4Q E c).2.2.1 := by
  simp only [rk4Q, Bool.and_eq_true] at hok
  obtain ⟨⟨⟨⟨hc0, hd1⟩, hd2⟩, hd3⟩, hd4⟩ := hok
  have h0a := @svarA_sound E c.q1
  have h0b := @svarB_sound E c.q2
  have h0c := @svarC_sound E c.q3
  have hpid := sadd_sound
    (sscale_sound (memIv_constR 50 1 (50 : ℝ) (by norm_num) (by norm_num)) h0a)
    (sscale_sound (memIv_constR 20 1 (20 : ℝ) (by norm_num) (by norm_num)) h0b)
  have hu := sclamp_sound hpid hc0
  have hH := memIv_constR 1 200 (1 / 200 : ℝ) (by norm_num) (by norm_num)
  have hF := memIv_constR 1 100 (1 / 100 : ℝ) (by norm_num) (by norm_num)
  have hS := memIv_constR 1 600 (1 / 600 : ℝ) (by norm_num) (by norm_num)
  have hT := memIv_constR 2 1 (2 : ℝ) (by norm_num) (by norm_num)
  have hD1 := derivsQ_sound h0a h0b h0c hu hd1
  have hth2 := sadd_sound h0a (sscale_sound hH h0b)
  have hthd2 := sadd_sound h0b (sscale_sound hH hD1.2)
  have hxd2 := sadd_sound h0c (sscale_sound hH hD1.1)
  have hD2 := derivsQ_sound hth2 hthd2 hxd2 hu hd2
  have hth3 := sadd_sound h0a (sscale_sound hH hthd2)
  have hthd3 := sadd_sound h0b (sscale_sound hH hD2.2)
  have hxd3 := sadd_sound h0c (sscale_sound hH hD2.1)
  have hD3 := derivsQ_sound hth3 hthd3 hxd3 hu hd3
  have hth4 := sadd_sound h0a (sscale_sound hF hthd3)
  have hthd4 := sadd_sound h0b (sscale_sound hF hD3.2)
  have hxd4 := sadd_sound h0c (sscale_sound hF hD3.1)
  have hD4 := derivsQ_sound hth4 hthd4 hxd4 hu hd4
  have hthN := sadd_sound h0a (sscale_sound hS
    (sadd_sound (sadd_sound h0b (sscale_sound hT hthd2))
      (sadd_sound (sscale_sound hT hthd3) hthd4)))
  have hthdN := sadd_sound h0b (sscale_sound hS
    (sadd_sound (sadd_sound hD1.2 (sscale_sound hT hD2.2))
      (sadd_sound (sscale_sound hT hD3.2) hD4.2)))
  have hxdN := sadd_sound h0c (sscale_sound hS
    (sadd_sound (sadd_sound hD1.1 (sscale_sound hT hD2.1))
      (sadd_sound (sscale_sound hT hD3.1) hD4.1)))
  exact ⟨hthN, hthdN, hxdN⟩

theorem toR_intmul (k a : ℤ) : toR (k * a) = (k : ℝ) * toR a := by
  unfold toR
  push_cast
  ring

theorem toR_div_le_cup (d q : ℤ) (hq : 0 < q) : toR d / (q : ℝ) ≤ toR (cup d q) := by
  calc toR d / (q : ℝ) = (d : ℝ) / ((q : ℝ) * (fsc : ℝ)) := by
        unfold toR
        rw [div_div, mul_comm (fsc : ℝ) (q : ℝ)]
    _ ≤ toR (cup d q) := toR_cup_div d q hq

theorem toR_mul_le_cup (b p : ℤ) : toR b * toR p ≤ toR (cup (b * p) fsc) := by
  calc toR b * toR p = ((b * p : ℤ) : ℝ) / ((fsc : ℝ) * (fsc : ℝ)) := by
        unfold toR
        push_cast
        ring
    _ ≤ toR (cup (b * p) fsc) := toR_cup_fsc _

theorem coef_err_le_cup (p q d : ℤ) (c x : ℝ) (hq : 0 < q) (hc : |c| = (p : ℝ) / (q : ℝ))
    (hx : |x| ≤ toR d) : |c * x| ≤ toR (cup (p * d) q) := by
  rw [abs_mul, hc]
  have hpq : (0 : ℝ) ≤ (p : ℝ) / (q : ℝ) := hc ▸ abs_nonneg c
  have h1 : (p : ℝ) / (q : ℝ) * |x| ≤ (p : ℝ) / (q : ℝ) * toR d :=
    mul_le_mul_of_nonneg_left hx hpq
  refine h1.trans ?_
  calc (p : ℝ) / (q : ℝ) * toR d = ((p * d : ℤ) : ℝ) / ((q : ℝ) * (fsc : ℝ)) := by
        unfold toR
        push_cast
        ring
    _ ≤ toR (cup (p * d) q) := toR_cup_div _ _ hq

theorem mid_dev {x : ℝ} {I : Iv} (h : memIv x I) :
    |x - toR (ivmid I)| ≤ toR (max (I.hi - ivmid I) (ivmid I - I.lo)) := by
  rw [toR_max, toR_sub, toR_sub, abs_sub_le_iff]
  constructor
  · have h2 := h.2
    have h3 := le_max_left (toR I.hi - toR (ivmid I)) (toR (ivmid I) - toR I.lo)
    linarith
  · have h1 := h.1
    have h3 := le_max_right (toR I.hi - toR (ivmid I)) (toR (ivmid I) - toR I.lo)
    linarith

theorem abs_add6 (a b c d e f : ℝ) :
    |a + b + c + d + e + f| ≤ |a| + |b| + |c| + |d| + |e| + |f| := by
  have h1 := abs_add (a + b + c + d + e) f
  have h2 := abs_add (a + b + c + d) e
  have h3 := abs_add (a + b + c) d
  have h4 := abs_add (a + b) c
  have h5 := abs_add a b
  linarith

theorem bEntry_bound {c1n c1d c2n c2d c3n c3d m1n m1d m2n m2d m3n m3d : ℤ}
    {a1 a2 a3 : SNode}
    {p11 p12 p13 p21 p22 p23 p31 p32 p33 x11 x12 x13 x21 x22 x23 x31 x32 x33 : ℝ}
    (hp11 : memIv p11 (cIv (c1n * m1n) (c1d * m1d)))
    (hp12 : memIv p12 (cIv (c1n * m2n) (c1d * m2d)))
    (hp13 : memIv p13 (cIv (c1n * m3n) (c1d * m3d)))
    (hp21 : memIv p21 (cIv (c2n * m1n) (c2d * m1d)))
    (hp22 : memIv p22 (cIv (c2n * m2n) (c2d * m2d)))
    (hp23 : memIv p23 (cIv (c2n * m3n) (c2d * m3d)))
    (hp31 : memIv p31 (cIv (c3n * m1n) (c3d * m1d)))
    (hp32 : memIv p32 (cIv (c3n * m2n) (c3d * m2d)))
    (hp33 : memIv p33 (cIv (c3n * m3n) (c3d * m3d)))
    (h11 : memIv x11 a1.s1) (h12 : memIv x12 a1.s2) (h13 : memIv x13 a1.s3)
    (h21 : memIv x21 a2.s1) (h22 : memIv x22 a2.s2) (h23 : memIv x23 a2.s3)
    (h31 : memIv x31 a3.s1) (h32 : memIv x32 a3.s2) (h33 : memIv x33 a3.s3) :
    |(p11 * x11 + p12 * x12 + p13 * x13 + (p21 * x21 + p22 * x22 + p23 * x23))
      + (p31 * x31 + p32 * x32 + p33 * x33)|
      ≤ toR (bEntry c1n c1d c2n c2d c3n c3d a1 a2 a3 m1n m1d m2n m2d m3n m3d) :=
  abs_le_absup (memIv_add (memIv_add
    (memIv_add (memIv_add (memIv_mul hp11 h11) (memIv_mul hp12 h12)) (memIv_mul hp13 h13))
    (memIv_add (memIv_add (memIv_mul hp21 h21) (memIv_mul hp22 h22)) (memIv_mul hp23 h23)))
    (memIv_add (memIv_add (memIv_mul hp31 h31) (memIv_mul hp32 h32)) (memIv_mul hp33 h33)))

set_option maxHeartbeats 3200000 in
theorem stepN_sound {r : IV3} {a1 a2 a3 : SNode} {f1 f2 f3 : ℝ × ℝ × ℝ → ℝ}
    (hf1 : SoundN (eboxOf r) f1 a1) (hf2 : SoundN (eboxOf r) f2 a2)
    (hf3 : SoundN (eboxOf r) f3 a3)
    {z1 z2 z3 : ℝ} (hz1 : |z1| ≤ toR r.q1) (hz2 : |z2| ≤ toR r.q2)
    (hz3 : |z3| ≤ toR r.q3) :
    ∃ w1 w2 w3 : ℝ,
      |w1| ≤ toR (stepN a1 a2 a3 r).2.q1 ∧ |w2| ≤ toR (stepN a1 a2 a3 r).2.q2 ∧
      |w3| ≤ toR (stepN a1 a2 a3 r).2.q3 ∧
      f1 (z1 + z2 + 1 / 400 * z3, -2 * z1 - 38 * z2, -4 * z1 + 19 * z2 + z3) = toR (stepN a1 a2 a3 r).1.q1 + (w1 + w2 + 1 / 400 * w3) ∧
      f2 (z1 + z2 + 1 / 400 * z3, -2 * z1 - 38 * z2, -4 * z1 + 19 * z2 + z3) = toR (stepN a1 a2 a3 r).1.q2 + (-2 * w1 - 38 * w2) ∧
      f3 (z1 + z2 + 1 / 400 * z3, -2 * z1 - 38 * z2, -4 * z1 + 19 * z2 + z3) = toR (stepN a1 a2 a3 r).1.q3 + (-4 * w1 + 19 * w2 + w3) := by
  have hEB : EB (eboxOf r) (z1 + z2 + 1 / 400 * z3, -2 * z1 - 38 * z2, -4 * z1 + 19 * z2 + z3) := by
    obtain ⟨hz1a, hz1b⟩ := abs_le.mp hz1
    obtain ⟨hz2a, hz2b⟩ := abs_le.mp hz2
    obtain ⟨hz3a, hz3b⟩ := abs_le.mp hz3
    have hcup := toR_div_le_cup r.q3 400 (by norm_num)
    push_cast at hcup
    refine ⟨?_, ?_, ?_⟩
    · show |z1 + z2 + 1 / 400 * z3| ≤ toR (r.q1 + r.q2 + cup r.q3 400)
      rw [toR_add, toR_add, abs_le]
      constructor <;> linarith
    · show |-2 * z1 - 38 * z2| ≤ toR (2 * r.q1 + 38 * r.q2)
      rw [toR_add, toR_intmul, toR_intmul, abs_le]
      push_cast
      constructor <;> linarith
    · show |-4 * z1 + 19 * z2 + z3| ≤ toR (4 * r.q1 + 19 * r.q2 + r.q3)
      rw [toR_add, toR_add, toR_intmul, toR_intmul, abs_le]
      push_cast
      constructor <;> linarith
  obtain ⟨hval1, hslo1⟩ := hf1
  obtain ⟨hval2, hslo2⟩ := hf2
  obtain ⟨hval3, hslo3⟩ := hf3
  obtain ⟨a11, a12, a13, ha11, ha12, ha13, hs1⟩ := hslo1 _ hEB
  obtain ⟨a21, a22, a23, ha21, ha22, ha23, hs2⟩ := hslo2 _ hEB
  obtain ⟨a31, a32, a33, ha31, ha32, ha33, hs3⟩ := hslo3 _ hEB
  dsimp only at hs1 hs2 hs3
  have hd1 := mid_dev hval1
  have hd2 := mid_dev hval2
  have hd3 := mid_dev hval3
  have hB11 := bEntry_bound
    (memIv_constR (1520 * 1) (1459 * 1) ((1520 : ℝ) / 1459) (by norm_num) (by norm_num))
    (memIv_constR (1520 * (-2)) (1459 * 1) ((-3040 : ℝ) / 1459) (by norm_num) (by norm_num))
    (memIv_constR (1520 * (-4)) (1459 * 1) ((-6080 : ℝ) / 1459) (by norm_num) (by norm_num))
    (memIv_constR (381 * 1) (14590 * 1) ((381 : ℝ) / 14590) (by norm_num) (by norm_num))
    (memIv_constR (381 * (-2)) (14590 * 1) ((-762 : ℝ) / 14590) (by norm_num) (by norm_num))
    (memIv_constR (381 * (-4)) (14590 * 1) ((-1524 : ℝ) / 14590) (by norm_num) (by norm_num))
    (memIv_constR (-19 * 1) (7295 * 1) ((-19 : ℝ) / 7295) (by norm_num) (by norm_num))
    (memIv_constR (-19 * (-2)) (7295 * 1) ((38 : ℝ) / 7295) (by norm_num) (by norm_num))
    (memIv_constR (-19 * (-4)) (7295 * 1) ((76 : ℝ) / 7295) (by norm_num) (by norm_num))
    ha11 ha12 ha13 ha21 ha22 ha23 ha31 ha32 ha33
  have hB12 := bEntry_bound
    (memIv_constR (1520 * 1) (1459 * 1) ((1520 : ℝ) / 1459) (by norm_num) (by norm_num))
    (memIv_constR (1520 * (-38)) (1459 * 1) ((-57760 : ℝ) / 1459) (by norm_num) (by norm_num))
    (memIv_constR (1520 * 19) (1459 * 1) ((28880 : ℝ) / 1459) (by norm_num) (by norm_num))
    (memIv_constR (381 * 1) (14590 * 1) ((381 : ℝ) / 14590) (by norm_num) (by norm_num))
    (memIv_constR (381 * (-38)) (14590 * 1) ((-14478 : ℝ) / 14590) (by norm_num) (by norm_num))
    (memIv_constR (381 * 19) (14590 * 1) ((7239 : ℝ) / 14590) (by norm_num) (by norm_num))
    (memIv_constR (-19 * 1) (7295 * 1) ((-19 : ℝ) / 7295) (by norm_num) (by norm_num))
    (memIv_constR (-19 * (-38)) (7295 * 1) ((722 : ℝ) / 7295) (by norm_num) (by norm_num))
    (memIv_constR (-19 * 19) (7295 * 1) ((-361 : ℝ) / 7295) (by norm_num) (by norm_num))
    ha11 ha12 ha13 ha21 ha22 ha23 ha31 ha32 ha33
  have hB13 := bEntry_bound
    (memIv_constR (1520 * 1) (1459 * 400) ((1520 : ℝ) / 583600) (by norm_num) (by norm_num))
    (memIv_constR (1520 * 0) (1459 * 1) ((0 : ℝ) / 1459) (by norm_num) (by norm_num))
    (memIv_constR (1520 * 1) (1459 * 1) ((1520 : ℝ) / 1459) (by norm_num) (by norm_num))
    (memIv_constR (381 * 1) (14590 * 400) ((381 : ℝ) / 5836000) (by norm_num) (by norm_num))
    (memIv_constR (381 * 0) (14590 * 1) ((0 : ℝ) / 14590) (by norm_num) (by norm_num))
    (memIv_constR (381 * 1) (14590 * 1) ((381 : ℝ) / 14590) (by norm_num) (by norm_num))
    (memIv_constR (-19 * 1) (7295 * 400) ((-19 : ℝ) / 2918000) (by norm_num) (by norm_num))
    (memIv_constR (-19 * 0) (7295 * 1) ((0 : ℝ) / 7295) (by norm_num) (by norm_num))
    (memIv_constR (-19 * 1) (7295 * 1) ((-19 : ℝ) / 7295) (by norm_num) (by norm_num))
    ha11 ha12 ha13 ha21 ha22 ha23 ha31 ha32 ha33
  have hB21 := bEntry_bound
    (memIv_constR (-80 * 1) (1459 * 1) ((-80 : ℝ) / 1459) (by norm_num) (by norm_num))
    (memIv_constR (-80 * (-2)) (1459 * 1) ((160 : ℝ) / 1459) (by norm_num) (by norm_num))
    (memIv_constR (-80 * (-4)) (1459 * 1) ((320 : ℝ) / 1459) (by norm_num) (by norm_num))
    (memIv_constR (-202 * 1) (7295 * 1) ((-202 : ℝ) / 7295) (by norm_num) (by norm_num))
    (memIv_constR (-202 * (-2)) (7295 * 1) ((404 : ℝ) / 7295) (by norm_num) (by norm_num))
    (memIv_constR (-202 * (-4)) (7295 * 1) ((808 : ℝ) / 7295) (by norm_num) (by norm_num))
    (memIv_constR (1 * 1) (7295 * 1) ((1 : ℝ) / 7295) (by norm_num) (by norm_num))
    (memIv_constR (1 * (-2)) (7295 * 1) ((-2 : ℝ) / 7295) (by norm_num) (by norm_num))
    (memIv_constR (1 * (-4)) (7295 * 1) ((-4 : ℝ) / 7295) (by norm_num) (by norm_num))
    ha11 ha12 ha13 ha21 ha22 ha23 ha31 ha32 ha33
  have hB22 := bEntry_bound
    (memIv_constR (-80 * 1) (1459 * 1) ((-80 : ℝ) / 1459) (by norm_num) (by norm_num))
    (memIv_constR (-80 * (-38)) (1459 * 1) ((3040 : ℝ) / 1459) (by norm_num) (by norm_num))
    (memIv_constR (-80 * 19) (1459 * 1) ((-1520 : ℝ) / 1459) (by norm_num) (by norm_num))
    (memIv_constR (-202 * 1) (7295 * 1) ((-202 : ℝ) / 7295) (by norm_num) (by norm_num))
    (memIv_constR (-202 * (-38)) (7295 * 1) ((7676 : ℝ) / 7295) (by norm_num) (by norm_num))
    (memIv_constR (-202 * 19) (7295 * 1) ((-3838 : ℝ) / 7295) (by norm_num) (by norm_num))
    (memIv_constR (1 * 1) (7295 * 1) ((1 : ℝ) / 7295) (by norm_num) (by norm_num))
    (memIv_constR (1 * (-38)) (7295 * 1) ((-38 : ℝ) / 7295) (by norm_num) (by norm_num))
    (memIv_constR (1 * 19) (7295 * 1) ((19 : ℝ) / 7295) (by norm_num) (by norm_num))
    ha11 ha12 ha13 ha21 ha22 ha23 ha31 ha32 ha33
  have hB23 := bEntry_bound
    (memIv_constR (-80 * 1) (1459 * 400) ((-80 : ℝ) / 583600) (by norm_num) (by norm_num))
    (memIv_constR (-80 * 0) (1459 * 1) ((0 : ℝ) / 1459) (by norm_num) (by norm_num))
    (memIv_constR (-80 * 1) (1459 * 1) ((-80 : ℝ) / 1459) (by norm_num) (by norm_num))
    (memIv_constR (-202 * 1) (7295 * 400) ((-202 : ℝ) / 2918000) (by norm_num) (by norm_num))
    (memIv_constR (-202 * 0) (7295 * 1) ((0 : ℝ) / 7295) (by norm_num) (by norm_num))
    (memIv_constR (-202 * 1) (7295 * 1) ((-202 : ℝ) / 7295) (by norm_num) (by norm_num))
    (memIv_constR (1 * 1) (7295 * 400) ((1 : ℝ) / 2918000) (by norm_num) (by norm_num))
    (memIv_constR (1 * 0) (7295 * 1) ((0 : ℝ) / 7295) (by norm_num) (by norm_num))
    (memIv_constR (1 * 1) (7295 * 1) ((1 : ℝ) / 7295) (by norm_num) (by norm_num))
    ha11 ha12 ha13 ha21 ha22 ha23 ha31 ha32 ha33
  have hB31 := bEntry_bound
    (memIv_constR (7600 * 1) (1459 * 1) ((7600 : ℝ) / 1459) (by norm_num) (by norm_num))
    (memIv_constR (7600 * (-2)) (1459 * 1) ((-15200 : ℝ) / 1459) (by norm_num) (by norm_num))
    (memIv_constR (7600 * (-4)) (1459 * 1) ((-30400 : ℝ) / 1459) (by norm_num) (by norm_num))
    (memIv_constR (920 * 1) (1459 * 1) ((920 : ℝ) / 1459) (by norm_num) (by norm_num))
    (memIv_constR (920 * (-2)) (1459 * 1) ((-1840 : ℝ) / 1459) (by norm_num) (by norm_num))
    (memIv_constR (920 * (-4)) (1459 * 1) ((-3680 : ℝ) / 1459) (by norm_num) (by norm_num))
    (memIv_constR (1440 * 1) (1459 * 1) ((1440 : ℝ) / 1459) (by norm_num) (by norm_num))
    (memIv_constR (1440 * (-2)) (1459 * 1) ((-2880 : ℝ) / 1459) (by norm_num) (by norm_num))
    (memIv_constR (1440 * (-4)) (1459 * 1) ((-5760 : ℝ) / 1459) (by norm_num) (by norm_num))
    ha11 ha12 ha13 ha21 ha22 ha23 ha31 ha32 ha33
  have hB32 := bEntry_bound
    (memIv_constR (7600 * 1) (1459 * 1) ((7600 : ℝ) / 1459) (by norm_num) (by norm_num))
    (memIv_constR (7600 * (-38)) (1459 * 1) ((-288800 : ℝ) / 1459) (by norm_num) (by norm_num))
    (memIv_constR (7600 * 19) (1459 * 1) ((144400 : ℝ) / 1459) (by norm_num) (by norm_num))
    (memIv_constR (920 * 1) (1459 * 1) ((920 : ℝ) / 1459) (by norm_num) (by norm_num))
    (memIv_constR (920 * (-38)) (1459 * 1) ((-34960 : ℝ) / 1459) (by norm_num) (by norm_num))
    (memIv_constR (920 * 19) (1459 * 1) ((17480 : ℝ) / 1459) (by norm_num) (by norm_num))
    (memIv_constR (1440 * 1) (1459 * 1) ((1440 : ℝ) / 1459) (by norm_num) (by norm_num))
    (memIv_constR (1440 * (-38)) (1459 * 1) ((-54720 : ℝ) / 1459) (by norm_num) (by norm_num))
    (memIv_constR (1440 * 19) (1459 * 1) ((27360 : ℝ) / 1459) (by norm_num) (by norm_num))
    ha11 ha12 ha13 ha21 ha22 ha23 ha31 ha32 ha33
  have hB33 := bEntry_bound
    (memIv_constR (7600 * 1) (1459 * 400) ((7600 : ℝ) / 583600) (by norm_num) (by norm_num))
    (memIv_constR (7600 * 0) (1459 * 1) ((0 : ℝ) / 1459) (by norm_num) (by norm_num))
    (memIv_constR (7600 * 1) (1459 * 1) ((7600 : ℝ) / 1459) (by norm_num) (by norm_num))
    (memIv_constR (920 * 1) (1459 * 400) ((920 : ℝ) / 583600) (by norm_num) (by norm_num))
    (memIv_constR (920 * 0) (1459 * 1) ((0 : ℝ) / 1459) (by norm_num) (by norm_num))
    (memIv_constR (920 * 1) (1459 * 1) ((920 : ℝ) / 1459) (by norm_num) (by norm_num))
    (memIv_constR (1440 * 1) (1459 * 400) ((1440 : ℝ) / 583600) (by norm_num) (by norm_num))
    (memIv_constR (1440 * 0) (1459 * 1) ((0 : ℝ) / 1459) (by norm_num) (by norm_num))
    (memIv_constR (1440 * 1) (1459 * 1) ((1440 : ℝ) / 1459) (by norm_num) (by norm_num))
    ha11 ha12 ha13 ha21 ha22 ha23 ha31 ha32 ha33
  have hq1 : (stepN a1 a2 a3 r).2.q1
      = cup (bEntry 1520 1459 381 14590 (-19) 7295 a1 a2 a3 1 1 (-2) 1 (-4) 1 * r.q1) fsc
      + cup (bEntry 1520 1459 381 14590 (-19) 7295 a1 a2 a3 1 1 (-38) 1 19 1 * r.q2) fsc
      + cup (bEntry 1520 1459 381 14590 (-19) 7295 a1 a2 a3 1 400 0 1 1 1 * r.q3) fsc
      + cup (1520 * (max (a1.val.hi - ivmid a1.val) (ivmid a1.val - a1.val.lo))) 1459
      + cup (381 * (max (a2.val.hi - ivmid a2.val) (ivmid a2.val - a2.val.lo))) 14590
      + cup (19 * (max (a3.val.hi - ivmid a3.val) (ivmid a3.val - a3.val.lo))) 7295 := rfl
  have hq2 : (stepN a1 a2 a3 r).2.q2
      = cup (bEntry (-80) 1459 (-202) 7295 1 7295 a1 a2 a3 1 1 (-2) 1 (-4) 1 * r.q1) fsc
      + cup (bEntry (-80) 1459 (-202) 7295 1 7295 a1 a2 a3 1 1 (-38) 1 19 1 * r.q2) fsc
      + cup (bEntry (-80) 1459 (-202) 7295 1 7295 a1 a2 a3 1 400 0 1 1 1 * r.q3) fsc
      + cup (80 * (max (a1.val.hi - ivmid a1.val) (ivmid a1.val - a1.val.lo))) 1459
      + cup (202 * (max (a2.val.hi - ivmid a2.val) (ivmid a2.val - a2.val.lo))) 7295
      + cup (1 * (max (a3.val.hi - ivmid a3.val) (ivmid a3.val - a3.val.lo))) 7295 := rfl
  have hq3 : (stepN a1 a2 a3 r).2.q3
      = cup (bEntry 7600 1459 920 1459 1440 1459 a1 a2 a3 1 1 (-2) 1 (-4) 1 * r.q1) fsc
      + cup (bEntry 7600 1459 920 1459 1440 1459 a1 a2 a3 1 1 (-38) 1 19 1 * r.q2) fsc
      + cup (bEntry 7600 1459 920 1459 1440 1459 a1 a2 a3 1 400 0 1 1 1 * r.q3) fsc
      + cup (7600 * (max (a1.val.hi - ivmid a1.val) (ivmid a1.val - a1.val.lo))) 1459
      + cup (920 * (max (a2.val.hi - ivmid a2.val) (ivmid a2.val - a2.val.lo))) 1459
      + cup (1440 * (max (a3.val.hi - ivmid a3.val) (ivmid a3.val - a3.val.lo))) 1459 := rfl
  have hm1 : (stepN a1 a2 a3 r).1.q1 = ivmid a1.val := rfl
  have hm2 : (stepN a1 a2 a3 r).1.q2 = ivmid a2.val := rfl
  have hm3 : (stepN a1 a2 a3 r).1.q3 = ivmid a3.val := rfl
  refine ⟨(1520 : ℝ) / 1459 * (f1 (z1 + z2 + 1 / 400 * z3, -2 * z1 - 38 * z2, -4 * z1 + 19 * z2 + z3) - toR (ivmid a1.val)) + (381 : ℝ) / 14590 * (f2 (z1 + z2 + 1 / 400 * z3, -2 * z1 - 38 * z2, -4 * z1 + 19 * z2 + z3) - toR (ivmid a2.val)) + (-19 : ℝ) / 7295 * (f3 (z1 + z2 + 1 / 400 * z3, -2 * z1 - 38 * z2, -4 * z1 + 19 * z2 + z3) - toR (ivmid a3.val)),
    (-80 : ℝ) / 1459 * (f1 (z1 + z2 + 1 / 400 * z3, -2 * z1 - 38 * z2, -4 * z1 + 19 * z2 + z3) - toR (ivmid a1.val)) + (-202 : ℝ) / 7295 * (f2 (z1 + z2 + 1 / 400 * z3, -2 * z1 - 38 * z2, -4 * z1 + 19 * z2 + z3) - toR (ivmid a2.val)) + (1 : ℝ) / 7295 * (f3 (z1 + z2 + 1 / 400 * z3, -2 * z1 - 38 * z2, -4 * z1 + 19 * z2 + z3) - toR (ivmid a3.val)),
    (7600 : ℝ) / 1459 * (f1 (z1 + z2 + 1 / 400 * z3, -2 * z1 - 38 * z2, -4 * z1 + 19 * z2 + z3) - toR (ivmid a1.val)) + (920 : ℝ) / 1459 * (f2 (z1 + z2 + 1 / 400 * z3, -2 * z1 - 38 * z2, -4 * z1 + 19 * z2 + z3) - toR (ivmid a2.val)) + (1440 : ℝ) / 1459 * (f3 (z1 + z2 + 1 / 400 * z3, -2 * z1 - 38 * z2, -4 * z1 + 19 * z2 + z3) - toR (ivmid a3.val)), ?_, ?_, ?_, ?_, ?_, ?_⟩
  · rw [hq1]
    simp only [toR_add]
    have hw : (1520 : ℝ) / 1459 * (f1 (z1 + z2 + 1 / 400 * z3, -2 * z1 - 38 * z2, -4 * z1 + 19 * z2 + z3) - toR (ivmid a1.val)) + (381 : ℝ) / 14590 * (f2 (z1 + z2 + 1 / 400 * z3, -2 * z1 - 38 * z2, -4 * z1 + 19 * z2 + z3) - toR (ivmid a2.val)) + (-19 : ℝ) / 7295 * (f3 (z1 + z2 + 1 / 400 * z3, -2 * z1 - 38 * z2, -4 * z1 + 19 * z2 + z3) - toR (ivmid a3.val))
        = (((1520 : ℝ) / 1459 * a11 + (-3040 : ℝ) / 1459 * a12 + (-6080 : ℝ) / 1459 * a13 + ((381 : ℝ) / 14590 * a21 + (-762 : ℝ) / 14590 * a22 + (-1524 : ℝ) / 14590 * a23)) + ((-19 : ℝ) / 7295 * a31 + (38 : ℝ) / 7295 * a32 + (76 : ℝ) / 7295 * a33)) * z1
        + (((1520 : ℝ) / 1459 * a11 + (-57760 : ℝ) / 1459 * a12 + (28880 : ℝ) / 1459 * a13 + ((381 : ℝ) / 14590 * a21 + (-14478 : ℝ) / 14590 * a22 + (7239 : ℝ) / 14590 * a23)) + ((-19 : ℝ) / 7295 * a31 + (722 : ℝ) / 7295 * a32 + (-361 : ℝ) / 7295 * a33)) * z2
        + (((1520 : ℝ) / 583600 * a11 + (0 : ℝ) / 1459 * a12 + (1520 : ℝ) / 1459 * a13 + ((381 : ℝ) / 5836000 * a21 + (0 : ℝ) / 14590 * a22 + (381 : ℝ) / 14590 * a23)) + ((-19 : ℝ) / 2918000 * a31 + (0 : ℝ) / 7295 * a32 + (-19 : ℝ) / 7295 * a33)) * z3
        + (1520 : ℝ) / 1459 * (f1 (0, 0, 0) - toR (ivmid a1.val))
        + (381 : ℝ) / 14590 * (f2 (0, 0, 0) - toR (ivmid a2.val))
        + (-19 : ℝ) / 7295 * (f3 (0, 0, 0) - toR (ivmid a3.val))
        := by
      linear_combination ((1520 : ℝ) / 1459) * hs1 + ((381 : ℝ) / 14590) * hs2 + ((-19 : ℝ) / 7295) * hs3
    rw [hw]
    have h6 := abs_add6 ((((1520 : ℝ) / 1459 * a11 + (-3040 : ℝ) / 1459 * a12 + (-6080 : ℝ) / 1459 * a13 + ((381 : ℝ) / 14590 * a21 + (-762 : ℝ) / 14590 * a22 + (-1524 : ℝ) / 14590 * a23)) + ((-19 : ℝ) / 7295 * a31 + (38 : ℝ) / 7295 * a32 + (76 : ℝ) / 7295 * a33)) * z1) ((((1520 : ℝ) / 1459 * a11 + (-57760 : ℝ) / 1459 * a12 + (28880 : ℝ) / 1459 * a13 + ((381 : ℝ) / 14590 * a21 + (-14478 : ℝ) / 14590 * a22 + (7239 : ℝ) / 14590 * a23)) + ((-19 : ℝ) / 7295 * a31 + (722 : ℝ) / 7295 * a32 + (-361 : ℝ) / 7295 * a33)) * z2) ((((1520 : ℝ) / 583600 * a11 + (0 : ℝ) / 1459 * a12 + (1520 : ℝ) / 1459 * a13 + ((381 : ℝ) / 5836000 * a21 + (0 : ℝ) / 14590 * a22 + (381 : ℝ) / 14590 * a23)) + ((-19 : ℝ) / 2918000 * a31 + (0 : ℝ) / 7295 * a32 + (-19 : ℝ) / 7295 * a33)) * z3) ((1520 : ℝ) / 1459 * (f1 (0, 0, 0) - toR (ivmid a1.val))) ((381 : ℝ) / 14590 * (f2 (0, 0, 0) - toR (ivmid a2.val))) ((-19 : ℝ) / 7295 * (f3 (0, 0, 0) - toR (ivmid a3.val)))
    have t1 : |(((1520 : ℝ) / 1459 * a11 + (-3040 : ℝ) / 1459 * a12 + (-6080 : ℝ) / 1459 * a13 + ((381 : ℝ) / 14590 * a21 + (-762 : ℝ) / 14590 * a22 + (-1524 : ℝ) / 14590 * a23)) + ((-19 : ℝ) / 7295 * a31 + (38 : ℝ) / 7295 * a32 + (76 : ℝ) / 7295 * a33)) * z1| ≤ toR (cup (bEntry 1520 1459 381 14590 (-19) 7295 a1 a2 a3 1 1 (-2) 1 (-4) 1 * r.q1) fsc) := by
      rw [abs_mul]
      exact le_trans (mul_le_mul hB11 hz1 (abs_nonneg _) (le_trans (abs_nonneg _) hB11)) (toR_mul_le_cup _ _)
    have t2 : |(((1520 : ℝ) / 1459 * a11 + (-57760 : ℝ) / 1459 * a12 + (28880 : ℝ) / 1459 * a13 + ((381 : ℝ) / 14590 * a21 + (-14478 : ℝ) / 14590 * a22 + (7239 : ℝ) / 14590 * a23)) + ((-19 : ℝ) / 7295 * a31 + (722 : ℝ) / 7295 * a32 + (-361 : ℝ) / 7295 * a33)) * z2| ≤ toR (cup (bEntry 1520 1459 381 14590 (-19) 7295 a1 a2 a3 1 1 (-38) 1 19 1 * r.q2) fsc) := by
      rw [abs_mul]
      exact le_trans (mul_le_mul hB12 hz2 (abs_nonneg _) (le_trans (abs_nonneg _) hB12)) (toR_mul_le_cup _ _)
    have t3 : |(((1520 : ℝ) / 583600 * a11 + (0 : ℝ) / 1459 * a12 + (1520 : ℝ) / 1459 * a13 + ((381 : ℝ) / 5836000 * a21 + (0 : ℝ) / 14590 * a22 + (381 : ℝ) / 14590 * a23)) + ((-19 : ℝ) / 2918000 * a31 + (0 : ℝ) / 7295 * a32 + (-19 : ℝ) / 7295 * a33)) * z3| ≤ toR (cup (bEntry 1520 1459 381 14590 (-19) 7295 a1 a2 a3 1 400 0 1 1 1 * r.q3) fsc) := by
      rw [abs_mul]
      exact le_trans (mul_le_mul hB13 hz3 (abs_nonneg _) (le_trans (abs_nonneg _) hB13)) (toR_mul_le_cup _ _)
    have t4 : |(1520 : ℝ) / 1459 * (f1 (0, 0, 0) - toR (ivmid a1.val))| ≤ toR (cup (1520 * (max (a1.val.hi - ivmid a1.val) (ivmid a1.val - a1.val.lo))) 1459) :=
      coef_err_le_cup 1520 1459 _ _ _ (by norm_num) (by norm_num) hd1
    have t5 : |(381 : ℝ) / 14590 * (f2 (0, 0, 0) - toR (ivmid a2.val))| ≤ toR (cup (381 * (max (a2.val.hi - ivmid a2.val) (ivmid a2.val - a2.val.lo))) 14590) :=
      coef_err_le_cup 381 14590 _ _ _ (by norm_num) (by norm_num) hd2
    have t6 : |(-19 : ℝ) / 7295 * (f3 (0, 0, 0) - toR (ivmid a3.val))| ≤ toR (cup (19 * (max (a3.val.hi - ivmid a3.val) (ivmid a3.val - a3.val.lo))) 7295) :=
      coef_err_le_cup 19 7295 _ _ _ (by norm_num) (by norm_num) hd3
    linarith [h6, t1, t2, t3, t4, t5, t6]
  · rw [hq2]
    simp only [toR_add]
    have hw : (-80 : ℝ) / 1459 * (f1 (z1 + z2 + 1 / 400 * z3, -2 * z1 - 38 * z2, -4 * z1 + 19 * z2 + z3) - toR (ivmid a1.val)) + (-202 : ℝ) / 7295 * (f2 (z1 + z2 + 1 / 400 * z3, -2 * z1 - 38 * z2, -4 * z1 + 19 * z2 + z3) - toR (ivmid a2.val)) + (1 : ℝ) / 7295 * (f3 (z1 + z2 + 1 / 400 * z3, -2 * z1 - 38 * z2, -4 * z1 + 19 * z2 + z3) - toR (ivmid a3.val))
        = (((-80 : ℝ) / 1459 * a11 + (160 : ℝ) / 1459 * a12 + (320 : ℝ) / 1459 * a13 + ((-202 : ℝ) / 7295 * a21 + (404 : ℝ) / 7295 * a22 + (808 : ℝ) / 7295 * a23)) + ((1 : ℝ) / 7295 * a31 + (-2 : ℝ) / 7295 * a32 + (-4 : ℝ) / 7295 * a33)) * z1
        + (((-80 : ℝ) / 1459 * a11 + (3040 : ℝ) / 1459 * a12 + (-1520 : ℝ) / 1459 * a13 + ((-202 : ℝ) / 7295 * a21 + (7676 : ℝ) / 7295 * a22 + (-3838 : ℝ) / 7295 * a23)) + ((1 : ℝ) / 7295 * a31 + (-38 : ℝ) / 7295 * a32 + (19 : ℝ) / 7295 * a33)) * z2
        + (((-80 : ℝ) / 583600 * a11 + (0 : ℝ) / 1459 * a12 + (-80 : ℝ) / 1459 * a13 + ((-202 : ℝ) / 2918000 * a21 + (0 : ℝ) / 7295 * a22 + (-202 : ℝ) / 7295 * a23)) + ((1 : ℝ) / 2918000 * a31 + (0 : ℝ) / 7295 * a32 + (1 : ℝ) / 7295 * a33)) * z3
        + (-80 : ℝ) / 1459 * (f1 (0, 0, 0) - toR (ivmid a1.val))
        + (-202 : ℝ) / 7295 * (f2 (0, 0, 0) - toR (ivmid a2.val))
        + (1 : ℝ) / 7295 * (f3 (0, 0, 0) - toR (ivmid a3.val))
        := by
      linear_combination ((-80 : ℝ) / 1459) * hs1 + ((-202 : ℝ) / 7295) * hs2 + ((1 : ℝ) / 7295) * hs3
    rw [hw]
    have h6 := abs_add6 ((((-80 : ℝ) / 1459 * a11 + (160 : ℝ) / 1459 * a12 + (320 : ℝ) / 1459 * a13 + ((-202 : ℝ) / 7295 * a21 + (404 : ℝ) / 7295 * a22 + (808 : ℝ) / 7295 * a23)) + ((1 : ℝ) / 7295 * a31 + (-2 : ℝ) / 7295 * a32 + (-4 : ℝ) / 7295 * a33)) * z1) ((((-80 : ℝ) / 1459 * a11 + (3040 : ℝ) / 1459 * a12 + (-1520 : ℝ) / 1459 * a13 + ((-202 : ℝ) / 7295 * a21 + (7676 : ℝ) / 7295 * a22 + (-3838 : ℝ) / 7295 * a23)) + ((1 : ℝ) / 7295 * a31 + (-38 : ℝ) / 7295 * a32 + (19 : ℝ) / 7295 * a33)) * z2) ((((-80 : ℝ) / 583600 * a11 + (0 : ℝ) / 1459 * a12 + (-80 : ℝ) / 1459 * a13 + ((-202 : ℝ) / 2918000 * a21 + (0 : ℝ) / 7295 * a22 + (-202 : ℝ) / 7295 * a23)) + ((1 : ℝ) / 2918000 * a31 + (0 : ℝ) / 7295 * a32 + (1 : ℝ) / 7295 * a33)) * z3) ((-80 : ℝ) / 1459 * (f1 (0, 0, 0) - toR (ivmid a1.val))) ((-202 : ℝ) / 7295 * (f2 (0, 0, 0) - toR (ivmid a2.val))) ((1 : ℝ) / 7295 * (f3 (0, 0, 0) - toR (ivmid a3.val)))
    have t1 : |(((-80 : ℝ) / 1459 * a11 + (160 : ℝ) / 1459 * a12 + (320 : ℝ) / 1459 * a13 + ((-202 : ℝ) / 7295 * a21 + (404 : ℝ) / 7295 * a22 + (808 : ℝ) / 7295 * a23)) + ((1 : ℝ) / 7295 * a31 + (-2 : ℝ) / 7295 * a32 + (-4 : ℝ) / 7295 * a33)) * z1| ≤ toR (cup (bEntry (-80) 1459 (-202) 7295 1 7295 a1 a2 a3 1 1 (-2) 1 (-4) 1 * r.q1) fsc) := by
      rw [abs_mul]
      exact le_trans (mul_le_mul hB21 hz1 (abs_nonneg _) (le_trans (abs_nonneg _) hB21)) (toR_mul_le_cup _ _)
    have t2 : |(((-80 : ℝ) / 1459 * a11 + (3040 : ℝ) / 1459 * a12 + (-1520 : ℝ) / 1459 * a13 + ((-202 : ℝ) / 7295 * a21 + (7676 : ℝ) / 7295 * a22 + (-3838 : ℝ) / 7295 * a23)) + ((1 : ℝ) / 7295 * a31 + (-38 : ℝ) / 7295 * a32 + (19 : ℝ) / 7295 * a33)) * z2| ≤ toR (cup (bEntry (-80) 1459 (-202) 7295 1 7295 a1 a2 a3 1 1 (-38) 1 19 1 * r.q2) fsc) := by
      rw [abs_mul]
      exact le_trans (mul_le_mul hB22 hz2 (abs_nonneg _) (le_trans (abs_nonneg _) hB22)) (toR_mul_le_cup _ _)
    have t3 : |(((-80 : ℝ) / 583600 * a11 + (0 : ℝ) / 1459 * a12 + (-80 : ℝ) / 1459 * a13 + ((-202 : ℝ) / 2918000 * a21 + (0 : ℝ) / 7295 * a22 + (-202 : ℝ) / 7295 * a23)) + ((1 : ℝ) / 2918000 * a31 + (0 : ℝ) / 7295 * a32 + (1 : ℝ) / 7295 * a33)) * z3| ≤ toR (cup (bEntry (-80) 1459 (-202) 7295 1 7295 a1 a2 a3 1 400 0 1 1 1 * r.q3) fsc) := by
      rw [abs_mul]
      exact le_trans (mul_le_mul hB23 hz3 (abs_nonneg _) (le_trans (abs_nonneg _) hB23)) (toR_mul_le_cup _ _)
    have t4 : |(-80 : ℝ) / 1459 * (f1 (0, 0, 0) - toR (ivmid a1.val))| ≤ toR (cup (80 * (max (a1.val.hi - ivmid a1.val) (ivmid a1.val - a1.val.lo))) 1459) :=
      coef_err_le_cup 80 1459 _ _ _ (by norm_num) (by norm_num) hd1
    have t5 : |(-202 : ℝ) / 7295 * (f2 (0, 0, 0) - toR (ivmid a2.val))| ≤ toR (cup (202 * (max (a2.val.hi - ivmid a2.val) (ivmid a2.val - a2.val.lo))) 7295) :=
      coef_err_le_cup 202 7295 _ _ _ (by norm_num) (by norm_num) hd2
    have t6 : |(1 : ℝ) / 7295 * (f3 (0, 0, 0) - toR (ivmid a3.val))| ≤ toR (cup (1 * (max (a3.val.hi - ivmid a3.val) (ivmid a3.val - a3.val.lo))) 7295) :=
      coef_err_le_cup 1 7295 _ _ _ (by norm_num) (by norm_num) hd3
    linarith [h6, t1, t2, t3, t4, t5, t6]
  · rw [hq3]
    simp only [toR_add]
    have hw : (7600 : ℝ) / 1459 * (f1 (z1 + z2 + 1 / 400 * z3, -2 * z1 - 38 * z2, -4 * z1 + 19 * z2 + z3) - toR (ivmid a1.val)) + (920 : ℝ) / 1459 * (f2 (z1 + z2 + 1 / 400 * z3, -2 * z1 - 38 * z2, -4 * z1 + 19 * z2 + z3) - toR (ivmid a2.val)) + (1440 : ℝ) / 1459 * (f3 (z1 + z2 + 1 / 400 * z3, -2 * z1 - 38 * z2, -4 * z1 + 19 * z2 + z3) - toR (ivmid a3.val))
        = (((7600 : ℝ) / 1459 * a11 + (-15200 : ℝ) / 1459 * a12 + (-30400 : ℝ) / 1459 * a13 + ((920 : ℝ) / 1459 * a21 + (-1840 : ℝ) / 1459 * a22 + (-3680 : ℝ) / 1459 * a23)) + ((1440 : ℝ) / 1459 * a31 + (-2880 : ℝ) / 1459 * a32 + (-5760 : ℝ) / 1459 * a33)) * z1
        + (((7600 : ℝ) / 1459 * a11 + (-288800 : ℝ) / 1459 * a12 + (144400 : ℝ) / 1459 * a13 + ((920 : ℝ) / 1459 * a21 + (-34960 : ℝ) / 1459 * a22 + (17480 : ℝ) / 1459 * a23)) + ((1440 : ℝ) / 1459 * a31 + (-54720 : ℝ) / 1459 * a32 + (27360 : ℝ) / 1459 * a33)) * z2
        + (((7600 : ℝ) / 583600 * a11 + (0 : ℝ) / 1459 * a12 + (7600 : ℝ) / 1459 * a13 + ((920 : ℝ) / 583600 * a21 + (0 : ℝ) / 1459 * a22 + (920 : ℝ) / 1459 * a23)) + ((1440 : ℝ) / 583600 * a31 + (0 : ℝ) / 1459 * a32 + (1440 : ℝ) / 1459 * a33)) * z3
        + (7600 : ℝ) / 1459 * (f1 (0, 0, 0) - toR (ivmid a1.val))
        + (920 : ℝ) / 1459 * (f2 (0, 0, 0) - toR (ivmid a2.val))
        + (1440 : ℝ) / 1459 * (f3 (0, 0, 0) - toR (ivmid a3.val))
        := by
      linear_combination ((7600 : ℝ) / 1459) * hs1 + ((920 : ℝ) / 1459) * hs2 + ((1440 : ℝ) / 1459) * hs3
    rw [hw]
    have h6 := abs_add6 ((((7600 : ℝ) / 1459 * a11 + (-15200 : ℝ) / 1459 * a12 + (-30400 : ℝ) / 1459 * a13 + ((920 : ℝ) / 1459 * a21 + (-1840 : ℝ) / 1459 * a22 + (-3680 : ℝ) / 1459 * a23)) + ((1440 : ℝ) / 1459 * a31 + (-2880 : ℝ) / 1459 * a32 + (-5760 : ℝ) / 1459 * a33)) * z1) ((((7600 : ℝ) / 1459 * a11 + (-288800 : ℝ) / 1459 * a12 + (144400 : ℝ) / 1459 * a13 + ((920 : ℝ) / 1459 * a21 + (-34960 : ℝ) / 1459 * a22 + (17480 : ℝ) / 1459 * a23)) + ((1440 : ℝ) / 1459 * a31 + (-54720 : ℝ) / 1459 * a32 + (27360 : ℝ) / 1459 * a33)) * z2) ((((7600 : ℝ) / 583600 * a11 + (0 : ℝ) / 1459 * a12 + (7600 : ℝ) / 1459 * a13 + ((920 : ℝ) / 583600 * a21 + (0 : ℝ) / 1459 * a22 + (920 : ℝ) / 1459 * a23)) + ((1440 : ℝ) / 583600 * a31 + (0 : ℝ) / 1459 * a32 + (1440 : ℝ) / 1459 * a33)) * z3) ((7600 : ℝ) / 1459 * (f1 (0, 0, 0) - toR (ivmid a1.val))) ((920 : ℝ) / 1459 * (f2 (0, 0, 0) - toR (ivmid a2.val))) ((1440 : ℝ) / 1459 * (f3 (0, 0, 0) - toR (ivmid a3.val)))
    have t1 : |(((7600 : ℝ) / 1459 * a11 + (-15200 : ℝ) / 1459 * a12 + (-30400 : ℝ) / 1459 * a13 + ((920 : ℝ) / 1459 * a21 + (-1840 : ℝ) / 1459 * a22 + (-3680 : ℝ) / 1459 * a23)) + ((1440 : ℝ) / 1459 * a31 + (-2880 : ℝ) / 1459 * a32 + (-5760 : ℝ) / 1459 * a33)) * z1| ≤ toR (cup (bEntry 7600 1459 920 1459 1440 1459 a1 a2 a3 1 1 (-2) 1 (-4) 1 * r.q1) fsc) := by
      rw [abs_mul]
      exact le_trans (mul_le_mul hB31 hz1 (abs_nonneg _) (le_trans (abs_nonneg _) hB31)) (toR_mul_le_cup _ _)
    have t2 : |(((7600 : ℝ) / 1459 * a11 + (-288800 : ℝ) / 1459 * a12 + (144400 : ℝ) / 1459 * a13 + ((920 : ℝ) / 1459 * a21 + (-34960 : ℝ) / 1459 * a22 + (17480 : ℝ) / 1459 * a23)) + ((1440 : ℝ) / 1459 * a31 + (-54720 : ℝ) / 1459 * a32 + (27360 : ℝ) / 1459 * a33)) * z2| ≤ toR (cup (bEntry 7600 1459 920 1459 1440 1459 a1 a2 a3 1 1 (-38) 1 19 1 * r.q2) fsc) := by
      rw [abs_mul]
      exact le_trans (mul_le_mul hB32 hz2 (abs_nonneg _) (le_trans (abs_nonneg _) hB32)) (toR_mul_le_cup _ _)
    have t3 : |(((7600 : ℝ) / 583600 * a11 + (0 : ℝ) / 1459 * a12 + (7600 : ℝ) / 1459 * a13 + ((920 : ℝ) / 583600 * a21 + (0 : ℝ) / 1459 * a22 + (920 : ℝ) / 1459 * a23)) + ((1440 : ℝ) / 583600 * a31 + (0 : ℝ) / 1459 * a32 + (1440 : ℝ) / 1459 * a33)) * z3| ≤ toR (cup (bEntry 7600 1459 920 1459 1440 1459 a1 a2 a3 1 400 0 1 1 1 * r.q3) fsc) := by
      rw [abs_mul]
      exact le_trans (mul_le_mul hB33 hz3 (abs_nonneg _) (le_trans (abs_nonneg _) hB33)) (toR_mul_le_cup _ _)
    have t4 : |(7600 : ℝ) / 1459 * (f1 (0, 0, 0) - toR (ivmid a1.val))| ≤ toR (cup (7600 * (max (a1.val.hi - ivmid a1.val) (ivmid a1.val - a1.val.lo))) 1459) :=
      coef_err_le_cup 7600 1459 _ _ _ (by norm_num) (by norm_num) hd1
    have t5 : |(920 : ℝ) / 1459 * (f2 (0, 0, 0) - toR (ivmid a2.val))| ≤ toR (cup (920 * (max (a2.val.hi - ivmid a2.val) (ivmid a2.val - a2.val.lo))) 1459) :=
      coef_err_le_cup 920 1459 _ _ _ (by norm_num) (by norm_num) hd2
    have t6 : |(1440 : ℝ) / 1459 * (f3 (0, 0, 0) - toR (ivmid a3.val))| ≤ toR (cup (1440 * (max (a3.val.hi - ivmid a3.val) (ivmid a3.val - a3.val.lo))) 1459) :=
      coef_err_le_cup 1440 1459 _ _ _ (by norm_num) (by norm_num) hd3
    linarith [h6, t1, t2, t3, t4, t5, t6]
  · rw [hm1]
    ring
  · rw [hm2]
    ring
  · rw [hm3]
    ring

theorem stepQ_sound {c r : IV3} {v : ℝ × ℝ × ℝ}
    (hok : (stepQ c r).2.2 = true) (hv : InEnc c r v) :
    InEnc (stepQ c r).1 (stepQ c r).2.1 (f3step v) := by
  obtain ⟨v1, v2, v3⟩ := v
  obtain ⟨z1, z2, z3, hz1, hz2, hz3, hv1, hv2, hv3⟩ := hv
  dsimp only at hv1 hv2 hv3
  subst hv1
  subst hv2
  subst hv3
  have hok0 : (rk4Q (eboxOf r) c).2.2.2 = true := hok
  obtain ⟨hg1, hg2, hg3⟩ := rk4Q_sound hok0
  obtain ⟨w1, w2, w3, hw1, hw2, hw3, he1, he2, he3⟩ := stepN_sound hg1 hg2 hg3 hz1 hz2 hz3
  exact ⟨w1, w2, w3, hw1, hw2, hw3, he1, he2, he3⟩

theorem toR_mulint (a k : ℤ) : toR (a * k) = toR a * (k : ℝ) := by
  unfold toR
  push_cast
  ring

theorem thetaOk_sound {c r : IV3} {v : ℝ × ℝ × ℝ}
    (hok : thetaOkQ c r = true) (hv : InEnc c r v) : |v.1| ≤ 157 / 100 := by
  rw [thetaOkQ, decide_eq_true_eq] at hok
  obtain ⟨z1, z2, z3, hz1, hz2, hz3, hv1, hv2, hv3⟩ := hv
  have hM : |toR c.q1| ≤ toR (max c.q1 (-c.q1)) := by
    rw [toR_max, toR_neg, abs_le]
    constructor
    · have h := le_max_right (toR c.q1) (-toR c.q1)
      linarith
    · exact le_max_left _ _
  obtain ⟨hMa, hMb⟩ := abs_le.mp hM
  have hcup := toR_div_le_cup r.q3 400 (by norm_num)
  push_cast at hcup
  have hineq := toR_le hok
  rw [toR_mulint, toR_intmul, toR_fsc, toR_add, toR_add, toR_add] at hineq
  push_cast at hineq
  obtain ⟨hz1a, hz1b⟩ := abs_le.mp hz1
  obtain ⟨hz2a, hz2b⟩ := abs_le.mp hz2
  obtain ⟨hz3a, hz3b⟩ := abs_le.mp hz3
  rw [hv1, abs_le]
  constructor <;> linarith

theorem runQ_sound : ∀ (n : ℕ) (c r : IV3) (v : ℝ × ℝ × ℝ),
    runQ n c r = true → InEnc c r v →
    ∀ k : ℕ, 1 ≤ k → k ≤ n → |(f3step^[k] v).1| ≤ 157 / 100 := by
  intro n
  induction n with
  | zero =>
    intro c r v _ _ k h1 h2
    omega
  | succ m ih =>
    intro c r v hrun hv k h1 h2
    simp only [runQ, Bool.and_eq_true] at hrun
    obtain ⟨⟨hok, hth⟩, hrest⟩ := hrun
    have hv' := stepQ_sound hok hv
    rcases k with _ | k'
    · omega
    · rw [Function.iterate_succ_apply]
      rcases Nat.eq_zero_or_pos k' with h0 | hpos
      · subst h0
        rw [Function.iterate_zero_apply]
        exact thetaOk_sound hth hv'
      · exact ih _ _ _ hrest hv' k' hpos (by omega)

theorem runIter_spec : ∀ (n : ℕ) (c r : IV3) (b : Bool),
    runIter n (c, r, b) = ((stIter n (c, r)).1, (stIter n (c, r)).2, b && runQ n c r) := by
  intro n
  induction n with
  | zero =>
    intro c r b
    simp [runIter, stIter, runQ]
  | succ m ih =>
    intro c r b
    show runIter m ((stepQ c r).1, (stepQ c r).2.1,
        b && (stepQ c r).2.2 && thetaOkQ (stepQ c r).1 (stepQ c r).2.1) = _
    rw [ih]
    have hassoc : ∀ x y z w : Bool, ((x && y && z) && w) = (x && (y && z && w)) := by decide
    rw [hassoc]
    rfl

theorem runIter_add : ∀ (m n : ℕ) (p : IV3 × IV3 × Bool),
    runIter (m + n) p = runIter n (runIter m p) := by
  intro m
  induction m with
  | zero =>
    intro n p
    rw [Nat.zero_add]
    rfl
  | succ k ih =>
    intro n p
    have h : k + 1 + n = (k + n) + 1 := by omega
    rw [h]
    show runIter (k + n) (runIter 1 p) = _
    rw [ih]
    rfl

theorem pi_gap_lt : (157 : ℝ) / 100 < Real.pi / 2 := by
  have h := Real.pi_gt_d6
  linarith

theorem initEnc : InEnc c0Q rho0Q (10 * Real.pi / 180, 0, 0) := by
  have h1 := Real.pi_gt_d6
  have h2 := Real.pi_lt_d6
  have hc0 : toR c0Q.q1 = 201222762724364512 / 1152921504606846976 := by
    norm_num [toR, c0Q, fsc]
  have hd : |10 * Real.pi / 180 - toR c0Q.q1| ≤ 1 / 10 ^ 7 := by
    rw [hc0, abs_le]
    constructor <;> nlinarith
  refine ⟨(10 * Real.pi / 180 - toR c0Q.q1) * (1520 / 1459),
          (10 * Real.pi / 180 - toR c0Q.q1) * (-80 / 1459),
          (10 * Real.pi / 180 - toR c0Q.q1) * (7600 / 1459), ?_, ?_, ?_, ?_, ?_, ?_⟩
  · have hr : toR rho0Q.q1 = 345876451383 / 1152921504606846976 := by
      norm_num [toR, rho0Q, fsc]
    rw [hr, abs_mul]
    have habs : |(1520 : ℝ) / 1459| = 1520 / 1459 := by norm_num
    rw [habs]
    nlinarith [abs_nonneg (10 * Real.pi / 180 - toR c0Q.q1)]
  · have hr : toR rho0Q.q2 = 23058430093 / 1152921504606846976 := by
      norm_num [toR, rho0Q, fsc]
    rw [hr, abs_mul]
    have habs : |(-80 : ℝ) / 1459| = 80 / 1459 := by norm_num
    rw [habs]
    nlinarith [abs_nonneg (10 * Real.pi / 180 - toR c0Q.q1)]
  · have hr : toR rho0Q.q3 = 3458764513821 / 1152921504606846976 := by
      norm_num [toR, rho0Q, fsc]
    rw [hr, abs_mul]
    have habs : |(7600 : ℝ) / 1459| = 7600 / 1459 := by norm_num
    rw [habs]
    nlinarith [abs_nonneg (10 * Real.pi / 180 - toR c0Q.q1)]
  · dsimp only
    ring
  · dsimp only
    rw [show toR c0Q.q2 = 0 from by norm_num [toR, c0Q, fsc]]
    ring
  · dsimp only
    rw [show toR c0Q.q3 = 0 from by norm_num [toR, c0Q, fsc]]
    ring

theorem runQ_cons {c r c' r' : IV3} (hstep : stepQ c r = (c', r', true))
    (hth : thetaOkQ c' r' = true) {n : ℕ} (hrun : runQ n c' r' = true) :
    runQ (n + 1) c r = true := by
  rw [show runQ (n + 1) c r = ((stepQ c r).2.2 && thetaOkQ (stepQ c r).1 (stepQ c r).2.1
      && runQ n (stepQ c r).1 (stepQ c r).2.1) from rfl, hstep]
  simp [hth, hrun]

set_option maxRecDepth 1000000 in
set_option maxHeartbeats 4000000 in
theorem stepF0 : (stepQ (⟨201222762724364512, 0, 0⟩ : IV3) (⟨345876451383, 23058430093, 3458764513821⟩ : IV3)
    = ((⟨200450505055758530, -154451686227118961, 98334606770461230⟩ : IV3), (⟨1066780520147, 659096711956, 20143850317178⟩ : IV3), true))
    ∧ thetaOkQ (⟨200450505055758530, -154451686227118961, 98334606770461230⟩ : IV3) (⟨1066780520147, 659096711956, 20143850317178⟩ : IV3) = true :=
  ⟨rfl, by decide⟩

set_option maxRecDepth 1000000 in
set_option maxHeartbeats 4000000 in
theorem stepF1 : (stepQ (⟨200450505055758530, -154451686227118961, 98334606770461230⟩ : IV3) (⟨1066780520147, 659096711956, 20143850317178⟩ : IV3)
    = ((⟨198440195774957293, -247667993164729331, 165422901216955929⟩ : IV3), (⟨1685266747944, 940358680193, 33994670614993⟩ : IV3), true))
    ∧ thetaOkQ (⟨198440195774957293, -247667993164729331, 165422901216955929⟩ : IV3) (⟨1685266747944, 940358680193, 33994670614993⟩ : IV3) = true :=
  ⟨rfl, by decide⟩

set_option maxRecDepth 1000000 in
set_option maxHeartbeats 4000000 in
theorem stepF2 : (stepQ (⟨198440195774957293, -247667993164729331, 165422901216955929⟩ : IV3) (⟨1685266747944, 940358680193, 33994670614993⟩ : IV3)
    = ((⟨195688634960342808, -302734036194156499, 212891998064107858⟩ : IV3), (⟨2215823047595, 1032992014894, 45752451720254⟩ : IV3), true))
    ∧ thetaOkQ (⟨195688634960342808, -302734036194156499, 212891998064107858⟩ : IV3) (⟨2215823047595, 1032992014894, 45752451720254⟩ : IV3) = true :=
  ⟨rfl, by decide⟩

set_option maxRecDepth 1000000 in
set_option maxHeartbeats 4000000 in
theorem stepF3 : (stepQ (⟨195688634960342808, -302734036194156499, 212891998064107858⟩ : IV3) (⟨2215823047595, 1032992014894, 45752451720254⟩ : IV3)
    = ((⟨192505273338615378, -334046008891039630, 247999125631250237⟩ : IV3), (⟨2672968919572, 1030365606696, 55954994069407⟩ : IV3), true))
    ∧ thetaOkQ (⟨192505273338615378, -334046008891039630, 247999125631250237⟩ : IV3) (⟨2672968919572, 1030365606696, 55954994069407⟩ : IV3) = true :=
  ⟨rfl, by decide⟩

set_option maxRecDepth 1000000 in
set_option maxHeartbeats 4000000 in
theorem stepF4 : (stepQ (⟨192505273338615378, -334046008891039630, 247999125631250237⟩ : IV3) (⟨2672968919572, 1030365606696, 55954994069407⟩ : IV3)
    = ((⟨189082682045720258, -350589671870573456, 275277328388732674⟩ : IV3), (⟨3068718559974, 983129448240, 64973688935312⟩ : IV3), true))
    ∧ thetaOkQ (⟨189082682045720258, -350589671870573456, 275277328388732674⟩ : IV3) (⟨3068718559974, 983129448240, 64973688935312⟩ : IV3) = true :=
  ⟨rfl, by decide⟩

set_option maxRecDepth 1000000 in
set_option maxHeartbeats 4000000 in
theorem stepF5 : (stepQ (⟨189082682045720258, -350589671870573456, 275277328388732674⟩ : IV3) (⟨3068718559974, 983129448240, 64973688935312⟩ : IV3)
    = ((⟨185540467969992480, -357975452275507547, 297559335194027058⟩ : IV3), (⟨3412459443857, 917805000329, 73052542351977⟩ : IV3), true))
    ∧ thetaOkQ (⟨185540467969992480, -357975452275507547, 297559335194027058⟩ : IV3) (⟨3412459443857, 917805000329, 73052542351977⟩ : IV3) = true :=
  ⟨rfl, by decide⟩

set_option maxRecDepth 1000000 in
set_option maxHeartbeats 4000000 in
theorem stepF6 : (stepQ (⟨185540467969992480, -357975452275507547, 297559335194027058⟩ : IV3) (⟨3412459443857, 917805000329, 73052542351977⟩ : IV3)
    = ((⟨181952682123378193, -359706019211455695, 316616014615574930⟩ : IV3), (⟨3711463467256, 847707890481, 80357034557054⟩ : IV3), true))
    ∧ thetaOkQ (⟨181952682123378193, -359706019211455695, 316616014615574930⟩ : IV3) (⟨3711463467256, 847707890481, 80357034557054⟩ : IV3) = true :=
  ⟨rfl, by decide⟩

set_option maxRecDepth 1000000 in
set_option maxHeartbeats 4000000 in
theorem stepF7 : (stepQ (⟨181952682123378193, -359706019211455695, 316616014615574930⟩ : IV3) (⟨3711463467256, 847707890481, 80357034557054⟩ : IV3)
    = ((⟨178364938086942703, -357967328721800640, 333554986656064229⟩ : IV3), (⟨3972118240393, 779732419974, 87017077526117⟩ : IV3), true))
    ∧ thetaOkQ (⟨178364938086942703, -357967328721800640, 333554986656064229⟩ : IV3) (⟨3972118240393, 779732419974, 87017077526117⟩ : IV3) = true :=
  ⟨rfl, by decide⟩

set_option maxRecDepth 1000000 in
set_option maxHeartbeats 4000000 in
theorem stepF8 : (stepQ (⟨178364938086942703, -357967328721800640, 333554986656064229⟩ : IV3) (⟨3972118240393, 779732419974, 87017077526117⟩ : IV3)
    = ((⟨174805106159857643, -354122770538355438, 349069628166069672⟩ : IV3), (⟨4199054110756, 716357256842, 93118028663727⟩ : IV3), true))
    ∧ thetaOkQ (⟨174805106159857643, -354122770538355438, 349069628166069672⟩ : IV3) (⟨4199054110756, 716357256842, 93118028663727⟩ : IV3) = true :=
  ⟨rfl, by decide⟩

set_option maxRecDepth 1000000 in
set_option maxHeartbeats 4000000 in
theorem stepF9 : (stepQ (⟨174805106159857643, -354122770538355438, 349069628166069672⟩ : IV3) (⟨4199054110756, 716357256842, 93118028663727⟩ : IV3)
    = ((⟨171289993688388610, -349021968376751236, 363594642336284883⟩ : IV3), (⟨4395672835003, 657976139318, 98716712429359⟩ : IV3), true))
    ∧ thetaOkQ (⟨171289993688388610, -349021968376751236, 363594642336284883⟩ : IV3) (⟨4395672835003, 657976139318, 98716712429359⟩ : IV3) = true :=
  ⟨rfl, by decide⟩

set_option maxRecDepth 1000000 in
set_option maxHeartbeats 4000000 in
theorem stepF10 : (stepQ (⟨171289993688388610, -349021968376751236, 363594642336284883⟩ : IV3) (⟨4395672835003, 657976139318, 98716712429359⟩ : IV3)
    = ((⟨167829517019949208, -343193759725746787, 377403241248313916⟩ : IV3), (⟨4564936281161, 604487980248, 103860559713372⟩ : IV3), true))
    ∧ thetaOkQ (⟨167829517019949208, -343193759725746787, 377403241248313916⟩ : IV3) (⟨4564936281161, 604487980248, 103860559713372⟩ : IV3) = true :=
  ⟨rfl, by decide⟩

set_option maxRecDepth 1000000 in
set_option maxHeartbeats 4000000 in
theorem stepF11 : (stepQ (⟨167829517019949208, -343193759725746787, 377403241248313916⟩ : IV3) (⟨4564936281161, 604487980248, 103860559713372⟩ : IV3)
    = ((⟨164429305990749260, -336966771638206123, 390667838495423087⟩ : IV3), (⟨4709459973186, 555584051442, 108590359922403⟩ : IV3), true))
    ∧ thetaOkQ (⟨164429305990749260, -336966771638206123, 390667838495423087⟩ : IV3) (⟨4709459973186, 555584051442, 108590359922403⟩ : IV3) = true :=
  ⟨rfl, by decide⟩

set_option maxRecDepth 1000000 in
set_option maxHeartbeats 4000000 in
theorem stepF12 : (stepQ (⟨164429305990749260, -336966771638206123, 390667838495423087⟩ : IV3) (⟨4709459973186, 555584051442, 108590359922403⟩ : IV3)
    = ((⟨161092329158161646, -330544733728124365, 403497939958255371⟩ : IV3), (⟨4831578446317, 510888305939, 112941963627746⟩ : IV3), true))
    ∧ thetaOkQ (⟨161092329158161646, -330544733728124365, 403497939958255371⟩ : IV3) (⟨4831578446317, 510888305939, 112941963627746⟩ : IV3) = true :=
  ⟨rfl, by decide⟩

set_option maxRecDepth 1000000 in
set_option maxHeartbeats 4000000 in
theorem stepF13 : (stepQ (⟨161092329158161646, -330544733728124365, 403497939958255371⟩ : IV3) (⟨4831578446317, 510888305939, 112941963627746⟩ : IV3)
    = ((⟨157819907468926199, -324053501184563534, 415963790201885365⟩ : IV3), (⟨4933391803573, 470021994939, 116947360912694⟩ : IV3), true))
    ∧ thetaOkQ (⟨157819907468926199, -324053501184563534, 415963790201885365⟩ : IV3) (⟨4933391803573, 470021994939, 116947360912694⟩ : IV3) = true :=
  ⟨rfl, by decide⟩

set_option maxRecDepth 1000000 in
set_option maxHeartbeats 4000000 in
theorem stepF14 : (stepQ (⟨157819907468926199, -324053501184563534, 415963790201885365⟩ : IV3) (⟨4933391803573, 470021994939, 116947360912694⟩ : IV3)
    = ((⟨154612346148274017, -317570401936877219, 428111123652419979⟩ : IV3), (⟨5016799810708, 432630454315, 120635388439557⟩ : IV3), true))
    ∧ thetaOkQ (⟨154612346148274017, -317570401936877219, 428111123652419979⟩ : IV3) (⟨5016799810708, 432630454315, 120635388439557⟩ : IV3) = true :=
  ⟨rfl, by decide⟩

set_option maxRecDepth 1000000 in
set_option maxHeartbeats 4000000 in
theorem stepF15 : (stepQ (⟨154612346148274017, -317570401936877219, 428111123652419979⟩ : IV3) (⟨5016799810708, 432630454315, 120635388439557⟩ : IV3)
    = ((⟨151469328360223446, -311142544201908106, 439970363242381615⟩ : IV3), (⟨5083527694171, 398391780362, 124032214232759⟩ : IV3), true))
    ∧ thetaOkQ (⟨151469328360223446, -311142544201908106, 439970363242381615⟩ : IV3) (⟨5083527694171, 398391780362, 124032214232759⟩ : IV3) = true :=
  ⟨rfl, by decide⟩

set_option maxRecDepth 1000000 in
set_option maxHeartbeats 4000000 in
theorem stepF16 : (stepQ (⟨151469328360223446, -311142544201908106, 439970363242381615⟩ : IV3) (⟨5083527694171, 398391780362, 124032214232759⟩ : IV3)
    = ((⟨148390160279859969, -304798232128993530, 451562354570853854⟩ : IV3), (⟨5135146344827, 367017395857, 127161687504032⟩ : IV3), true))
    ∧ thetaOkQ (⟨148390160279859969, -304798232128993530, 451562354570853854⟩ : IV3) (⟨5135146344827, 367017395857, 127161687504032⟩ : IV3) = true :=
  ⟨rfl, by decide⟩

set_option maxRecDepth 1000000 in
set_option maxHeartbeats 4000000 in
theorem stepF17 : (stepQ (⟨148390160279859969, -304798232128993530, 451562354570853854⟩ : IV3) (⟨5135146344827, 367017395857, 127161687504032⟩ : IV3)
    = ((⟨145373923529681625, -298554080838391919, 462901939341447635⟩ : IV3), (⟨5173088674178, 338249406511, 130045604683279⟩ : IV3), true))
    ∧ thetaOkQ (⟨145373923529681625, -298554080838391919, 462901939341447635⟩ : IV3) (⟨5173088674178, 338249406511, 130045604683279⟩ : IV3) = true :=
  ⟨rfl, by decide⟩

set_option maxRecDepth 1000000 in
set_option maxHeartbeats 4000000 in
theorem stepF18 : (stepQ (⟨145373923529681625, -298554080838391919, 462901939341447635⟩ : IV3) (⟨5173088674178, 338249406511, 130045604683279⟩ : IV3)
    = ((⟨142419569888567703, -292419449046988075, 474000181777044549⟩ : IV3), (⟨5198663253644, 311857031118, 132703921738925⟩ : IV3), true))
    ∧ thetaOkQ (⟨142419569888567703, -292419449046988075, 474000181777044549⟩ : IV3) (⟨5198663253644, 311857031118, 132703921738925⟩ : IV3) = true :=
  ⟨rfl, by decide⟩

set_option maxRecDepth 1000000 in
set_option maxHeartbeats 4000000 in
theorem stepF19 : (stepQ (⟨142419569888567703, -292419449046988075, 474000181777044549⟩ : IV3) (⟨5198663253644, 311857031118, 132703921738925⟩ : IV3)
    = ((⟨139525980043139788, -286399199334358461, 484865755625532045⟩ : IV3), (⟨5213065973411, 287633084764, 135154930616114⟩ : IV3), true))
    ∧ thetaOkQ (⟨139525980043139788, -286399199334358461, 484865755625532045⟩ : IV3) (⟨5213065973411, 287633084764, 135154930616114⟩ : IV3) = true :=
  ⟨rfl, by decide⟩

set_option maxRecDepth 1000000 in
set_option maxHeartbeats 4000000 in
theorem stepF20 : (stepQ (⟨139525980043139788, -286399199334358461, 484865755625532045⟩ : IV3) (⟨5213065973411, 287633084764, 135154930616114⟩ : IV3)
    = ((⟨136691999951697270, -280495416219399686, 495505808283768588⟩ : IV3), (⟨5217390206089, 265390870416, 137415410496953⟩ : IV3), true))
    ∧ thetaOkQ (⟨136691999951697270, -280495416219399686, 495505808283768588⟩ : IV3) (⟨5217390206089, 265390870416, 137415410496953⟩ : IV3) = true :=
  ⟨rfl, by decide⟩

set_option maxRecDepth 1000000 in
set_option maxHeartbeats 4000000 in
theorem stepF21 : (stepQ (⟨136691999951697270, -280495416219399686, 495505808283768588⟩ : IV3) (⟨5217390206089, 265390870416, 137415410496953⟩ : IV3)
    = ((⟨133916463276096692, -274708475031407288, 505926499327661432⟩ : IV3), (⟨5212635800272, 244961553676, 139500760437363⟩ : IV3), true))
    ∧ thetaOkQ (⟨133916463276096692, -274708475031407288, 505926499327661432⟩ : IV3) (⟨5212635800272, 244961553676, 139500760437363⟩ : IV3) = true :=
  ⟨rfl, by decide⟩

set_option maxRecDepth 1000000 in
set_option maxHeartbeats 4000000 in
theorem stepF22 : (stepQ (⟨133916463276096692, -274708475031407288, 505926499327661432⟩ : IV3) (⟨5212635800272, 244961553676, 139500760437363⟩ : IV3)
    = ((⟨131198205147811692, -269037706538266008, 516133336364209105⟩ : IV3), (⟨5199717126705, 226191982629, 141425117507241⟩ : IV3), true))
    ∧ thetaOkQ (⟨131198205147811692, -269037706538266008, 516133336364209105⟩ : IV3) (⟨5199717126705, 226191982629, 141425117507241⟩ : IV3) = true :=
  ⟨rfl, by decide⟩

set_option maxRecDepth 1000000 in
set_option maxHeartbeats 4000000 in
theorem stepF23 : (stepQ (⟨131198205147811692, -269037706538266008, 516133336364209105⟩ : IV3) (⟨5199717126705, 226191982629, 141425117507241⟩ : IV3)
    = ((⟨128536070546823938, -263481809961569917, 526131384754706540⟩ : IV3), (⟨5179470333992, 208942879778, 143201463129798⟩ : IV3), true))
    ∧ thetaOkQ (⟨128536070546823938, -263481809961569917, 526131384754706540⟩ : IV3) (⟨5179470333992, 208942879778, 143201463129798⟩ : IV3) = true :=
  ⟨rfl, by decide⟩

set_option maxRecDepth 1000000 in
set_option maxHeartbeats 4000000 in
theorem stepF24 : (stepQ (⟨128536070546823938, -263481809961569917, 526131384754706540⟩ : IV3) (⟨5179470333992, 208942879778, 143201463129798⟩ : IV3)
    = ((⟨125928919333779728, -258039109439118508, 535925398863899474⟩ : IV3), (⟨5152659928138, 193087331588, 144841719462881⟩ : IV3), true))
    ∧ thetaOkQ (⟨125928919333779728, -258039109439118508, 535925398863899474⟩ : IV3) (⟨5152659928138, 193087331588, 144841719462881⟩ : IV3) = true :=
  ⟨rfl, by decide⟩

set_option maxRecDepth 1000000 in
set_option maxHeartbeats 4000000 in
theorem stepF25 : (stepQ (⟨125928919333779728, -258039109439118508, 535925398863899474⟩ : IV3) (⟨5152659928138, 193087331588, 144841719462881⟩ : IV3)
    = ((⟨123375629204783258, -252707713116585038, 545519904491201937⟩ : IV3), (⟨5119984762201, 178509511725, 146356837148304⟩ : IV3), true))
    ∧ thetaOkQ (⟨123375629204783258, -252707713116585038, 545519904491201937⟩ : IV3) (⟨5119984762201, 178509511725, 146356837148304⟩ : IV3) = true :=
  ⟨rfl, by decide⟩

set_option maxRecDepth 1000000 in
set_option maxHeartbeats 4000000 in
theorem stepF26 : (stepQ (⟨123375629204783258, -252707713116585038, 545519904491201937⟩ : IV3) (⟨5119984762201, 178509511725, 146356837148304⟩ : IV3)
    = ((⟨120875097358226897, -247485611699165213, 554919250933007860⟩ : IV3), (⟨5082083503638, 165103587381, 147756875434210⟩ : IV3), true))
    ∧ thetaOkQ (⟨120875097358226897, -247485611699165213, 554919250933007860⟩ : IV3) (⟨5082083503638, 165103587381, 147756875434210⟩ : IV3) = true :=
  ⟨rfl, by decide⟩

set_option maxRecDepth 1000000 in
set_option maxHeartbeats 4000000 in
theorem stepF27 : (stepQ (⟨120875097358226897, -247485611699165213, 554919250933007860⟩ : IV3) (⟨5082083503638, 165103587381, 147756875434210⟩ : IV3)
    = ((⟨118426241364399056, -242370739375901828, 564127644149596652⟩ : IV3), (⟨5039539634103, 152772770124, 149051075470073⟩ : IV3), true))
    ∧ thetaOkQ (⟨118426241364399056, -242370739375901828, 564127644149596652⟩ : IV3) (⟨5039539634103, 152772770124, 149051075470073⟩ : IV3) = true :=
  ⟨rfl, by decide⟩

set_option maxRecDepth 1000000 in
set_option maxHeartbeats 4000000 in
theorem stepF28 : (stepQ (⟨118426241364399056, -242370739375901828, 564127644149596652⟩ : IV3) (⟨5039539634103, 152772770124, 149051075470073⟩ : IV3)
    = ((⟨116027999542836969, -237361011365870703, 573149168170011067⟩ : IV3), (⟨4992886027447, 141428482524, 150247927436622⟩ : IV3), true))
    ∧ thetaOkQ (⟨116027999542836969, -237361011365870703, 573149168170011067⟩ : IV3) (⟨4992886027447, 141428482524, 150247927436622⟩ : IV3) = true :=
  ⟨rfl, by decide⟩

set_option maxRecDepth 1000000 in
set_option maxHeartbeats 4000000 in
theorem stepF29 : (stepQ (⟨116027999542836969, -237361011365870703, 573149168170011067⟩ : IV3) (⟨4992886027447, 141428482524, 150247927436622⟩ : IV3)
    = ((⟨113679331036875872, -232454346944723915, 581987799168844237⟩ : IV3), (⟨4942609145080, 130989619203, 151355232076951⟩ : IV3), true))
    ∧ thetaOkQ (⟨113679331036875872, -232454346944723915, 581987799168844237⟩ : IV3) (⟨4942609145080, 130989619203, 151355232076951⟩ : IV3) = true :=
  ⟨rfl, by decide⟩

set_option maxRecDepth 1000000 in
set_option maxHeartbeats 4000000 in
theorem stepF30 : (stepQ (⟨113679331036875872, -232454346944723915, 581987799168844237⟩ : IV3) (⟨4942609145080, 130989619203, 151355232076951⟩ : IV3)
    = ((⟨111379215703040385, -227648683457048683, 590647414970450522⟩ : IV3), (⟨4889152882920, 121381886426, 152380157124205⟩ : IV3), true))
    ∧ thetaOkQ (⟨111379215703040385, -227648683457048683, 590647414970450522⟩ : IV3) (⟨4889152882920, 121381886426, 152380157124205⟩ : IV3) = true :=
  ⟨rfl, by decide⟩

set_option maxRecDepth 1000000 in
set_option maxHeartbeats 4000000 in
theorem stepF31 : (stepQ (⟨111379215703040385, -227648683457048683, 590647414970450522⟩ : IV3) (⟨4889152882920, 121381886426, 152380157124205⟩ : IV3)
    = ((⟨109126653888302578, -222941984735110793, 599131801692835351⟩ : IV3), (⟨4832922100238, 112537208222, 153329289066266⟩ : IV3), true))
    ∧ thetaOkQ (⟨109126653888302578, -222941984735110793, 599131801692835351⟩ : IV3) (⟨4832922100238, 112537208222, 153329289066266⟩ : IV3) = true :=
  ⟨rfl, by decide⟩

set_option maxRecDepth 1000000 in
set_option maxHeartbeats 4000000 in
theorem stepF32 : (stepQ (⟨109126653888302578, -222941984735110793, 599131801692835351⟩ : IV3) (⟨4832922100238, 112537208222, 153329289066266⟩ : IV3)
    = ((⟨106920666140510698, -218332246048611297, 607444658595207941⟩ : IV3), (⟨4774285857543, 104393189843, 154208680643322⟩ : IV3), true))
    ∧ thetaOkQ (⟨106920666140510698, -218332246048611297, 607444658595207941⟩ : IV3) (⟨4774285857543, 104393189843, 154208680643322⟩ : IV3) = true :=
  ⟨rfl, by decide⟩

set_option maxRecDepth 1000000 in
set_option maxHeartbeats 4000000 in
theorem stepF33 : (stepQ (⟨106920666140510698, -218332246048611297, 607444658595207941⟩ : IV3) (⟨4774285857543, 104393189843, 154208680643322⟩ : IV3)
    = ((⟨104760292880076109, -213817496904797591, 615589601790458293⟩ : IV3), (⟨4713580388026, 96892631316, 155023894436676⟩ : IV3), true))
    ∧ thetaOkQ (⟨104760292880076109, -213817496904797591, 615589601790458293⟩ : IV3) (⟨4713580388026, 96892631316, 155023894436676⟩ : IV3) = true :=
  ⟨rfl, by decide⟩

set_option maxRecDepth 1000000 in
set_option maxHeartbeats 4000000 in
theorem stepF34 : (stepQ (⟨104760292880076109, -213817496904797591, 615589601790458293⟩ : IV3) (⟨4713580388026, 96892631316, 155023894436676⟩ : IV3)
    = ((⟨102644594050315978, -209395802518018407, 623570167233696912⟩ : IV3), (⟨4651111824790, 89983085281, 155780042874819⟩ : IV3), true))
    ∧ thetaOkQ (⟨102644594050315978, -209395802518018407, 623570167233696912⟩ : IV3) (⟨4651111824790, 89983085281, 155780042874819⟩ : IV3) = true :=
  ⟨rfl, by decide⟩

set_option maxRecDepth 1000000 in
set_option maxHeartbeats 4000000 in
theorem stepF35 : (stepQ (⟨102644594050315978, -209395802518018407, 623570167233696912⟩ : IV3) (⟨4651111824790, 89983085281, 155780042874819⟩ : IV3)
    = ((⟨100572648757213049, -205065264457138234, 631389813242679062⟩ : IV3), (⟨4587158704136, 83616454302, 156481824954182⟩ : IV3), true))
    ∧ thetaOkQ (⟨100572648757213049, -205065264457138234, 631389813242679062⟩ : IV3) (⟨4587158704136, 83616454302, 156481824954182⟩ : IV3) = true :=
  ⟨rfl, by decide⟩

set_option maxRecDepth 1000000 in
set_option maxHeartbeats 4000000 in
theorem stepF36 : (stepQ (⟨100572648757213049, -205065264457138234, 631389813242679062⟩ : IV3) (⟨4587158704136, 83616454302, 156481824954182⟩ : IV3)
    = ((⟨98543554905234950, -200824020786337020, 639051922709502734⟩ : IV3), (⟨4521974263388, 77748623634, 157133559946505⟩ : IV3), true))
    ∧ thetaOkQ (⟨98543554905234950, -200824020786337020, 639051922709502734⟩ : IV3) (⟨4521974263388, 77748623634, 157133559946505⟩ : IV3) = true :=
  ⟨rfl, by decide⟩

set_option maxRecDepth 1000000 in
set_option maxHeartbeats 4000000 in
theorem stepF37 : (stepQ (⟨98543554905234950, -200824020786337020, 639051922709502734⟩ : IV3) (⟨4521974263388, 77748623634, 157133559946505⟩ : IV3)
    = ((⟨96556428833299415, -196670245895088956, 646559805103099952⟩ : IV3), (⟨4455788550186, 72339125963, 157739218341740⟩ : IV3), true))
    ∧ thetaOkQ (⟨96556428833299415, -196670245895088956, 646559805103099952⟩ : IV3) (⟨4455788550186, 72339125963, 157739218341740⟩ : IV3) = true :=
  ⟨rfl, by decide⟩

set_option maxRecDepth 1000000 in
set_option maxHeartbeats 4000000 in
theorem stepF38 : (stepQ (⟨96556428833299415, -196670245895088956, 646559805103099952⟩ : IV3) (⟨4455788550186, 72339125963, 157739218341740⟩ : IV3)
    = ((⟨94610404953385702, -192602150138808502, 653916698324869130⟩ : IV3), (⟨4388810358731, 67350835121, 158302450254473⟩ : IV3), true))
    ∧ thetaOkQ (⟨94610404953385702, -192602150138808502, 653916698324869130⟩ : IV3) (⟨4388810358731, 67350835121, 158302450254473⟩ : IV3) = true :=
  ⟨rfl, by decide⟩

set_option maxRecDepth 1000000 in
set_option maxHeartbeats 4000000 in
theorem stepF39 : (stepQ (⟨94610404953385702, -192602150138808502, 653916698324869130⟩ : IV3) (⟨4388810358731, 67350835121, 158302450254473⟩ : IV3)
    = ((⟨92704635393308328, -188617979365545801, 661125770456711604⟩ : IV3), (⟨4321229007204, 62749686092, 158826611502980⟩ : IV3), true))
    ∧ thetaOkQ (⟨92704635393308328, -188617979365545801, 661125770456711604⟩ : IV3) (⟨4321229007204, 62749686092, 158826611502980⟩ : IV3) = true :=
  ⟨rfl, by decide⟩

set_option maxRecDepth 1000000 in
set_option maxHeartbeats 4000000 in
theorem stepF40 : (stepQ (⟨92704635393308328, -188617979365545801, 661125770456711604⟩ : IV3) (⟨4321229007204, 62749686092, 158826611502980⟩ : IV3)
    = ((⟨90838289644558584, -184716014375508763, 668190121426392480⟩ : IV3), (⟨4253215969357, 58504418950, 159314787552468⟩ : IV3), true))
    ∧ thetaOkQ (⟨90838289644558584, -184716014375508763, 668190121426392480⟩ : IV3) (⟨4253215969357, 58504418950, 159314787552468⟩ : IV3) = true :=
  ⟨rfl, by decide⟩

set_option maxRecDepth 1000000 in
set_option maxHeartbeats 4000000 in
theorem stepF41 : (stepQ (⟨90838289644558584, -184716014375508763, 668190121426392480⟩ : IV3) (⟨4253215969357, 58504418950, 159314787552468⟩ : IV3)
    = ((⟨89010554215740309, -180894570342443368, 675112784606226779⟩ : IV3), (⟨4184926372238, 54586344601, 159769815498350⟩ : IV3), true))
    ∧ thetaOkQ (⟨89010554215740309, -180894570342443368, 675112784606226779⟩ : IV3) (⟨4184926372238, 54586344601, 159769815498350⟩ : IV3) = true :=
  ⟨rfl, by decide⟩

set_option maxRecDepth 1000000 in
set_option maxHeartbeats 4000000 in
theorem stepF42 : (stepQ (⟨89010554215740309, -180894570342443368, 675112784606226779⟩ : IV3) (⟨4184926372238, 54586344601, 159769815498350⟩ : IV3)
    = ((⟨87220632291891192, -177151996214894346, 681896728355537638⟩ : IV3), (⟨4116500371029, 50969130412, 160194304250757⟩ : IV3), true))
    ∧ thetaOkQ (⟨87220632291891192, -177151996214894346, 681896728355537638⟩ : IV3) (⟨4116500371029, 50969130412, 160194304250757⟩ : IV3) = true :=
  ⟨rfl, by decide⟩

set_option maxRecDepth 1000000 in
set_option maxHeartbeats 4000000 in
theorem stepF43 : (stepQ (⟨87220632291891192, -177151996214894346, 681896728355537638⟩ : IV3) (⟨4116500371029, 50969130412, 160194304250757⟩ : IV3)
    = ((⟨85467743399834822, -173486674108537228, 688544857513866830⟩ : IV3), (⟨4048064411023, 47628603987, 160590653068208⟩ : IV3), true))
    ∧ thetaOkQ (⟨85467743399834822, -173486674108537228, 688544857513866830⟩ : IV3) (⟨4048064411023, 47628603987, 160590653068208⟩ : IV3) = true :=
  ⟨rfl, by decide⟩

set_option maxRecDepth 1000000 in
set_option maxHeartbeats 4000000 in
theorem stepF44 : (stepQ (⟨85467743399834822, -173486674108537228, 688544857513866830⟩ : IV3) (⟨4048064411023, 47628603987, 160590653068208⟩ : IV3)
    = ((⟨83751123079618026, -169897018696532587, 695060014849746830⟩ : IV3), (⟨3979732386013, 44542573530, 160961068576099⟩ : IV3), true))
    ∧ thetaOkQ (⟨83751123079618026, -169897018696532587, 695060014849746830⟩ : IV3) (⟨3979732386013, 44542573530, 160961068576099⟩ : IV3) = true :=
  ⟨rfl, by decide⟩

set_option maxRecDepth 1000000 in
set_option maxHeartbeats 4000000 in
theorem stepF45 : (stepQ (⟨83751123079618026, -169897018696532587, 695060014849746830⟩ : IV3) (⟨3979732386013, 44542573530, 160961068576099⟩ : IV3)
    = ((⟨82070022562031703, -166381476602219886, 701444982468476759⟩ : IV3), (⟨3911606701540, 41690663352, 161307580394538⟩ : IV3), true))
    ∧ thetaOkQ (⟨82070022562031703, -166381476602219886, 701444982468476759⟩ : IV3) (⟨3911606701540, 41690663352, 161307580394538⟩ : IV3) = true :=
  ⟨rfl, by decide⟩

set_option maxRecDepth 1000000 in
set_option maxHeartbeats 4000000 in
theorem stepF46 : (stepQ (⟨82070022562031703, -166381476602219886, 701444982468476759⟩ : IV3) (⟨3911606701540, 41690663352, 161307580394538⟩ : IV3)
    = ((⟨80423708452178362, -162938525796831163, 707702483181477184⟩ : IV3), (⟨3843779250812, 39054163233, 161632055489752⟩ : IV3), true))
    ∧ thetaOkQ (⟨80423708452178362, -162938525796831163, 707702483181477184⟩ : IV3) (⟨3843779250812, 39054163233, 161632055489752⟩ : IV3) = true :=
  ⟨rfl, by decide⟩

set_option maxRecDepth 1000000 in
set_option maxHeartbeats 4000000 in
theorem stepF47 : (stepQ (⟨80423708452178362, -162938525796831163, 707702483181477184⟩ : IV3) (⟨3843779250812, 39054163233, 161632055489752⟩ : IV3)
    = ((⟨78811462419027898, -159566675003885411, 713835181839241930⟩ : IV3), (⟨3776332310405, 36615890429, 161936211353834⟩ : IV3), true))
    ∧ thetaOkQ (⟨78811462419027898, -159566675003885411, 713835181839241930⟩ : IV3) (⟨3776332310405, 36615890429, 161936211353834⟩ : IV3) = true :=
  ⟨rfl, by decide⟩

set_option maxRecDepth 1000000 in
set_option maxHeartbeats 4000000 in
theorem stepF48 : (stepQ (⟨78811462419027898, -159566675003885411, 713835181839241930⟩ : IV3) (⟨3776332310405, 36615890429, 161936211353834⟩ : IV3)
    = ((⟨77232580890889695, -156264463111288364, 719845686629541763⟩ : IV3), (⟨3709339362348, 34360063285, 162221628109025⟩ : IV3), true))
    ∧ thetaOkQ (⟨77232580890889695, -156264463111288364, 719845686629541763⟩ : IV3) (⟨3709339362348, 34360063285, 162221628109025⟩ : IV3) = true :=
  ⟨rfl, by decide⟩

set_option maxRecDepth 1000000 in
set_option maxHeartbeats 4000000 in
theorem stepF49 : (stepQ (⟨77232580890889695, -156264463111288364, 719845686629541763⟩ : IV3) (⟨3709339362348, 34360063285, 162221628109025⟩ : IV3)
    = ((⟨75686374756720893, -153030458591763994, 725736550342292324⟩ : IV3), (⟨3642865848564, 32272185422, 162489759624751⟩ : IV3), true))
    ∧ thetaOkQ (⟨75686374756720893, -153030458591763994, 725736550342292324⟩ : IV3) (⟨3642865848564, 32272185422, 162489759624751⟩ : IV3) = true :=
  ⟨rfl, by decide⟩

set_option maxRecDepth 1000000 in
set_option maxHeartbeats 4000000 in
theorem stepF50 : (stepQ (⟨75686374756720893, -153030458591763994, 725736550342292324⟩ : IV3) (⟨3642865848564, 32272185422, 162489759624751⟩ : IV3)
    = ((⟨74172169073185651, -149863258931993302, 731510271602331967⟩ : IV3), (⟨3576969863251, 30338939626, 162741943728400⟩ : IV3), true))
    ∧ thetaOkQ (⟨74172169073185651, -149863258931993302, 731510271602331967⟩ : IV3) (⟨3576969863251, 30338939626, 162741943728400⟩ : IV3) = true :=
  ⟨rfl, by decide⟩

set_option maxRecDepth 1000000 in
set_option maxHeartbeats 4000000 in
theorem stepF51 : (stepQ (⟨74172169073185651, -149863258931993302, 731510271602331967⟩ : IV3) (⟨3576969863251, 30338939626, 162741943728400⟩ : IV3)
    = ((⟨72689302777377279, -146761490070677033, 737169296071236289⟩ : IV3), (⟨3511702788225, 28548090601, 162979411584103⟩ : IV3), true))
    ∧ thetaOkQ (⟨72689302777377279, -146761490070677033, 737169296071236289⟩ : IV3) (⟨3511702788225, 28548090601, 162979411584103⟩ : IV3) = true :=
  ⟨rfl, by decide⟩

set_option maxRecDepth 1000000 in
set_option maxHeartbeats 4000000 in
theorem stepF52 : (stepQ (⟨72689302777377279, -146761490070677033, 737169296071236289⟩ : IV3) (⟨3511702788225, 28548090601, 162979411584103⟩ : IV3)
    = ((⟨71237128405113445, -143723805845637203, 742716017619207684⟩ : IV3), (⟨3447109875929, 26888395843, 163203296307737⟩ : IV3), true))
    ∧ thetaOkQ (⟨71237128405113445, -143723805845637203, 742716017619207684⟩ : IV3) (⟨3447109875929, 26888395843, 163203296307737⟩ : IV3) = true :=
  ⟨rfl, by decide⟩

set_option maxRecDepth 1000000 in
set_option maxHeartbeats 4000000 in
theorem stepF53 : (stepQ (⟨71237128405113445, -143723805845637203, 742716017619207684⟩ : IV3) (⟨3447109875929, 26888395843, 163203296307737⟩ : IV3)
    = ((⟨69815011814713851, -140748887450006241, 748152779468009435⟩ : IV3), (⟨3383230784360, 25349523949, 163414640880671⟩ : IV3), true))
    ∧ thetaOkQ (⟨69815011814713851, -140748887450006241, 748152779468009435⟩ : IV3) (⟨3383230784360, 25349523949, 163414640880671⟩ : IV3) = true :=
  ⟨rfl, by decide⟩

set_option maxRecDepth 1000000 in
set_option maxHeartbeats 4000000 in
theorem stepF54 : (stepQ (⟨69815011814713851, -140748887450006241, 748152779468009435⟩ : IV3) (⟨3383230784360, 25349523949, 163414640880671⟩ : IV3)
    = ((⟨68422331916169502, -137835442897508909, 753481875305857961⟩ : IV3), (⟨3320100067866, 23921979727, 163614405419735⟩ : IV3), true))
    ∧ thetaOkQ (⟨68422331916169502, -137835442897508909, 753481875305857961⟩ : IV3) (⟨3320100067866, 23921979727, 163614405419735⟩ : IV3) = true :=
  ⟨rfl, by decide⟩

set_option maxRecDepth 1000000 in
set_option maxHeartbeats 4000000 in
theorem stepF55 : (stepQ (⟨68422331916169502, -137835442897508909, 753481875305857961⟩ : IV3) (⟨3320100067866, 23921979727, 163614405419735⟩ : IV3)
    = ((⟨67058480405612785, -134982206496812633, 758705550375139580⟩ : IV3), (⟨3257747627386, 22597035528, 163803473856005⟩ : IV3), true))
    ∧ thetaOkQ (⟨67058480405612785, -134982206496812633, 758705550375139580⟩ : IV3) (⟨3257747627386, 22597035528, 163803473856005⟩ : IV3) = true :=
  ⟨rfl, by decide⟩

set_option maxRecDepth 1000000 in
set_option maxHeartbeats 4000000 in
theorem stepF56 : (stepQ (⟨67058480405612785, -134982206496812633, 758705550375139580⟩ : IV3) (⟨3257747627386, 22597035528, 163803473856005⟩ : IV3)
    = ((⟨65722861504997914, -132187938334901329, 763826002533776954⟩ : IV3), (⟨3196199123489, 21366668294, 163982660070882⟩ : IV3), true))
    ∧ thetaOkQ (⟨65722861504997914, -132187938334901329, 763826002533776954⟩ : IV3) (⟨3196199123489, 21366668294, 163982660070882⟩ : IV3) = true :=
  ⟨rfl, by decide⟩

set_option maxRecDepth 1000000 in
set_option maxHeartbeats 4000000 in
theorem stepF57 : (stepQ (⟨65722861504997914, -132187938334901329, 763826002533776954⟩ : IV3) (⟨3196199123489, 21366668294, 163982660070882⟩ : IV3)
    = ((⟨64414891706901844, -129451423769413098, 768845383291033510⟩ : IV3), (⟨3135476355226, 20223501825, 164152713533747⟩ : IV3), true))
    ∧ thetaOkQ (⟨64414891706901844, -129451423769413098, 768845383291033510⟩ : IV3) (⟨3135476355226, 20223501825, 164152713533747⟩ : IV3) = true :=
  ⟨rfl, by decide⟩

set_option maxRecDepth 1000000 in
set_option maxHeartbeats 4000000 in
theorem stepF58 : (stepQ (⟨64414891706901844, -129451423769413098, 768845383291033510⟩ : IV3) (⟨3135476355226, 20223501825, 164152713533747⟩ : IV3)
    = ((⟨63133999524356366, -126771472929871223, 773765798818510549⟩ : IV3), (⟨3075597607583, 19160753832, 164314324481978⟩ : IV3), true))
    ∧ thetaOkQ (⟨63133999524356366, -126771472929871223, 773765798818510549⟩ : IV3) (⟨3075597607583, 19160753832, 164314324481978⟩ : IV3) = true :=
  ⟨rfl, by decide⟩

set_option maxRecDepth 1000000 in
set_option maxHeartbeats 4000000 in
theorem stepF59 : (stepQ (⟨63133999524356366, -126771472929871223, 773765798818510549⟩ : IV3) (⟨3075597607583, 19160753832, 164314324481978⟩ : IV3)
    = ((⟨61879625245622886, -124146920227729521, 778589310937060702⟩ : IV3), (⟨3016577970134, 18172187378, 164468128680722⟩ : IV3), true))
    ∧ thetaOkQ (⟨61879625245622886, -124146920227729521, 778589310937060702⟩ : IV3) (⟨3016577970134, 18172187378, 164468128680722⟩ : IV3) = true :=
  ⟨rfl, by decide⟩

set_option maxRecDepth 1000000 in
set_option maxHeartbeats 4000000 in
theorem stepF60 : (stepQ (⟨61879625245622886, -124146920227729521, 778589310937060702⟩ : IV3) (⟨3016577970134, 18172187378, 164468128680722⟩ : IV3)
    = ((⟨60651220693822184, -121576623875146508, 783317938080312504⟩ : IV3), (⟨2958429629203, 17252066331, 164614711796679⟩ : IV3), true))
    ∧ thetaOkQ (⟨60651220693822184, -121576623875146508, 783317938080312504⟩ : IV3) (⟨2958429629203, 17252066331, 164614711796679⟩ : IV3) = true :=
  ⟨rfl, by decide⟩

set_option maxRecDepth 1000000 in
set_option maxHeartbeats 4000000 in
theorem stepF61 : (stepQ (⟨60651220693822184, -121576623875146508, 783317938080312504⟩ : IV3) (⟨2958429629203, 17252066331, 164614711796679⟩ : IV3)
    = ((⟨59448248991332340, -119059465412397468, 787953656235473681⟩ : IV3), (⟨2901162135738, 16395114502, 164754613417498⟩ : IV3), true))
    ∧ thetaOkQ (⟨59448248991332340, -119059465412397468, 787953656235473681⟩ : IV3) (⟨2901162135738, 16395114502, 164754613417498⟩ : IV3) = true :=
  ⟨rfl, by decide⟩

set_option maxRecDepth 1000000 in
set_option maxHeartbeats 4000000 in
theorem stepF62 : (stepQ (⟨59448248991332340, -119059465412397468, 787953656235473681⟩ : IV3) (⟨2901162135738, 16395114502, 164754613417498⟩ : IV3)
    = ((⟨58270184328868942, -116594349243829119, 792498399862055173⟩ : IV3), (⟨2844782650862, 15596478156, 164888330745591⟩ : IV3), true))
    ∧ thetaOkQ (⟨58270184328868942, -116594349243829119, 792498399862055173⟩ : IV3) (⟨2844782650862, 15596478156, 164888330745591⟩ : IV3) = true :=
  ⟨rfl, by decide⟩

set_option maxRecDepth 1000000 in
set_option maxHeartbeats 4000000 in
theorem stepF63 : (stepQ (⟨58270184328868942, -116594349243829119, 792498399862055173⟩ : IV3) (⟨2844782650862, 15596478156, 164888330745591⟩ : IV3)
    = ((⟨57116511739162672, -114180202182257869, 796954062789133723⟩ : IV3), (⟨2789296170923, 14851691608, 165016321993012⟩ : IV3), true))
    ∧ thetaOkQ (⟨57116511739162672, -114180202182257869, 796954062789133723⟩ : IV3) (⟨2789296170923, 14851691608, 165016321993012⟩ : IV3) = true :=
  ⟨rfl, by decide⟩

set_option maxRecDepth 1000000 in
set_option maxHeartbeats 4000000 in
theorem stepF64 : (stepQ (⟨57116511739162672, -114180202182257869, 796954062789133723⟩ : IV3) (⟨2789296170923, 14851691608, 165016321993012⟩ : IV3)
    = ((⟨55986726875150356, -111815973001709555, 801322499091747927⟩ : IV3), (⟨2734705733730, 14156645659, 165139009501640⟩ : IV3), true))
    ∧ thetaOkQ (⟨55986726875150356, -111815973001709555, 801322499091747927⟩ : IV3) (⟨2734705733730, 14156645659, 165139009501640⟩ : IV3) = true :=
  ⟨rfl, by decide⟩

set_option maxRecDepth 1000000 in
set_option maxHeartbeats 4000000 in
theorem stepF65 : (stepQ (⟨55986726875150356, -111815973001709555, 801322499091747927⟩ : IV3) (⟨2734705733730, 14156645659, 165139009501640⟩ : IV3)
    = ((⟨54880335792596605, -109500631998395942, 805605523947000863⟩ : IV3), (⟨2681012607518, 13507558632, 165256782611210⟩ : IV3), true))
    ∧ thetaOkQ (⟨54880335792596605, -109500631998395942, 805605523947000863⟩ : IV3) (⟨2681012607518, 13507558632, 165256782611210⟩ : IV3) = true :=
  ⟨rfl, by decide⟩

set_option maxRecDepth 1000000 in
set_option maxHeartbeats 4000000 in
theorem stepF66 : (stepQ (⟨54880335792596605, -109500631998395942, 805605523947000863⟩ : IV3) (⟨2681012607518, 13507558632, 165256782611210⟩ : IV3)
    = ((⟨53796854737064235, -107233170559821051, 809804914470421737⟩ : IV3), (⟨2628216464024, 12900949782, 165370000295544⟩ : IV3), true))
    ∧ thetaOkQ (⟨53796854737064235, -107233170559821051, 809804914470421737⟩ : IV3) (⟨2628216464024, 12900949782, 165370000295544⟩ : IV3) = true :=
  ⟨rfl, by decide⟩

set_option maxRecDepth 1000000 in
set_option maxHeartbeats 4000000 in
theorem stepF67 : (stepQ (⟨53796854737064235, -107233170559821051, 809804914470421737⟩ : IV3) (⟨2628216464024, 12900949782, 165370000295544⟩ : IV3)
    = ((⟨52735809935152733, -105012600741908531, 813922410533119285⟩ : IV3), (⟨2576315537009, 12333614898, 165478993585970⟩ : IV3), true))
    ∧ thetaOkQ (⟨52735809935152733, -105012600741908531, 813922410533119285⟩ : IV3) (⟨2576315537009, 12333614898, 165478993585970⟩ : IV3) = true :=
  ⟨rfl, by decide⟩

set_option maxRecDepth 1000000 in
set_option maxHeartbeats 4000000 in
theorem stepF68 : (stepQ (⟨52735809935152733, -105012600741908531, 813922410533119285⟩ : IV3) (⟨2576315537009, 12333614898, 165478993585970⟩ : IV3)
    = ((⟨51696737389925114, -102837954854039782, 817959715560240910⟩ : IV3), (⟨2525306767397, 11802603893, 165584067799170⟩ : IV3), true))
    ∧ thetaOkQ (⟨51696737389925114, -102837954854039782, 817959715560240910⟩ : IV3) (⟨2525306767397, 11802603893, 165584067799170⟩ : IV3) = true :=
  ⟨rfl, by decide⟩

set_option maxRecDepth 1000000 in
set_option maxHeartbeats 4000000 in
theorem stepF69 : (stepQ (⟨51696737389925114, -102837954854039782, 817959715560240910⟩ : IV3) (⟨2525306767397, 11802603893, 165584067799170⟩ : IV3)
    = ((⟨50679182680444647, -100708285051891268, 821918497311233685⟩ : IV3), (⟨2475185936127, 11305200253, 165685504585409⟩ : IV3), true))
    ∧ thetaOkQ (⟨50679182680444647, -100708285051891268, 821918497311233685⟩ : IV3) (⟨2475185936127, 11305200253, 165685504585409⟩ : IV3) = true :=
  ⟨rfl, by decide⟩

set_option maxRecDepth 1000000 in
set_option maxHeartbeats 4000000 in
theorem stepF70 : (stepQ (⟨50679182680444647, -100708285051891268, 821918497311233685⟩ : IV3) (⟨2475185936127, 11305200253, 165685504585409⟩ : IV3)
    = ((⟨49682700765344037, -98622662937958518, 825800388642386287⟩ : IV3), (⟨2425947785729, 10838902146, 165783563811664⟩ : IV3), true))
    ∧ thetaOkQ (⟨49682700765344037, -98622662937958518, 825800388642386287⟩ : IV3) (⟨2425947785729, 10838902146, 165783563811664⟩ : IV3) = true :=
  ⟨rfl, by decide⟩

set_option maxRecDepth 1000000 in
set_option maxHeartbeats 4000000 in
theorem stepF71 : (stepQ (⟨49682700765344037, -98622662937958518, 825800388642386287⟩ : IV3) (⟨2425947785729, 10838902146, 165783563811664⟩ : IV3)
    = ((⟨48706855790350770, -96580179169653535, 829606988252114689⟩ : IV3), (⟨2377586131543, 10401405092, 165878485293128⟩ : IV3), true))
    ∧ thetaOkQ (⟨48706855790350770, -96580179169653535, 829606988252114689⟩ : IV3) (⟨2377586131543, 10401405092, 165878485293128⟩ : IV3) = true :=
  ⟨rfl, by decide⟩

set_option maxRecDepth 1000000 in
set_option maxHeartbeats 4000000 in
theorem stepF72 : (stepQ (⟨48706855790350770, -96580179169653535, 829606988252114689⟩ : IV3) (⟨2377586131543, 10401405092, 165878485293128⟩ : IV3)
    = ((⟨47751220899693479, -94579943074861825, 833339861409438893⟩ : IV3), (⟨2330093963435, 9990586045, 165970490385366⟩ : IV3), true))
    ∧ thetaOkQ (⟨47751220899693479, -94579943074861825, 833339861409438893⟩ : IV3) (⟨2330093963435, 9990586045, 165970490385366⟩ : IV3) = true :=
  ⟨rfl, by decide⟩

set_option maxRecDepth 1000000 in
set_option maxHeartbeats 4000000 in
theorem stepF73 : (stepQ (⟨47751220899693479, -94579943074861825, 833339861409438893⟩ : IV3) (⟨2330093963435, 9990586045, 165970490385366⟩ : IV3)
    = ((⟨46815378051315315, -92621082274844912, 837000540666083176⟩ : IV3), (⟨2283463538782, 9604488771, 166059783448413⟩ : IV3), true))
    ∧ thetaOkQ (⟨46815378051315315, -92621082274844912, 837000540666083176⟩ : IV3) (⟨2283463538782, 9604488771, 166059783448413⟩ : IV3) = true :=
  ⟨rfl, by decide⟩

set_option maxRecDepth 1000000 in
set_option maxHeartbeats 4000000 in
theorem stepF74 : (stepQ (⟨46815378051315315, -92621082274844912, 837000540666083176⟩ : IV3) (⟨2283463538782, 9604488771, 166059783448413⟩ : IV3)
    = ((⟨45898917835821460, -90702742314374056, 840590526552618134⟩ : IV3), (⟨2237686467439, 9241310428, 166146553193227⟩ : IV3), true))
    ∧ thetaOkQ (⟨45898917835821460, -90702742314374056, 840590526552618134⟩ : IV3) (⟨2237686467439, 9241310428, 166146553193227⟩ : IV3) = true :=
  ⟨rfl, by decide⟩

set_option maxRecDepth 1000000 in
set_option maxHeartbeats 4000000 in
theorem stepF75 : (stepQ (⟨45898917835821460, -90702742314374056, 840590526552618134⟩ : IV3) (⟨2237686467439, 9241310428, 166146553193227⟩ : IV3)
    = ((⟨45001439299089052, -88824086298980912, 844111288259049267⟩ : IV3), (⟨2192753789360, 8899389230, 166230973919993⟩ : IV3), true))
    ∧ thetaOkQ (⟨45001439299089052, -88824086298980912, 844111288259049267⟩ : IV3) (⟨2192753789360, 8899389230, 166230973919993⟩ : IV3) = true :=
  ⟨rfl, by decide⟩

set_option maxRecDepth 1000000 in
set_option maxHeartbeats 4000000 in
theorem stepF76 : (stepQ (⟨45001439299089052, -88824086298980912, 844111288259049267⟩ : IV3) (⟨2192753789360, 8899389230, 166230973919993⟩ : IV3)
    = ((⟨44122549768468934, -86984294539211000, 847564264300243876⟩ : IV3), (⟨2148656045468, 8577193125, 166313206657063⟩ : IV3), true))
    ∧ thetaOkQ (⟨44122549768468934, -86984294539211000, 847564264300243876⟩ : IV3) (⟨2148656045468, 8577193125, 166313206657063⟩ : IV3) = true :=
  ⟨rfl, by decide⟩

set_option maxRecDepth 1000000 in
set_option maxHeartbeats 4000000 in
theorem stepF77 : (stepQ (⟨44122549768468934, -86984294539211000, 847564264300243876⟩ : IV3) (⟨2148656045468, 8577193125, 166313206657063⟩ : IV3)
    = ((⟨43261864682509793, -85182564201766180, 850950863166575634⟩ : IV3), (⟨2105383342319, 8273309384, 166393400208566⟩ : IV3), true))
    ∧ thetaOkQ (⟨43261864682509793, -85182564201766180, 850950863166575634⟩ : IV3) (⟨2105383342319, 8273309384, 166393400208566⟩ : IV3) = true :=
  ⟨rfl, by decide⟩

set_option maxRecDepth 1000000 in
set_option maxHeartbeats 4000000 in
theorem stepF78 : (stepQ (⟨43261864682509793, -85182564201766180, 850950863166575634⟩ : IV3) (⟨2105383342319, 8273309384, 166393400208566⟩ : IV3)
    = ((⟨42419007424136365, -83418108967422736, 854272463960154304⟩ : IV3), (⟨2062925411091, 7986435043, 166471692118060⟩ : IV3), true))
    ∧ thetaOkQ (⟨42419007424136365, -83418108967422736, 854272463960154304⟩ : IV3) (⟨2062925411091, 7986435043, 166471692118060⟩ : IV3) = true :=
  ⟨rfl, by decide⟩

set_option maxRecDepth 1000000 in
set_option maxHeartbeats 4000000 in
theorem stepF79 : (stepQ (⟨42419007424136365, -83418108967422736, 854272463960154304⟩ : IV3) (⟨2062925411091, 7986435043, 166471692118060⟩ : IV3)
    = ((⟨41593609157214540, -81690158695612194, 857530417016996697⟩ : IV3), (⟨2021271661339, 7715368125, 166548209555032⟩ : IV3), true))
    ∧ thetaOkQ (⟨41593609157214540, -81690158695612194, 857530417016996697⟩ : IV3) (⟨2021271661339, 7715368125, 166548209555032⟩ : IV3) = true :=
  ⟨rfl, by decide⟩

set_option maxRecDepth 1000000 in
set_option maxHeartbeats 4000000 in
theorem stepF80 : (stepQ (⟨41593609157214540, -81690158695612194, 857530417016996697⟩ : IV3) (⟨2021271661339, 7715368125, 166548209555032⟩ : IV3)
    = ((⟨40785308666437301, -79997959095552663, 860726044515484029⟩ : IV3), (⟨1980411229984, 7458999567, 166623070130483⟩ : IV3), true))
    ∧ thetaOkQ (⟨40785308666437301, -79997959095552663, 860726044515484029⟩ : IV3) (⟨1980411229984, 7458999567, 166623070130483⟩ : IV3) = true :=
  ⟨rfl, by decide⟩

set_option maxRecDepth 1000000 in
set_option maxHeartbeats 4000000 in
theorem stepF81 : (stepQ (⟨40785308666437301, -79997959095552663, 860726044515484029⟩ : IV3) (⟨1980411229984, 7458999567, 166623070130483⟩ : IV3)
    = ((⟨39993752200466578, -78340771403819192, 863860641071440383⟩ : IV3), (⟨1940333025878, 7216305800, 166696382647287⟩ : IV3), true))
    ∧ thetaOkQ (⟨39993752200466578, -78340771403819192, 863860641071440383⟩ : IV3) (⟨1940333025878, 7216305800, 166696382647287⟩ : IV3) = true :=
  ⟨rfl, by decide⟩

set_option maxRecDepth 1000000 in
set_option maxHeartbeats 4000000 in
theorem stepF82 : (stepQ (⟨39993752200466578, -78340771403819192, 863860641071440383⟩ : IV3) (⟨1940333025878, 7216305800, 166696382647287⟩ : IV3)
    = ((⟨39218593318267176, -76717872068242477, 866935474320156918⟩ : IV3), (⟨1901025770366, 6986341939, 166768247790635⟩ : IV3), true))
    ∧ thetaOkQ (⟨39218593318267176, -76717872068242477, 866935474320156918⟩ : IV3) (⟨1901025770366, 6986341939, 166768247790635⟩ : IV3) = true :=
  ⟨rfl, by decide⟩

set_option maxRecDepth 1000000 in
set_option maxHeartbeats 4000000 in
theorem stepF83 : (stepQ (⟨39218593318267176, -76717872068242477, 866935474320156918⟩ : IV3) (⟨1901025770366, 6986341939, 166768247790635⟩ : IV3)
    = ((⟨38459492738570066, -75128552438026121, 869951785485676826⟩ : IV3), (⟨1862478034135, 6768235516, 166838758763353⟩ : IV3), true))
    ∧ thetaOkQ (⟨38459492738570066, -75128552438026121, 869951785485676826⟩ : IV3) (⟨1862478034135, 6768235516, 166838758763353⟩ : IV3) = true :=
  ⟨rfl, by decide⟩

set_option maxRecDepth 1000000 in
set_option maxHeartbeats 4000000 in
theorem stepF84 : (stepQ (⟨38459492738570066, -75128552438026121, 869951785485676826⟩ : IV3) (⟨1862478034135, 6768235516, 166838758763353⟩ : IV3)
    = ((⟨37716118192403403, -73572118459973626, 872910789937646777⟩ : IV3), (⟨1824678270673, 6561180727, 166908001870582⟩ : IV3), true))
    ∧ thetaOkQ (⟨37716118192403403, -73572118459973626, 872910789937646777⟩ : IV3) (⟨1824678270673, 6561180727, 166908001870582⟩ : IV3) = true :=
  ⟨rfl, by decide⟩

set_option maxRecDepth 1000000 in
set_option maxHeartbeats 4000000 in
theorem stepF85 : (stepQ (⟨37716118192403403, -73572118459973626, 872910789937646777⟩ : IV3) (⟨1824678270673, 6561180727, 166908001870582⟩ : IV3)
    = ((⟨36988144278630730, -72047890380717324, 875813677736031681⟩ : IV3), (⟨1787614846622, 6364433133, 166976057057846⟩ : IV3), true))
    ∧ thetaOkQ (⟨36988144278630730, -72047890380717324, 875813677736031681⟩ : IV3) (⟨1787614846622, 6364433133, 166976057057846⟩ : IV3) = true :=
  ⟨rfl, by decide⟩

set_option maxRecDepth 1000000 in
set_option maxHeartbeats 4000000 in
theorem stepF86 : (stepQ (⟨36988144278630730, -72047890380717324, 875813677736031681⟩ : IV3) (⟨1787614846622, 6364433133, 166976057057846⟩ : IV3)
    = ((⟨36275252322436884, -70555202454842519, 878661614163981037⟩ : IV3), (⟨1751276069277, 6177304801, 167042998406305⟩ : IV3), true))
    ∧ thetaOkQ (⟨36275252322436884, -70555202454842519, 878661614163981037⟩ : IV3) (⟨1751276069277, 6177304801, 167042998406305⟩ : IV3) = true :=
  ⟨rfl, by decide⟩

set_option maxRecDepth 1000000 in
set_option maxHeartbeats 4000000 in
theorem stepF87 : (stepQ (⟨36275252322436884, -70555202454842519, 878661614163981037⟩ : IV3) (⟨1751276069277, 6177304801, 167042998406305⟩ : IV3)
    = ((⟨35577130236703203, -69093402658801243, 881455740249126898⟩ : IV3), (⟨1715650211466, 5999159829, 167108894588605⟩ : IV3), true))
    ∧ thetaOkQ (⟨35577130236703203, -69093402658801243, 881455740249126898⟩ : IV3) (⟨1715650211466, 5999159829, 167108894588605⟩ : IV3) = true :=
  ⟨rfl, by decide⟩

set_option maxRecDepth 1000000 in
set_option maxHeartbeats 4000000 in
theorem stepF88 : (stepQ (⟨35577130236703203, -69093402658801243, 881455740249126898⟩ : IV3) (⟨1715650211466, 5999159829, 167108894588605⟩ : IV3)
    = ((⟨34893472386214661, -67661852410511224, 884197173273585578⟩ : IV3), (⟨1680725534048, 5829410230, 167173809288527⟩ : IV3), true))
    ∧ thetaOkQ (⟨34893472386214661, -67661852410511224, 884197173273585578⟩ : IV3) (⟨1680725534048, 5829410230, 167173809288527⟩ : IV3) = true :=
  ⟨rfl, by decide⟩

set_option maxRecDepth 1000000 in
set_option maxHeartbeats 4000000 in
theorem stepF89 : (stepQ (⟨34893472386214661, -67661852410511224, 884197173273585578⟩ : IV3) (⟨1680725534048, 5829410230, 167173809288527⟩ : IV3)
    = ((⟨34223979454642611, -66259926294536847, 886887007272927577⟩ : IV3), (⟨1646490306197, 5667512157, 167237801587301⟩ : IV3), true))
    ∧ thetaOkQ (⟨34223979454642611, -66259926294536847, 886887007272927577⟩ : IV3) (⟨1646490306197, 5667512157, 167237801587301⟩ : IV3) = true :=
  ⟨rfl, by decide⟩

set_option maxRecDepth 1000000 in
set_option maxHeartbeats 4000000 in
theorem stepF90 : (stepQ (⟨34223979454642611, -66259926294536847, 886887007272927577⟩ : IV3) (⟨1646490306197, 5667512157, 167237801587301⟩ : IV3)
    = ((⟨33568358314247831, -64887011792750146, 889526313524372854⟩ : IV3), (⟨1612932823681, 5512962419, 167300926319292⟩ : IV3), true))
    ∧ thetaOkQ (⟨33568358314247831, -64887011792750146, 889526313524372854⟩ : IV3) (⟨1612932823681, 5512962419, 167300926319292⟩ : IV3) = true :=
  ⟨rfl, by decide⟩

set_option maxRecDepth 1000000 in
set_option maxHeartbeats 4000000 in
theorem stepF91 : (stepQ (⟨33568358314247831, -64887011792750146, 889526313524372854⟩ : IV3) (⟨1612932823681, 5512962419, 167300926319292⟩ : IV3)
    = ((⟨32926321898249596, -63542509020371148, 892116141024461514⟩ : IV3), (⟨1580041425311, 5365295288, 167363234399505⟩ : IV3), true))
    ∧ thetaOkQ (⟨32926321898249596, -63542509020371148, 892116141024461514⟩ : IV3) (⟨1580041425311, 5365295288, 167363234399505⟩ : IV3) = true :=
  ⟨rfl, by decide⟩

set_option maxRecDepth 1000000 in
set_option maxHeartbeats 4000000 in
theorem stepF92 : (stepQ (⟨32926321898249596, -63542509020371148, 892116141024461514⟩ : IV3) (⟨1580041425311, 5365295288, 167363234399505⟩ : IV3)
    = ((⟨32297589075807475, -62225830467288181, 894657516956443136⟩ : IV3), (⟨1547804507676, 5224079555, 167424773125168⟩ : IV3), true))
    ∧ thetaOkQ (⟨32297589075807475, -62225830467288181, 894657516956443136⟩ : IV3) (⟨1547804507676, 5224079555, 167424773125168⟩ : IV3) = true :=
  ⟨rfl, by decide⟩

set_option maxRecDepth 1000000 in
set_option maxHeartbeats 4000000 in
theorem stepF93 : (stepQ (⟨32297589075807475, -62225830467288181, 894657516956443136⟩ : IV3) (⟨1547804507676, 5224079555, 167424773125168⟩ : IV3)
    = ((⟨31681884529563568, -60936400744560084, 897151447147621387⟩ : IV3), (⟨1516210538359, 5088915821, 167485586453478⟩ : IV3), true))
    ∧ thetaOkQ (⟨31681884529563568, -60936400744560084, 897151447147621387⟩ : IV3) (⟨1516210538359, 5088915821, 167485586453478⟩ : IV3) = true :=
  ⟨rfl, by decide⟩

set_option maxRecDepth 1000000 in
set_option maxHeartbeats 4000000 in
theorem stepF94 : (stepQ (⟨31681884529563568, -60936400744560084, 897151447147621387⟩ : IV3) (⟨1516210538359, 5088915821, 167485586453478⟩ : IV3)
    = ((⟨31078938635693845, -59673656336003596, 899598916516884218⟩ : IV3), (⟨1485248067726, 4959434016, 167545715257409⟩ : IV3), true))
    ∧ thetaOkQ (⟨31078938635693845, -59673656336003596, 899598916516884218⟩ : IV3) (⟨1485248067726, 4959434016, 167545715257409⟩ : IV3) = true :=
  ⟨rfl, by decide⟩

set_option maxRecDepth 1000000 in
set_option maxHeartbeats 4000000 in
theorem stepF95 : (stepQ (⟨31078938635693845, -59673656336003596, 899598916516884218⟩ : IV3) (⟨1485248067726, 4959434016, 167545715257409⟩ : IV3)
    = ((⟨30488487346418230, -58437045354770559, 902000889512643809⟩ : IV3), (⟨1454905739420, 4835291100, 167605197561322⟩ : IV3), true))
    ∧ thetaOkQ (⟨30488487346418230, -58437045354770559, 902000889512643809⟩ : IV3) (⟨1454905739420, 4835291100, 167605197561322⟩ : IV3) = true :=
  ⟨rfl, by decide⟩

set_option maxRecDepth 1000000 in
set_option maxHeartbeats 4000000 in
theorem stepF96 : (stepQ (⟨30488487346418230, -58437045354770559, 902000889512643809⟩ : IV3) (⟨1454905739420, 4835291100, 167605197561322⟩ : IV3)
    = ((⟨29910272074920006, -57226027304820934, 904358310541404513⟩ : IV3), (⟨1425172299678, 4716168965, 167664068758048⟩ : IV3), true))
    ∧ thetaOkQ (⟨29910272074920006, -57226027304820934, 904358310541404513⟩ : IV3) (⟨1425172299678, 4716168965, 167664068758048⟩ : IV3) = true :=
  ⟨rfl, by decide⟩

set_option maxRecDepth 1000000 in
set_option maxHeartbeats 4000000 in
theorem stepF97 : (stepQ (⟨29910272074920006, -57226027304820934, 904358310541404513⟩ : IV3) (⟨1425172299678, 4716168965, 167664068758048⟩ : IV3)
    = ((⟨29344039582626059, -56040072847199012, 906672104387171313⟩ : IV3), (⟨1396036605565, 4601772483, 167722361808836⟩ : IV3), true))
    ∧ thetaOkQ (⟨29344039582626059, -56040072847199012, 906672104387171313⟩ : IV3) (⟨1396036605565, 4601772483, 167722361808836⟩ : IV3) = true :=
  ⟨rfl, by decide⟩

set_option maxRecDepth 1000000 in
set_option maxHeartbeats 4000000 in
theorem stepF98 : (stepQ (⟨29344039582626059, -56040072847199012, 906672104387171313⟩ : IV3) (⟨1396036605565, 4601772483, 167722361808836⟩ : IV3)
    = ((⟨28789541868800385, -54878663571021577, 908943176621905808⟩ : IV3), (⟨1367487632217, 4491827743, 167780107427638⟩ : IV3), true))
    ∧ thetaOkQ (⟨28789541868800385, -54878663571021577, 908943176621905808⟩ : IV3) (⟨1367487632217, 4491827743, 167780107427638⟩ : IV3) = true :=
  ⟨rfl, by decide⟩

set_option maxRecDepth 1000000 in
set_option maxHeartbeats 4000000 in
theorem stepF99 : (stepQ (⟨28789541868800385, -54878663571021577, 908943176621905808⟩ : IV3) (⟨1367487632217, 4491827743, 167780107427638⟩ : IV3)
    = ((⟨28246536062404212, -53741291769088172, 911172414007231367⟩ : IV3), (⟨1339514479182, 4386080389, 167837334250887⟩ : IV3), true))
    ∧ thetaOkQ (⟨28246536062404212, -53741291769088172, 911172414007231367⟩ : IV3) (⟨1339514479182, 4386080389, 167837334250887⟩ : IV3) = true :=
  ⟨rfl, by decide⟩

set_option maxRecDepth 1000000 in
theorem run100 : runQ 100 c0Q rho0Q = true := by
  have h100 : runQ 0 (⟨28246536062404212, -53741291769088172, 911172414007231367⟩ : IV3) (⟨1339514479182, 4386080389, 167837334250887⟩ : IV3) = true := rfl
  have h99 : runQ 1 (⟨28789541868800385, -54878663571021577, 908943176621905808⟩ : IV3) (⟨1367487632217, 4491827743, 167780107427638⟩ : IV3) = true := runQ_cons stepF99.1 stepF99.2 h100
  have h98 : runQ 2 (⟨29344039582626059, -56040072847199012, 906672104387171313⟩ : IV3) (⟨1396036605565, 4601772483, 167722361808836⟩ : IV3) = true := runQ_cons stepF98.1 stepF98.2 h99
  have h97 : runQ 3 (⟨29910272074920006, -57226027304820934, 904358310541404513⟩ : IV3) (⟨1425172299678, 4716168965, 167664068758048⟩ : IV3) = true := runQ_cons stepF97.1 stepF97.2 h98
  have h96 : runQ 4 (⟨30488487346418230, -58437045354770559, 902000889512643809⟩ : IV3) (⟨1454905739420, 4835291100, 167605197561322⟩ : IV3) = true := runQ_cons stepF96.1 stepF96.2 h97
  have h95 : runQ 5 (⟨31078938635693845, -59673656336003596, 899598916516884218⟩ : IV3) (⟨1485248067726, 4959434016, 167545715257409⟩ : IV3) = true := runQ_cons stepF95.1 stepF95.2 h96
  have h94 : runQ 6 (⟨31681884529563568, -60936400744560084, 897151447147621387⟩ : IV3) (⟨1516210538359, 5088915821, 167485586453478⟩ : IV3) = true := runQ_cons stepF94.1 stepF94.2 h95
  have h93 : runQ 7 (⟨32297589075807475, -62225830467288181, 894657516956443136⟩ : IV3) (⟨1547804507676, 5224079555, 167424773125168⟩ : IV3) = true := runQ_cons stepF93.1 stepF93.2 h94
  have h92 : runQ 8 (⟨32926321898249596, -63542509020371148, 892116141024461514⟩ : IV3) (⟨1580041425311, 5365295288, 167363234399505⟩ : IV3) = true := runQ_cons stepF92.1 stepF92.2 h93
  have h91 : runQ 9 (⟨33568358314247831, -64887011792750146, 889526313524372854⟩ : IV3) (⟨1612932823681, 5512962419, 167300926319292⟩ : IV3) = true := runQ_cons stepF91.1 stepF91.2 h92
  have h90 : runQ 10 (⟨34223979454642611, -66259926294536847, 886887007272927577⟩ : IV3) (⟨1646490306197, 5667512157, 167237801587301⟩ : IV3) = true := runQ_cons stepF90.1 stepF90.2 h91
  have h89 : runQ 11 (⟨34893472386214661, -67661852410511224, 884197173273585578⟩ : IV3) (⟨1680725534048, 5829410230, 167173809288527⟩ : IV3) = true := runQ_cons stepF89.1 stepF89.2 h90
  have h88 : runQ 12 (⟨35577130236703203, -69093402658801243, 881455740249126898⟩ : IV3) (⟨1715650211466, 5999159829, 167108894588605⟩ : IV3) = true := runQ_cons stepF88.1 stepF88.2 h89
  have h87 : runQ 13 (⟨36275252322436884, -70555202454842519, 878661614163981037⟩ : IV3) (⟨1751276069277, 6177304801, 167042998406305⟩ : IV3) = true := runQ_cons stepF87.1 stepF87.2 h88
  have h86 : runQ 14 (⟨36988144278630730, -72047890380717324, 875813677736031681⟩ : IV3) (⟨1787614846622, 6364433133, 166976057057846⟩ : IV3) = true := runQ_cons stepF86.1 stepF86.2 h87
  have h85 : runQ 15 (⟨37716118192403403, -73572118459973626, 872910789937646777⟩ : IV3) (⟨1824678270673, 6561180727, 166908001870582⟩ : IV3) = true := runQ_cons stepF85.1 stepF85.2 h86
  have h84 : runQ 16 (⟨38459492738570066, -75128552438026121, 869951785485676826⟩ : IV3) (⟨1862478034135, 6768235516, 166838758763353⟩ : IV3) = true := runQ_cons stepF84.1 stepF84.2 h85
  have h83 : runQ 17 (⟨39218593318267176, -76717872068242477, 866935474320156918⟩ : IV3) (⟨1901025770366, 6986341939, 166768247790635⟩ : IV3) = true := runQ_cons stepF83.1 stepF83.2 h84
  have h82 : runQ 18 (⟨39993752200466578, -78340771403819192, 863860641071440383⟩ : IV3) (⟨1940333025878, 7216305800, 166696382647287⟩ : IV3) = true := runQ_cons stepF82.1 stepF82.2 h83
  have h81 : runQ 19 (⟨40785308666437301, -79997959095552663, 860726044515484029⟩ : IV3) (⟨1980411229984, 7458999567, 166623070130483⟩ : IV3) = true := runQ_cons stepF81.1 stepF81.2 h82
  have h80 : runQ 20 (⟨41593609157214540, -81690158695612194, 857530417016996697⟩ : IV3) (⟨2021271661339, 7715368125, 166548209555032⟩ : IV3) = true := runQ_cons stepF80.1 stepF80.2 h81
  have h79 : runQ 21 (⟨42419007424136365, -83418108967422736, 854272463960154304⟩ : IV3) (⟨2062925411091, 7986435043, 166471692118060⟩ : IV3) = true := runQ_cons stepF79.1 stepF79.2 h80
  have h78 : runQ 22 (⟨43261864682509793, -85182564201766180, 850950863166575634⟩ : IV3) (⟨2105383342319, 8273309384, 166393400208566⟩ : IV3) = true := runQ_cons stepF78.1 stepF78.2 h79
  have h77 : runQ 23 (⟨44122549768468934, -86984294539211000, 847564264300243876⟩ : IV3) (⟨2148656045468, 8577193125, 166313206657063⟩ : IV3) = true := runQ_cons stepF77.1 stepF77.2 h78
  have h76 : runQ 24 (⟨45001439299089052, -88824086298980912, 844111288259049267⟩ : IV3) (⟨2192753789360, 8899389230, 166230973919993⟩ : IV3) = true := runQ_cons stepF76.1 stepF76.2 h77
  have h75 : runQ 25 (⟨45898917835821460, -90702742314374056, 840590526552618134⟩ : IV3) (⟨2237686467439, 9241310428, 166146553193227⟩ : IV3) = true := runQ_cons stepF75.1 stepF75.2 h76
  have h74 : runQ 26 (⟨46815378051315315, -92621082274844912, 837000540666083176⟩ : IV3) (⟨2283463538782, 9604488771, 166059783448413⟩ : IV3) = true := runQ_cons stepF74.1 stepF74.2 h75
  have h73 : runQ 27 (⟨47751220899693479, -94579943074861825, 833339861409438893⟩ : IV3) (⟨2330093963435, 9990586045, 165970490385366⟩ : IV3) = true := runQ_cons stepF73.1 stepF73.2 h74
  have h72 : runQ 28 (⟨48706855790350770, -96580179169653535, 829606988252114689⟩ : IV3) (⟨2377586131543, 10401405092, 165878485293128⟩ : IV3) = true := runQ_cons stepF72.1 stepF72.2 h73
  have h71 : runQ 29 (⟨49682700765344037, -98622662937958518, 825800388642386287⟩ : IV3) (⟨2425947785729, 10838902146, 165783563811664⟩ : IV3) = true := runQ_cons stepF71.1 stepF71.2 h72
  have h70 : runQ 30 (⟨50679182680444647, -100708285051891268, 821918497311233685⟩ : IV3) (⟨2475185936127, 11305200253, 165685504585409⟩ : IV3) = true := runQ_cons stepF70.1 stepF70.2 h71
  have h69 : runQ 31 (⟨51696737389925114, -102837954854039782, 817959715560240910⟩ : IV3) (⟨2525306767397, 11802603893, 165584067799170⟩ : IV3) = true := runQ_cons stepF69.1 stepF69.2 h70
  have h68 : runQ 32 (⟨52735809935152733, -105012600741908531, 813922410533119285⟩ : IV3) (⟨2576315537009, 12333614898, 165478993585970⟩ : IV3) = true := runQ_cons stepF68.1 stepF68.2 h69
  have h67 : runQ 33 (⟨53796854737064235, -107233170559821051, 809804914470421737⟩ : IV3) (⟨2628216464024, 12900949782, 165370000295544⟩ : IV3) = true := runQ_cons stepF67.1 stepF67.2 h68
  have h66 : runQ 34 (⟨54880335792596605, -109500631998395942, 805605523947000863⟩ : IV3) (⟨2681012607518, 13507558632, 165256782611210⟩ : IV3) = true := runQ_cons stepF66.1 stepF66.2 h67
  have h65 : runQ 35 (⟨55986726875150356, -111815973001709555, 801322499091747927⟩ : IV3) (⟨2734705733730, 14156645659, 165139009501640⟩ : IV3) = true := runQ_cons stepF65.1 stepF65.2 h66
  have h64 : runQ 36 (⟨57116511739162672, -114180202182257869, 796954062789133723⟩ : IV3) (⟨2789296170923, 14851691608, 165016321993012⟩ : IV3) = true := runQ_cons stepF64.1 stepF64.2 h65
  have h63 : runQ 37 (⟨58270184328868942, -116594349243829119, 792498399862055173⟩ : IV3) (⟨2844782650862, 15596478156, 164888330745591⟩ : IV3) = true := runQ_cons stepF63.1 stepF63.2 h64
  have h62 : runQ 38 (⟨59448248991332340, -119059465412397468, 787953656235473681⟩ : IV3) (⟨2901162135738, 16395114502, 164754613417498⟩ : IV3) = true := runQ_cons stepF62.1 stepF62.2 h63
  have h61 : runQ 39 (⟨60651220693822184, -121576623875146508, 783317938080312504⟩ : IV3) (⟨2958429629203, 17252066331, 164614711796679⟩ : IV3) = true := runQ_cons stepF61.1 stepF61.2 h62
  have h60 : runQ 40 (⟨61879625245622886, -124146920227729521, 778589310937060702⟩ : IV3) (⟨3016577970134, 18172187378, 164468128680722⟩ : IV3) = true := runQ_cons stepF60.1 stepF60.2 h61
  have h59 : runQ 41 (⟨63133999524356366, -126771472929871223, 773765798818510549⟩ : IV3) (⟨3075597607583, 19160753832, 164314324481978⟩ : IV3) = true := runQ_cons stepF59.1 stepF59.2 h60
  have h58 : runQ 42 (⟨64414891706901844, -129451423769413098, 768845383291033510⟩ : IV3) (⟨3135476355226, 20223501825, 164152713533747⟩ : IV3) = true := runQ_cons stepF58.1 stepF58.2 h59
  have h57 : runQ 43 (⟨65722861504997914, -132187938334901329, 763826002533776954⟩ : IV3) (⟨3196199123489, 21366668294, 163982660070882⟩ : IV3) = true := runQ_cons stepF57.1 stepF57.2 h58
  have h56 : runQ 44 (⟨67058480405612785, -134982206496812633, 758705550375139580⟩ : IV3) (⟨3257747627386, 22597035528, 163803473856005⟩ : IV3) = true := runQ_cons stepF56.1 stepF56.2 h57
  have h55 : runQ 45 (⟨68422331916169502, -137835442897508909, 753481875305857961⟩ : IV3) (⟨3320100067866, 23921979727, 163614405419735⟩ : IV3) = true := runQ_cons stepF55.1 stepF55.2 h56
  have h54 : runQ 46 (⟨69815011814713851, -140748887450006241, 748152779468009435⟩ : IV3) (⟨3383230784360, 25349523949, 163414640880671⟩ : IV3) = true := runQ_cons stepF54.1 stepF54.2 h55
  have h53 : runQ 47 (⟨71237128405113445, -143723805845637203, 742716017619207684⟩ : IV3) (⟨3447109875929, 26888395843, 163203296307737⟩ : IV3) = true := runQ_cons stepF53.1 stepF53.2 h54
  have h52 : runQ 48 (⟨72689302777377279, -146761490070677033, 737169296071236289⟩ : IV3) (⟨3511702788225, 28548090601, 162979411584103⟩ : IV3) = true := runQ_cons stepF52.1 stepF52.2 h53
  have h51 : runQ 49 (⟨74172169073185651, -149863258931993302, 731510271602331967⟩ : IV3) (⟨3576969863251, 30338939626, 162741943728400⟩ : IV3) = true := runQ_cons stepF51.1 stepF51.2 h52
  have h50 : runQ 50 (⟨75686374756720893, -153030458591763994, 725736550342292324⟩ : IV3) (⟨3642865848564, 32272185422, 162489759624751⟩ : IV3) = true := runQ_cons stepF50.1 stepF50.2 h51
  have h49 : runQ 51 (⟨77232580890889695, -156264463111288364, 719845686629541763⟩ : IV3) (⟨3709339362348, 34360063285, 162221628109025⟩ : IV3) = true := runQ_cons stepF49.1 stepF49.2 h50
  have h48 : runQ 52 (⟨78811462419027898, -159566675003885411, 713835181839241930⟩ : IV3) (⟨3776332310405, 36615890429, 161936211353834⟩ : IV3) = true := runQ_cons stepF48.1 stepF48.2 h49
  have h47 : runQ 53 (⟨80423708452178362, -162938525796831163, 707702483181477184⟩ : IV3) (⟨3843779250812, 39054163233, 161632055489752⟩ : IV3) = true := runQ_cons stepF47.1 stepF47.2 h48
  have h46 : runQ 54 (⟨82070022562031703, -166381476602219886, 701444982468476759⟩ : IV3) (⟨3911606701540, 41690663352, 161307580394538⟩ : IV3) = true := runQ_cons stepF46.1 stepF46.2 h47
  have h45 : runQ 55 (⟨83751123079618026, -169897018696532587, 695060014849746830⟩ : IV3) (⟨3979732386013, 44542573530, 160961068576099⟩ : IV3) = true := runQ_cons stepF45.1 stepF45.2 h46
  have h44 : runQ 56 (⟨85467743399834822, -173486674108537228, 688544857513866830⟩ : IV3) (⟨4048064411023, 47628603987, 160590653068208⟩ : IV3) = true := runQ_cons stepF44.1 stepF44.2 h45
  have h43 : runQ 57 (⟨87220632291891192, -177151996214894346, 681896728355537638⟩ : IV3) (⟨4116500371029, 50969130412, 160194304250757⟩ : IV3) = true := runQ_cons stepF43.1 stepF43.2 h44
  have h42 : runQ 58 (⟨89010554215740309, -180894570342443368, 675112784606226779⟩ : IV3) (⟨4184926372238, 54586344601, 159769815498350⟩ : IV3) = true := runQ_cons stepF42.1 stepF42.2 h43
  have h41 : runQ 59 (⟨90838289644558584, -184716014375508763, 668190121426392480⟩ : IV3) (⟨4253215969357, 58504418950, 159314787552468⟩ : IV3) = true := runQ_cons stepF41.1 stepF41.2 h42
  have h40 : runQ 60 (⟨92704635393308328, -188617979365545801, 661125770456711604⟩ : IV3) (⟨4321229007204, 62749686092, 158826611502980⟩ : IV3) = true := runQ_cons stepF40.1 stepF40.2 h41
  have h39 : runQ 61 (⟨94610404953385702, -192602150138808502, 653916698324869130⟩ : IV3) (⟨4388810358731, 67350835121, 158302450254473⟩ : IV3) = true := runQ_cons stepF39.1 stepF39.2 h40
  have h38 : runQ 62 (⟨96556428833299415, -196670245895088956, 646559805103099952⟩ : IV3) (⟨4455788550186, 72339125963, 157739218341740⟩ : IV3) = true := runQ_cons stepF38.1 stepF38.2 h39
  have h37 : runQ 63 (⟨98543554905234950, -200824020786337020, 639051922709502734⟩ : IV3) (⟨4521974263388, 77748623634, 157133559946505⟩ : IV3) = true := runQ_cons stepF37.1 stepF37.2 h38
  have h36 : runQ 64 (⟨100572648757213049, -205065264457138234, 631389813242679062⟩ : IV3) (⟨4587158704136, 83616454302, 156481824954182⟩ : IV3) = true := runQ_cons stepF36.1 stepF36.2 h37
  have h35 : runQ 65 (⟨102644594050315978, -209395802518018407, 623570167233696912⟩ : IV3) (⟨4651111824790, 89983085281, 155780042874819⟩ : IV3) = true := runQ_cons stepF35.1 stepF35.2 h36
  have h34 : runQ 66 (⟨104760292880076109, -213817496904797591, 615589601790458293⟩ : IV3) (⟨4713580388026, 96892631316, 155023894436676⟩ : IV3) = true := runQ_cons stepF34.1 stepF34.2 h35
  have h33 : runQ 67 (⟨106920666140510698, -218332246048611297, 607444658595207941⟩ : IV3) (⟨4774285857543, 104393189843, 154208680643322⟩ : IV3) = true := runQ_cons stepF33.1 stepF33.2 h34
  have h32 : runQ 68 (⟨109126653888302578, -222941984735110793, 599131801692835351⟩ : IV3) (⟨4832922100238, 112537208222, 153329289066266⟩ : IV3) = true := runQ_cons stepF32.1 stepF32.2 h33
  have h31 : runQ 69 (⟨111379215703040385, -227648683457048683, 590647414970450522⟩ : IV3) (⟨4889152882920, 121381886426, 152380157124205⟩ : IV3) = true := runQ_cons stepF31.1 stepF31.2 h32
  have h30 : runQ 70 (⟨113679331036875872, -232454346944723915, 581987799168844237⟩ : IV3) (⟨4942609145080, 130989619203, 151355232076951⟩ : IV3) = true := runQ_cons stepF30.1 stepF30.2 h31
  have h29 : runQ 71 (⟨116027999542836969, -237361011365870703, 573149168170011067⟩ : IV3) (⟨4992886027447, 141428482524, 150247927436622⟩ : IV3) = true := runQ_cons stepF29.1 stepF29.2 h30
  have h28 : runQ 72 (⟨118426241364399056, -242370739375901828, 564127644149596652⟩ : IV3) (⟨5039539634103, 152772770124, 149051075470073⟩ : IV3) = true := runQ_cons stepF28.1 stepF28.2 h29
  have h27 : runQ 73 (⟨120875097358226897, -247485611699165213, 554919250933007860⟩ : IV3) (⟨5082083503638, 165103587381, 147756875434210⟩ : IV3) = true := runQ_cons stepF27.1 stepF27.2 h28
  have h26 : runQ 74 (⟨123375629204783258, -252707713116585038, 545519904491201937⟩ : IV3) (⟨5119984762201, 178509511725, 146356837148304⟩ : IV3) = true := runQ_cons stepF26.1 stepF26.2 h27
  have h25 : runQ 75 (⟨125928919333779728, -258039109439118508, 535925398863899474⟩ : IV3) (⟨5152659928138, 193087331588, 144841719462881⟩ : IV3) = true := runQ_cons stepF25.1 stepF25.2 h26
  have h24 : runQ 76 (⟨128536070546823938, -263481809961569917, 526131384754706540⟩ : IV3) (⟨5179470333992, 208942879778, 143201463129798⟩ : IV3) = true := runQ_cons stepF24.1 stepF24.2 h25
  have h23 : runQ 77 (⟨131198205147811692, -269037706538266008, 516133336364209105⟩ : IV3) (⟨5199717126705, 226191982629, 141425117507241⟩ : IV3) = true := runQ_cons stepF23.1 stepF23.2 h24
  have h22 : runQ 78 (⟨133916463276096692, -274708475031407288, 505926499327661432⟩ : IV3) (⟨5212635800272, 244961553676, 139500760437363⟩ : IV3) = true := runQ_cons stepF22.1 stepF22.2 h23
  have h21 : runQ 79 (⟨136691999951697270, -280495416219399686, 495505808283768588⟩ : IV3) (⟨5217390206089, 265390870416, 137415410496953⟩ : IV3) = true := runQ_cons stepF21.1 stepF21.2 h22
  have h20 : runQ 80 (⟨139525980043139788, -286399199334358461, 484865755625532045⟩ : IV3) (⟨5213065973411, 287633084764, 135154930616114⟩ : IV3) = true := runQ_cons stepF20.1 stepF20.2 h21
  have h19 : runQ 81 (⟨142419569888567703, -292419449046988075, 474000181777044549⟩ : IV3) (⟨5198663253644, 311857031118, 132703921738925⟩ : IV3) = true := runQ_cons stepF19.1 stepF19.2 h20
  have h18 : runQ 82 (⟨145373923529681625, -298554080838391919, 462901939341447635⟩ : IV3) (⟨5173088674178, 338249406511, 130045604683279⟩ : IV3) = true := runQ_cons stepF18.1 stepF18.2 h19
  have h17 : runQ 83 (⟨148390160279859969, -304798232128993530, 451562354570853854⟩ : IV3) (⟨5135146344827, 367017395857, 127161687504032⟩ : IV3) = true := runQ_cons stepF17.1 stepF17.2 h18
  have h16 : runQ 84 (⟨151469328360223446, -311142544201908106, 439970363242381615⟩ : IV3) (⟨5083527694171, 398391780362, 124032214232759⟩ : IV3) = true := runQ_cons stepF16.1 stepF16.2 h17
  have h15 : runQ 85 (⟨154612346148274017, -317570401936877219, 428111123652419979⟩ : IV3) (⟨5016799810708, 432630454315, 120635388439557⟩ : IV3) = true := runQ_cons stepF15.1 stepF15.2 h16
  have h14 : runQ 86 (⟨157819907468926199, -324053501184563534, 415963790201885365⟩ : IV3) (⟨4933391803573, 470021994939, 116947360912694⟩ : IV3) = true := runQ_cons stepF14.1 stepF14.2 h15
  have h13 : runQ 87 (⟨161092329158161646, -330544733728124365, 403497939958255371⟩ : IV3) (⟨4831578446317, 510888305939, 112941963627746⟩ : IV3) = true := runQ_cons stepF13.1 stepF13.2 h14
  have h12 : runQ 88 (⟨164429305990749260, -336966771638206123, 390667838495423087⟩ : IV3) (⟨4709459973186, 555584051442, 108590359922403⟩ : IV3) = true := runQ_cons stepF12.1 stepF12.2 h13
  have h11 : runQ 89 (⟨167829517019949208, -343193759725746787, 377403241248313916⟩ : IV3) (⟨4564936281161, 604487980248, 103860559713372⟩ : IV3) = true := runQ_cons stepF11.1 stepF11.2 h12
  have h10 : runQ 90 (⟨171289993688388610, -349021968376751236, 363594642336284883⟩ : IV3) (⟨4395672835003, 657976139318, 98716712429359⟩ : IV3) = true := runQ_cons stepF10.1 stepF10.2 h11
  have h9 : runQ 91 (⟨174805106159857643, -354122770538355438, 349069628166069672⟩ : IV3) (⟨4199054110756, 716357256842, 93118028663727⟩ : IV3) = true := runQ_cons stepF9.1 stepF9.2 h10
  have h8 : runQ 92 (⟨178364938086942703, -357967328721800640, 333554986656064229⟩ : IV3) (⟨3972118240393, 779732419974, 87017077526117⟩ : IV3) = true := runQ_cons stepF8.1 stepF8.2 h9
  have h7 : runQ 93 (⟨181952682123378193, -359706019211455695, 316616014615574930⟩ : IV3) (⟨3711463467256, 847707890481, 80357034557054⟩ : IV3) = true := runQ_cons stepF7.1 stepF7.2 h8
  have h6 : runQ 94 (⟨185540467969992480, -357975452275507547, 297559335194027058⟩ : IV3) (⟨3412459443857, 917805000329, 73052542351977⟩ : IV3) = true := runQ_cons stepF6.1 stepF6.2 h7
  have h5 : runQ 95 (⟨189082682045720258, -350589671870573456, 275277328388732674⟩ : IV3) (⟨3068718559974, 983129448240, 64973688935312⟩ : IV3) = true := runQ_cons stepF5.1 stepF5.2 h6
  have h4 : runQ 96 (⟨192505273338615378, -334046008891039630, 247999125631250237⟩ : IV3) (⟨2672968919572, 1030365606696, 55954994069407⟩ : IV3) = true := runQ_cons stepF4.1 stepF4.2 h5
  have h3 : runQ 97 (⟨195688634960342808, -302734036194156499, 212891998064107858⟩ : IV3) (⟨2215823047595, 1032992014894, 45752451720254⟩ : IV3) = true := runQ_cons stepF3.1 stepF3.2 h4
  have h2 : runQ 98 (⟨198440195774957293, -247667993164729331, 165422901216955929⟩ : IV3) (⟨1685266747944, 940358680193, 33994670614993⟩ : IV3) = true := runQ_cons stepF2.1 stepF2.2 h3
  have h1 : runQ 99 (⟨200450505055758530, -154451686227118961, 98334606770461230⟩ : IV3) (⟨1066780520147, 659096711956, 20143850317178⟩ : IV3) = true := runQ_cons stepF1.1 stepF1.2 h2
  exact runQ_cons stepF0.1 stepF0.2 h1

theorem c9_main (hrun : runQ 100 c0Q rho0Q = true) (k : ℕ) (hk : k ≤ 100) :
    |(f3step^[k] (10 * Real.pi / 180, (0 : ℝ), (0 : ℝ))).1| < Real.pi / 2 := by
  rcases Nat.eq_zero_or_pos k with h0 | hpos
  · subst h0
    rw [Function.iterate_zero_apply]
    have hpi := Real.pi_pos
    dsimp only
    rw [abs_of_nonneg (by positivity)]
    linarith
  · have hb := runQ_sound 100 c0Q rho0Q _ hrun initEnc k hpos hk
    have hgap := pi_gap_lt
    linarith

end PendChk

namespace Pendulum

/-- Two `computeDerivatives` calls at equal mechanical states agree. -/
theorem computeDerivatives_congr (p : Params) (u : ℝ) {a b : MechState} (h : a = b) :
    computeDerivatives p a u = computeDerivatives p b u := by rw [h]

/-- C2: the equations-of-motion evaluator returns exactly the spec's formulas
with `s = sin theta`, `c = cos theta`, `denom = M + m - m*c^2`, together with
the passed-through first derivatives. -/
theorem computeDerivatives_formula (p : Params) (s : MechState) (u : ℝ) :
    computeDerivatives p s u =
      ⟨s.xDot,
       (u - p.friction * s.xDot + p.m * p.l * s.thetaDot ^ 2 * Real.sin s.theta
          - p.m * p.g * Real.sin s.theta * Real.cos s.theta)
         / (p.M + p.m - p.m * Real.cos s.theta ^ 2),
       s.thetaDot,
       ((p.M + p.m) * p.g * Real.sin s.theta
          - Real.cos s.theta * (u - p.friction * s.xDot
              + p.m * p.l * s.thetaDot ^ 2 * Real.sin s.theta))
         / (p.l * (p.M + p.m - p.m * Real.cos s.theta ^ 2))⟩ := by
  simp only [computeDerivatives, denom, Derivs.mk.injEq]
  refine ⟨trivial, ?_, trivial, ?_⟩ <;> ring_nf

/-- C3: the controller output is the hard-clamped PID expression: it equals
`clamp(Kp*theta + Ki*integral + Kd*thetaDot, -50, 50)`, always lies in
`[-50, 50]`, equals the unclamped expression when that lies in the range, and
is truncated to the nearer bound otherwise. -/
theorem computeControl_clamped (gns : Gains) (s : SimState) :
    computeControl gns s = max (-50) (min 50 (pidRaw gns s)) ∧
      -50 ≤ computeControl gns s ∧ computeControl gns s ≤ 50 ∧
      (-50 ≤ pidRaw gns s → pidRaw gns s ≤ 50 → computeControl gns s = pidRaw gns s) ∧
      (50 < pidRaw gns s → computeControl gns s = 50) ∧
      (pidRaw gns s < -50 → computeControl gns s = -50) := by
  refine ⟨rfl, le_max_left _ _, ?_, ?_, ?_, ?_⟩
  · exact max_le (by norm_num) (min_le_left _ _)
  · intro h1 h2
    unfold computeControl
    rw [min_eq_right h2, max_eq_right h1]
  · intro h
    unfold computeControl
    rw [min_eq_left h.le, max_eq_right (by norm_num)]
  · intro h
    unfold computeControl
    rw [min_eq_right (by linarith), max_eq_left h.le]

/-- C6 counterexample: at `theta = 0`, `thetaDot = 0`, `u = 0` but `xDot = 1`,
the friction term makes the cart acceleration `-0.1`, not `0`. -/
theorem equilibrium_needs_zero_xDot :
    (computeDerivatives PARAMS ⟨0, 1, 0, 0⟩ 0).xDDot ≠ 0 := by
  simp only [computeDerivatives, denom, PARAMS]
  norm_num [Real.sin_zero, Real.cos_zero]

/-- C6 (amended): for every parameter record and every state with `theta = 0`,
`thetaDot = 0` and `xDot = 0`, the evaluator under `u = 0` returns zero
accelerations (and zero passed-through first derivatives). -/
theorem equilibrium_fixed_point (p : Params) (x : ℝ) :
    computeDerivatives p ⟨x, 0, 0, 0⟩ 0 = ⟨0, 0, 0, 0⟩ := by
  simp [computeDerivatives, denom]

/-- C7: with positive masses, the denominator `M + m - m*cos^2 theta` of the
equations of motion is nonzero (indeed positive) for every angle, and with a
positive pendulum length so is `l * denom`, so neither division in
`computeDerivatives` divides by zero. -/
theorem denom_ne_zero (p : Params) (theta : ℝ)
    (hM : 0 < p.M) (hm : 0 < p.m) (hl : 0 < p.l) :
    denom p theta ≠ 0 ∧ p.l * denom p theta ≠ 0 := by
  have hc : Real.cos theta * Real.cos theta ≤ 1 := by
    nlinarith [Real.neg_one_le_cos theta, Real.cos_le_one theta]
  have hd : 0 < denom p theta := by
    unfold denom; nlinarith
  exact ⟨ne_of_gt hd, ne_of_gt (mul_pos hl hd)⟩

/-- C7 witness: the source's own parameters satisfy the precondition, so the
denominator at angle 0 is nonzero. -/
theorem denom_ne_zero_witness : denom PARAMS 0 ≠ 0 ∧ PARAMS.l * denom PARAMS 0 ≠ 0 :=
  denom_ne_zero PARAMS 0 (by norm_num [PARAMS]) (by norm_num [PARAMS]) (by norm_num [PARAMS])

/-- C8: from any driver state, reset stops the driver and produces the state
with `x = xDot = thetaDot = integral = time = 0` and `theta` the currently
configured initial angle. -/
theorem reset_restores_initial (theta0 : ℝ) (d : DriverState) :
    resetCmd theta0 d = ⟨⟨0, 0, theta0, 0, 0, 0⟩, false⟩ := rfl

/-- A half sub-step of `rk4Step` is the spec's state advanced by `dt/2`. -/
theorem halfStepEq (s : SimState) (dt : ℝ) (k : Derivs) :
    (⟨s.x + k.xDot * dt / 2, s.xDot + k.xDDot * dt / 2,
      s.theta + k.thetaDot * dt / 2, s.thetaDot + k.thetaDDot * dt / 2⟩ : MechState)
      = advanceMech ⟨s.x, s.xDot, s.theta, s.thetaDot⟩ (dt / 2) k := by
  simp only [advanceMech, MechState.mk.injEq]
  refine ⟨by ring, by ring, by ring, by ring⟩

/-- The full sub-step of `rk4Step` is the spec's state advanced by `dt`. -/
theorem fullStepEq (s : SimState) (dt : ℝ) (k : Derivs) :
    (⟨s.x + k.xDot * dt, s.xDot + k.xDDot * dt,
      s.theta + k.thetaDot * dt, s.thetaDot + k.thetaDDot * dt⟩ : MechState)
      = advanceMech ⟨s.x, s.xDot, s.theta, s.thetaDot⟩ dt k := by
  simp only [advanceMech, MechState.mk.injEq]
  refine ⟨by ring, by ring, by ring, by ring⟩

/-- C1: the single-step integrator is exactly classical 4-stage Runge-Kutta
with `u` held constant across the four derivative evaluations — `k1` at the
current state, `k2` and `k3` at the state advanced by `dt/2` using `k1`
resp. `k2`, `k4` at the state advanced by `dt` using `k3`, combined with
weights 1,2,2,1 scaled by `dt/6` — while `integral` advances by the
first-order update `integral + theta*dt` with the pre-step `theta` and `time`
advances by exactly `dt`, unconditionally. -/
theorem rk4_matches_spec (p : Params) (s : SimState) (u dt : ℝ) :
    rk4Step p s u dt = rk4SpecStep p s u dt := by
  simp only [rk4Step, rk4SpecStep]
  set k1 := computeDerivatives p ⟨s.x, s.xDot, s.theta, s.thetaDot⟩ u with hk1
  rw [halfStepEq s dt k1]
  set k2 := computeDerivatives p (advanceMech ⟨s.x, s.xDot, s.theta, s.thetaDot⟩ (dt / 2) k1) u
    with hk2
  rw [halfStepEq s dt k2]
  set k3 := computeDerivatives p (advanceMech ⟨s.x, s.xDot, s.theta, s.thetaDot⟩ (dt / 2) k2) u
    with hk3
  rw [fullStepEq s dt k3]
  set k4 := computeDerivatives p (advanceMech ⟨s.x, s.xDot, s.theta, s.thetaDot⟩ dt k3) u
    with hk4
  simp only [SimState.mk.injEq]
  refine ⟨by ring_nf, by ring_nf, by ring_nf, by ring_nf, by ring_nf, by ring_nf⟩

/-- C5: after the clamping phase the cart position satisfies |x| ≤ 2.5; a
clamp event (pre-clamp |x| > 2.5) leaves x = sign(x)*2.5 and xDot = 0; and a
running tick's resulting state is exactly the clamp phase's output. -/
theorem clamp_bounds_cart (gns : Gains) (p : Params) (d : DriverState) (s : SimState) :
    |(clampCart s).x| ≤ 2.5 ∧
      (2.5 < |s.x| → (clampCart s).x = Real.sign s.x * 2.5 ∧ (clampCart s).xDot = 0) ∧
      (d.isRunning = true → (tick gns p d).sim = clampCart (stepPhase gns p d.sim)) := by
  refine ⟨?_, ?_, ?_⟩
  · by_cases h : 2.5 < |s.x|
    · have hx : s.x ≠ 0 := by
        intro h0
        rw [h0] at h
        simp at h
        linarith
      rcases hx.lt_or_lt with hneg | hpos
      · simp only [clampCart, if_pos h, Real.sign_of_neg hneg]
        norm_num [abs_le]
      · simp only [clampCart, if_pos h, Real.sign_of_pos hpos]
        norm_num [abs_le]
    · simp only [clampCart, if_neg h]
      linarith [not_lt.mp h]
  · intro h
    simp [clampCart, h]
  · intro h
    simp [tick, h]

/-- C10: the boundary tests are strict: a state with |theta| exactly π/2 is
not fallen, a state with |x| exactly 2.5 is left unchanged by the clamp, a
clamp event changes only x and xDot, and a running tick keeps running exactly
when the post-clamp state is not fallen. -/
theorem strict_boundary_conditions (gns : Gains) (p : Params) (d : DriverState) (s : SimState) :
    (|s.theta| = Real.pi / 2 → ¬ fallen s) ∧
      (|s.x| = 2.5 → clampCart s = s) ∧
      (2.5 < |s.x| → (clampCart s).theta = s.theta ∧ (clampCart s).thetaDot = s.thetaDot ∧
        (clampCart s).integral = s.integral ∧ (clampCart s).time = s.time) ∧
      (d.isRunning = true →
        ((tick gns p d).isRunning = true ↔ ¬ fallen (clampCart (stepPhase gns p d.sim)))) := by
  refine ⟨?_, ?_, ?_, ?_⟩
  · intro h
    unfold fallen
    rw [h]
    exact lt_irrefl _
  · intro h
    simp [clampCart, h]
  · intro h
    simp [clampCart, h]
  · intro h
    simp only [tick, h, if_true]
    by_cases hf : fallen (clampCart (stepPhase gns p d.sim))
    · simp [hf]
    · simp [hf]

/-- The RK4 step always advances `time` by exactly `dt`. -/
theorem rk4Step_time (p : Params) (s : SimState) (u dt : ℝ) :
    (rk4Step p s u dt).time = s.time + dt := rfl

/-- The cart clamp never changes `time`. -/
theorem clampCart_time (s : SimState) : (clampCart s).time = s.time := by
  unfold clampCart
  split <;> rfl

/-- The two sub-steps of a tick advance `time` by `2*dt`. -/
theorem stepPhase_time (gns : Gains) (p : Params) (s : SimState) :
    (stepPhase gns p s).time = s.time + p.dt + p.dt := by
  simp only [stepPhase, stepOnce, rk4Step_time]

/-- C4 counterexample: from the stopped driver configuration a fallen tick
leaves behind (theta = 2 > π/2, isRunning = false), a start command followed
by one scheduler tick advances the simulation time from 0 to 0.02 — the code
resumes stepping from the fallen state without any reset. -/
theorem fallen_state_restarts :
    fallen (SimState.mk 0 0 2 0 0 0) ∧
      (tick ⟨50, 0, 20⟩ PARAMS (startCmd ⟨⟨0, 0, 2, 0, 0, 0⟩, false⟩)).sim.time
        ≠ (DriverState.mk ⟨0, 0, 2, 0, 0, 0⟩ false).sim.time := by
  constructor
  · show |(2 : ℝ)| > Real.pi / 2
    rw [abs_of_pos (by norm_num)]
    linarith [Real.pi_lt_d2]
  · have h1 : startCmd ⟨⟨0, 0, 2, 0, 0, 0⟩, false⟩
        = DriverState.mk ⟨0, 0, 2, 0, 0, 0⟩ true := rfl
    rw [h1]
    have h2 : (tick ⟨50, 0, 20⟩ PARAMS ⟨⟨0, 0, 2, 0, 0, 0⟩, true⟩).sim
        = clampCart (stepPhase ⟨50, 0, 20⟩ PARAMS ⟨0, 0, 2, 0, 0, 0⟩) := by
      simp [tick]
    rw [h2, clampCart_time, stepPhase_time]
    norm_num [PARAMS]

/-- C4 (amended): a tick that ends with |theta| > π/2 clears the running flag
— after any tick the flag is true exactly when it was true before and the
post-clamp state is not fallen — and a tick of a stopped driver changes
nothing, so no automatic stepping happens after a fall; but a start command
sets the flag of a stopped driver back to true, so stepping resumes on start
alone, without a reset. -/
theorem fallen_stops_ticks (gns : Gains) (p : Params) (d : DriverState) :
    ((tick gns p d).isRunning = true ↔
        d.isRunning = true ∧ ¬ fallen (clampCart (stepPhase gns p d.sim))) ∧
      (d.isRunning = false → tick gns p d = d) ∧
      (startCmd ⟨d.sim, false⟩).isRunning = true := by
  refine ⟨?_, ?_, rfl⟩
  · cases hb : d.isRunning with
    | false => simp [tick, hb]
    | true =>
      simp only [tick, hb, if_true]
      by_cases hf : fallen (clampCart (stepPhase gns p d.sim))
      · simp [hf]
      · simp [hf]
  · intro h
    simp [tick, h]

/-- `computeDerivatives` passes the first derivatives through unchanged. -/
theorem cd_xDot (p : Params) (x xd th td u : ℝ) :
    (computeDerivatives p ⟨x, xd, th, td⟩ u).xDot = xd := rfl

theorem cd_thetaDot (p : Params) (x xd th td u : ℝ) :
    (computeDerivatives p ⟨x, xd, th, td⟩ u).thetaDot = td := rfl

/-- The cart acceleration at `PARAMS`, with all constants in fraction form. -/
theorem cd_xDDot (x xd th td u : ℝ) :
    (computeDerivatives PARAMS ⟨x, xd, th, td⟩ u).xDDot
      = (u - 1 / 10 * xd + 1 / 20 * ((td * td) * Real.sin th)
          - 981 / 1000 * (Real.sin th * Real.cos th))
        / (11 / 10 - 1 / 10 * (Real.cos th * Real.cos th)) := by
  show (u - PARAMS.friction * xd + PARAMS.m * PARAMS.l * td * td * Real.sin th
      - PARAMS.m * PARAMS.g * Real.sin th * Real.cos th) / denom PARAMS th = _
  rw [show denom PARAMS th = 11 / 10 - 1 / 10 * (Real.cos th * Real.cos th) from by
    unfold denom PARAMS
    ring_nf]
  congr 1
  unfold PARAMS
  ring_nf

/-- The angular acceleration at `PARAMS`, with all constants in fraction form. -/
theorem cd_thetaDDot (x xd th td u : ℝ) :
    (computeDerivatives PARAMS ⟨x, xd, th, td⟩ u).thetaDDot
      = (10791 / 1000 * Real.sin th
          - Real.cos th * (u - 1 / 10 * xd + 1 / 20 * ((td * td) * Real.sin th)))
        / (1 / 2 * (11 / 10 - 1 / 10 * (Real.cos th * Real.cos th))) := by
  show ((PARAMS.M + PARAMS.m) * PARAMS.g * Real.sin th
      - Real.cos th * (u - PARAMS.friction * xd + PARAMS.m * PARAMS.l * td * td * Real.sin th))
      / (PARAMS.l * denom PARAMS th) = _
  rw [show PARAMS.l * denom PARAMS th
      = 1 / 2 * (11 / 10 - 1 / 10 * (Real.cos th * Real.cos th)) from by
    unfold denom PARAMS
    ring_nf]
  congr 1
  unfold PARAMS
  ring_nf

theorem D_eq : Dsource = Dspec := by
  funext w u
  exact Prod.ext (cd_xDDot 0 w.2.2 w.1 w.2.1 u) (cd_thetaDDot 0 w.2.2 w.1 w.2.1 u)

theorem rk4c_eq_g4c (F : ℝ × ℝ × ℝ → ℝ → ℝ × ℝ) (u : ℝ) (v : ℝ × ℝ × ℝ) :
    rk4c F u (0.01 : ℝ) v = g4c F u v := by
  unfold rk4c g4c
  have h2 : ∀ x y : ℝ, x + y * (0.01 : ℝ) / 2 = x + 1 / 200 * y := by
    intro x y
    ring
  have h1 : ∀ x y : ℝ, x + y * (0.01 : ℝ) = x + 1 / 100 * y := by
    intro x y
    ring
  have h6 : ∀ x k1 k2 k3 k4 : ℝ, x + (k1 + 2 * k2 + 2 * k3 + k4) * (0.01 : ℝ) / 6
      = x + 1 / 600 * ((k1 + 2 * k2) + (2 * k3 + k4)) := by
    intro x k1 k2 k3 k4
    ring
  simp only [h2, h1, h6]

-- One `stepOnce` of the driver at the fixed gains, projected to the three
-- mechanical coordinates that feed back into themselves, equals the
-- closed-loop map `PendChk.f3step`.
set_option maxHeartbeats 1000000 in
theorem stepOnce_proj (s : SimState) :
    ((stepOnce ⟨50, 0, 20⟩ PARAMS s).theta, (stepOnce ⟨50, 0, 20⟩ PARAMS s).thetaDot,
     (stepOnce ⟨50, 0, 20⟩ PARAMS s).xDot)
      = PendChk.f3step (s.theta, s.thetaDot, s.xDot) := by
  have hU : computeControl ⟨50, 0, 20⟩ s = max (-50) (min 50 (50 * s.theta + 20 * s.thetaDot)) := by
    simp [computeControl, pidRaw]
  calc ((stepOnce ⟨50, 0, 20⟩ PARAMS s).theta, (stepOnce ⟨50, 0, 20⟩ PARAMS s).thetaDot,
      (stepOnce ⟨50, 0, 20⟩ PARAMS s).xDot)
      = rk4c Dsource (computeControl ⟨50, 0, 20⟩ s) PARAMS.dt
          (s.theta, s.thetaDot, s.xDot) := rfl
    _ = rk4c Dspec (max (-50) (min 50 (50 * s.theta + 20 * s.thetaDot))) (0.01 : ℝ)
          (s.theta, s.thetaDot, s.xDot) := by
        rw [D_eq, hU, show PARAMS.dt = (0.01 : ℝ) from rfl]
    _ = g4c Dspec (max (-50) (min 50 (50 * s.theta + 20 * s.thetaDot)))
          (s.theta, s.thetaDot, s.xDot) := rk4c_eq_g4c _ _ _
    _ = PendChk.f3step (s.theta, s.thetaDot, s.xDot) := rfl

theorem iterate_proj (s : SimState) (k : ℕ) :
    (((stepOnce ⟨50, 0, 20⟩ PARAMS)^[k] s).theta, ((stepOnce ⟨50, 0, 20⟩ PARAMS)^[k] s).thetaDot,
     ((stepOnce ⟨50, 0, 20⟩ PARAMS)^[k] s).xDot)
      = PendChk.f3step^[k] (s.theta, s.thetaDot, s.xDot) := by
  induction k with
  | zero => simp
  | succ n ih =>
    rw [Function.iterate_succ_apply', Function.iterate_succ_apply', stepOnce_proj, ih]

/-- C9: starting from `theta = 10°` (`initialTheta`) with all other state
components zero and gains `Kp = 50`, `Ki = 0`, `Kd = 20` held fixed, every
state reached within 100 steps of the controller-then-RK4 loop at `dt = 0.01`
(one simulated second) has `|theta| < π/2`, so the fall condition is never
triggered. -/
theorem ten_degree_start_never_falls (k : ℕ) (hk : k ≤ 100) :
    |((stepOnce ⟨50, 0, 20⟩ PARAMS)^[k] (resetState initialTheta)).theta| < Real.pi / 2 ∧
      ¬ fallen ((stepOnce ⟨50, 0, 20⟩ PARAMS)^[k] (resetState initialTheta)) := by
  have hiter := iterate_proj (resetState initialTheta) k
  have hth : ((stepOnce ⟨50, 0, 20⟩ PARAMS)^[k] (resetState initialTheta)).theta
      = (PendChk.f3step^[k] (10 * Real.pi / 180, (0 : ℝ), (0 : ℝ))).1 := by
    have h1 := congrArg Prod.fst hiter
    simpa [resetState, initialTheta] using h1
  have hlt : |((stepOnce ⟨50, 0, 20⟩ PARAMS)^[k] (resetState initialTheta)).theta|
      < Real.pi / 2 := by
    rw [hth]
    exact PendChk.c9_main PendChk.run100 k hk
  exact ⟨hlt, not_lt.mpr hlt.le⟩

theorem ten_degree_start_never_falls_witness :
    100 ≤ 100 ∧
      (|((stepOnce ⟨50, 0, 20⟩ PARAMS)^[100] (resetState initialTheta)).theta| < Real.pi / 2 ∧
        ¬ fallen ((stepOnce ⟨50, 0, 20⟩ PARAMS)^[100] (resetState initialTheta))) :=
  ⟨by norm_num, ten_degree_start_never_falls 100 (by norm_num)⟩

end Pendulum
